import Mathlib

/-!
# Adria-DX12: render-graph clients

A shallow embedding of the render-graph clients `Postprocessor.cpp` and
`VolumetricFogPass.cpp`.  A call of `rg.AddPass` runs the setup callback
synchronously, so a registered pass is recorded together with the sequence of
builder calls its setup callback makes; an execute callback is a function from
its captured state to the sequence of device and command-list calls it makes.
-/

namespace Adria

/-! ## Resource names, descriptors and builder calls -/

/-- The names built by `RG_RES_NAME(identifier)` in the two client files; `Named id`
stands for any other name of the frame. -/
inductive RGResourceName
  | PostprocessMain
  | HDR_RenderTarget
  | VelocityBuffer
  | DepthStencil
  | CloudsOutput
  | BlurredCloudsOutput
  | SSR_Output
  | GBufferNormal
  | FogOutput
  | BlurredDofInput
  | DepthOfFieldOutput
  | MotionBlurOutput
  | BloomExtract
  | BloomOutput
  | SunOutput
  | GodRaysOutput
  | HistoryBuffer
  | TAAOutput
  | FogLightInjectionTargetHistory
  | FogLightInjectionTarget
  | FogFinal
  | Named (id : Nat)
  deriving DecidableEq, Repr

/-- The texture formats the two files use. -/
inductive Format
  | R16G16B16A16_FLOAT
  | R16G16_FLOAT
  deriving DecidableEq, Repr

/-- The texture types the two files use. -/
inductive GfxTextureType
  | GfxTextureType_3D
  deriving DecidableEq, Repr

/-- A texture descriptor (`RGTextureDesc`, `TextureDesc`, `GfxTextureDesc`): a field is
`none` when the code leaves it value-initialised.  `clear_value` holds the four
components of `ClearValue(r, g, b, a)`; `bind_flags` and `initial_state` their
enumerator names. -/
structure TextureDesc where
  type : Option GfxTextureType := none
  width : Option Nat := none
  height : Option Nat := none
  depth : Option Nat := none
  mip_levels : Option Nat := none
  format : Option Format := none
  clear_value : Option (List Int) := none
  bind_flags : Option String := none
  initial_state : Option String := none
  deriving DecidableEq, Repr

/-- A persistent texture object owned outside the frame; `address` is the identity of the
object a `unique_ptr` holds. -/
structure Texture where
  address : Nat
  desc : TextureDesc
  deriving DecidableEq, Repr

/-- Load and store operations of a render-target or depth-stencil access. -/
inductive ERGLoadStoreAccessOp
  | Discard_Preserve
  | Clear_Preserve
  | Preserve_Preserve
  deriving DecidableEq, Repr

/-- The read-access stages named at the call sites. -/
inductive ERGReadAccess
  | ReadAccess_PixelShader
  | ReadAccess_NonPixelShader
  deriving DecidableEq, Repr

/-- One call on `RenderGraphBuilder`.  The access argument of `ReadTexture` is `none` where the
call site leaves it to the default argument. -/
inductive BuilderCall
  | DeclareTexture (name : RGResourceName) (desc : TextureDesc)
  | DeclareBuffer (name : RGResourceName)
  | WriteRenderTarget (name : RGResourceName) (op : ERGLoadStoreAccessOp)
  | WriteTexture (name : RGResourceName)
  | ReadTexture (name : RGResourceName) (access : Option ERGReadAccess)
  | ReadDepthStencil (name : RGResourceName) (op : ERGLoadStoreAccessOp)
  | WriteCopyDstTexture (name : RGResourceName)
  | ReadCopySrcTexture (name : RGResourceName)
  | SetViewport (width height : Nat)
  deriving DecidableEq, Repr

/-- One statement of a setup callback: a builder call, and the pass-data field the returned
access token is assigned to (`data.field = builder.Call(...)`), if any. -/
structure SetupStmt where
  field : Option String
  call : BuilderCall
  deriving DecidableEq, Repr

/-- Pass types. -/
inductive ERGPassType
  | Graphics
  | Compute
  | Copy
  deriving DecidableEq, Repr

/-- Pass flags used at the registrations. -/
inductive ERGPassFlags
  | None
  | ForceNoCull
  deriving DecidableEq, Repr

/-! ## Scene and settings -/

/-- Light types.  `Enums.h` is not among the sources: the code names only `Directional`;
every other enumerator is `NonDirectional tag`. -/
inductive ELightType
  | Directional
  | NonDirectional (tag : Nat)
  deriving DecidableEq, Repr

/-- The fields of the `Light` component that decide control flow (the remaining fields are
shading parameters). -/
structure Light where
  type : ELightType := ELightType.Directional
  active : Bool := true
  lens_flare : Bool := false
  god_rays : Bool := false
  deriving DecidableEq, Repr

/-- Reflection modes; the code compares against `SSR` only. -/
inductive EReflections
  | SSR
  | NotSSR (tag : Nat)
  deriving DecidableEq, Repr

/-- Anti-aliasing flags; the code tests `AntiAliasing_TAA` only. -/
inductive AntiAliasing
  | AntiAliasing_TAA
  | AntiAliasing_Flag (tag : Nat)
  deriving DecidableEq, Repr

/-- Blend modes handed to the copy-to-texture pass. -/
inductive EBlendMode
  | AlphaBlend
  | AdditiveBlend
  deriving DecidableEq, Repr

/-- The fields of `PostprocessSettings` that `AddPasses` reads; `anti_aliasing` is the set of
flags that are on. -/
structure PostprocessSettings where
  clouds : Bool := false
  reflections : EReflections := EReflections.NotSSR 0
  fog : Bool := false
  dof : Bool := false
  motion_blur : Bool := false
  bloom : Bool := false
  anti_aliasing : List AntiAliasing := []
  deriving DecidableEq, Repr

/-- The test `HasAnyFlag(value, flag)` on a flag set. -/
def HasAnyFlag (value : List AntiAliasing) (flag : AntiAliasing) : Bool :=
  decide (flag ∈ value)

/-- The constant-buffer addresses of `GlobalBlackboardData` the execute callbacks use. -/
structure GlobalBlackboardData where
  frame_cbuffer_address : Nat
  postprocess_cbuffer_address : Nat
  weather_cbuffer_address : Nat
  compute_cbuffer_address : Nat
  deriving DecidableEq, Repr

/-- The constant-buffer address of `FrameBlackboardData` the fog execute callbacks use. -/
structure FrameBlackboardData where
  frame_cbuffer_address : Nat
  deriving DecidableEq, Repr

/-! ## Registered passes -/

/-- The execute callback of a registered pass, as the closure the registration builds: which
lambda it is and the values it captures by copy.  `External tag` is a callback defined
outside the two files. -/
inductive ExecuteCallback
  | CopyHDR
  | VelocityBuffer (global_data : GlobalBlackboardData)
  | VolumetricClouds (global_data : GlobalBlackboardData)
  | SSR (global_data : GlobalBlackboardData)
  | Fog (global_data : GlobalBlackboardData)
  | BloomExtract (global_data : GlobalBlackboardData)
  | BloomCombine (global_data : GlobalBlackboardData)
  | Sun (global_data : GlobalBlackboardData) (sun : Nat)
  | GodRays (global_data : GlobalBlackboardData) (light : Light)
  | LensFlare (global_data : GlobalBlackboardData) (light : Light)
  | DepthOfField (global_data : GlobalBlackboardData)
  | MotionBlur (global_data : GlobalBlackboardData)
  | HistoryCopy
  | TAA (global_data : GlobalBlackboardData)
  | FogLightInjection (frame_data : FrameBlackboardData)
  | FogScatteringIntegration (frame_data : FrameBlackboardData)
  | FogCombine
  | External (tag : Nat)
  deriving DecidableEq, Repr

/-- A pass as `rg.AddPass(name, setup, execute, type, flags)` registers it: `setup` is the
sequence of statements the setup callback runs at registration. -/
structure RGPass where
  name : String
  setup : List SetupStmt
  execute : ExecuteCallback
  type : ERGPassType
  flags : ERGPassFlags
  deriving DecidableEq, Repr

/-- A call on the render graph itself. -/
inductive RGOp
  | ImportTexture (name : RGResourceName) (texture : Option Texture)
  | ExportTexture (name : RGResourceName) (texture : Option Texture)
  | AddPass (pass : RGPass)
  deriving DecidableEq, Repr

/-- A call of one of the pass objects whose `AddPass` is defined outside the two files. -/
inductive HelperCall
  | blur_pass (src dst : RGResourceName) (pass_name : String)
  | copy_to_texture_pass (dst src : RGResourceName) (mode : EBlendMode)
  | generate_mips_pass (texture : RGResourceName)
  deriving DecidableEq, Repr

/-- One entry of the registration sequence of a frame: a graph call made by the file itself,
or a helper-pass call together with the graph calls that helper makes. -/
inductive RGEvent
  | direct (op : RGOp)
  | helper (call : HelperCall) (ops : List RGOp)
  deriving DecidableEq, Repr

/-- The helper passes `BlurPass`, `CopyToTexturePass` and `GenerateMipsPass` are defined outside
the sources; each `AddPass` is a parameter giving the graph calls it makes. -/
structure HelperPasses where
  blur_pass : RGResourceName → RGResourceName → String → List RGOp
  copy_to_texture_pass : RGResourceName → RGResourceName → EBlendMode → List RGOp
  generate_mips_pass : RGResourceName → List RGOp

/-- The blackboard entries the two files look up. -/
structure Blackboard where
  global_data : Option GlobalBlackboardData
  frame_data : Option FrameBlackboardData
  deriving DecidableEq, Repr

/-- The render graph while a frame is being built: its blackboard and the registration
sequence so far. -/
structure RenderGraph where
  blackboard : Blackboard
  events : List RGEvent
  deriving DecidableEq, Repr

/-- A fatal failure while building the frame; it carries the graph as it stood when the
failure occurred. -/
structure RGFailure where
  message : String
  graph : RenderGraph
  deriving DecidableEq, Repr

/-- Registration `rg.AddPass(...)`. -/
def RenderGraph.AddPass (rg : RenderGraph) (pass : RGPass) : RenderGraph :=
  { rg with events := rg.events ++ [RGEvent.direct (RGOp.AddPass pass)] }

/-- Registration `rg.ImportTexture(name, texture)`. -/
def RenderGraph.ImportTexture (rg : RenderGraph) (name : RGResourceName)
    (texture : Option Texture) : RenderGraph :=
  { rg with events := rg.events ++ [RGEvent.direct (RGOp.ImportTexture name texture)] }

/-- Registration `rg.ExportTexture(name, texture)`. -/
def RenderGraph.ExportTexture (rg : RenderGraph) (name : RGResourceName)
    (texture : Option Texture) : RenderGraph :=
  { rg with events := rg.events ++ [RGEvent.direct (RGOp.ExportTexture name texture)] }

/-- A helper-pass call: the graph calls the helper makes are appended as one entry. -/
def RenderGraph.CallHelper (rg : RenderGraph) (call : HelperCall) (ops : List RGOp) :
    RenderGraph :=
  { rg with events := rg.events ++ [RGEvent.helper call ops] }

/-- Modelled from the spec: `Blackboard::GetChecked<GlobalBlackboardData>()` is declared outside
the sources; section 4.5 makes the read get-or-fail, a missing entry being a fatal programming
error. -/
def GetChecked (rg : RenderGraph) : Except RGFailure GlobalBlackboardData :=
  match rg.blackboard.global_data with
  | some global_data => Except.ok global_data
  | none => Except.error ⟨"GlobalBlackboardData", rg⟩

/-! ## Postprocessor: registration -/

/-- The members of `Postprocessor` that registration and execution use.  The registry view
`reg.view<Light>()` is passed to `AddPasses` as the list of its entities with their `Light`
components, in iteration order. -/
structure Postprocessor where
  width : Nat
  height : Nat
  settings : PostprocessSettings
  cloud_textures : List Nat
  lens_flare_textures : List Nat
  final_resource : RGResourceName
  history_buffer : Option Texture
  deriving DecidableEq, Repr

namespace Postprocessor

/-- The call `blur_pass.AddPass(rg, src, dst, name)`. -/
def blur_pass_AddPass (helpers : HelperPasses) (rg : RenderGraph)
    (src dst : RGResourceName) (pass_name : String) : RenderGraph :=
  rg.CallHelper (HelperCall.blur_pass src dst pass_name) (helpers.blur_pass src dst pass_name)

/-- The call `copy_to_texture_pass.AddPass(rg, dst, src, mode)`. -/
def copy_to_texture_pass_AddPass (helpers : HelperPasses) (rg : RenderGraph)
    (dst src : RGResourceName) (mode : EBlendMode) : RenderGraph :=
  rg.CallHelper (HelperCall.copy_to_texture_pass dst src mode)
    (helpers.copy_to_texture_pass dst src mode)

/-- The call `generate_mips_pass.AddPass(rg, texture)`. -/
def generate_mips_pass_AddPass (helpers : HelperPasses) (rg : RenderGraph)
    (texture : RGResourceName) : RenderGraph :=
  rg.CallHelper (HelperCall.generate_mips_pass texture) (helpers.generate_mips_pass texture)

/-- Setup callback of the Copy HDR Pass. -/
def AddCopyHDRPass.setup (pp : Postprocessor) : List SetupStmt :=
  let postprocess_desc : TextureDesc :=
    { width := some pp.width, height := some pp.height, format := some Format.R16G16B16A16_FLOAT }
  [ ⟨none, BuilderCall.DeclareTexture RGResourceName.PostprocessMain postprocess_desc⟩,
    ⟨some "copy_dst", BuilderCall.WriteCopyDstTexture RGResourceName.PostprocessMain⟩,
    ⟨some "copy_src", BuilderCall.ReadCopySrcTexture RGResourceName.HDR_RenderTarget⟩ ]

/-- The pass "Copy HDR Pass" as it is registered. -/
def AddCopyHDRPass.pass (pp : Postprocessor) : RGPass :=
  { name := "Copy HDR Pass", setup := AddCopyHDRPass.setup pp,
    execute := ExecuteCallback.CopyHDR, type := ERGPassType.Copy, flags := ERGPassFlags.None }

/-- `Postprocessor::AddCopyHDRPass`. -/
def AddCopyHDRPass (pp : Postprocessor) (rg : RenderGraph) : RenderGraph :=
  rg.AddPass (AddCopyHDRPass.pass pp)

/-- Setup callback of the Velocity Buffer Pass. -/
def AddVelocityBufferPass.setup (pp : Postprocessor) : List SetupStmt :=
  let velocity_buffer_desc : TextureDesc :=
    { width := some pp.width, height := some pp.height, format := some Format.R16G16_FLOAT }
  [ ⟨none, BuilderCall.SetViewport pp.width pp.height⟩,
    ⟨none, BuilderCall.DeclareTexture RGResourceName.VelocityBuffer velocity_buffer_desc⟩,
    ⟨none, BuilderCall.WriteRenderTarget RGResourceName.VelocityBuffer
      ERGLoadStoreAccessOp.Discard_Preserve⟩,
    ⟨some "depth_srv", BuilderCall.ReadTexture RGResourceName.DepthStencil
      (some ERGReadAccess.ReadAccess_PixelShader)⟩ ]

/-- The pass "Velocity Buffer Pass" as it is registered. -/
def AddVelocityBufferPass.pass (pp : Postprocessor) (global_data : GlobalBlackboardData) : RGPass :=
  { name := "Velocity Buffer Pass", setup := AddVelocityBufferPass.setup pp,
    execute := ExecuteCallback.VelocityBuffer global_data,
    type := ERGPassType.Graphics, flags := ERGPassFlags.None }

/-- `Postprocessor::AddVelocityBufferPass`. -/
def AddVelocityBufferPass (pp : Postprocessor) (rg : RenderGraph) :
    Except RGFailure RenderGraph := do
  let global_data ← GetChecked rg
  pure (rg.AddPass (AddVelocityBufferPass.pass pp global_data))

/-- Setup callback of the Volumetric Clouds Pass. -/
def AddVolumetricCloudsPass.setup (pp : Postprocessor) : List SetupStmt :=
  let clouds_output_desc : TextureDesc :=
    { clear_value := some [0, 0, 0, 0], width := some pp.width, height := some pp.height,
      format := some Format.R16G16B16A16_FLOAT }
  [ ⟨none, BuilderCall.DeclareTexture RGResourceName.CloudsOutput clouds_output_desc⟩,
    ⟨some "depth", BuilderCall.ReadTexture RGResourceName.DepthStencil
      (some ERGReadAccess.ReadAccess_PixelShader)⟩,
    ⟨none, BuilderCall.WriteRenderTarget RGResourceName.CloudsOutput
      ERGLoadStoreAccessOp.Clear_Preserve⟩,
    ⟨none, BuilderCall.SetViewport pp.width pp.height⟩ ]

/-- The pass "Volumetric Clouds Pass" as it is registered. -/
def AddVolumetricCloudsPass.pass (pp : Postprocessor) (global_data : GlobalBlackboardData) : RGPass :=
  { name := "Volumetric Clouds Pass", setup := AddVolumetricCloudsPass.setup pp,
    execute := ExecuteCallback.VolumetricClouds global_data,
    type := ERGPassType.Graphics, flags := ERGPassFlags.None }

/-- `Postprocessor::AddVolumetricCloudsPass`. -/
def AddVolumetricCloudsPass (pp : Postprocessor) (rg : RenderGraph) :
    Except RGFailure RenderGraph := do
  let global_data ← GetChecked rg
  pure (rg.AddPass (AddVolumetricCloudsPass.pass pp global_data))

/-- Setup callback of the SSR Pass; `last_resource` is the copy of `final_resource` taken
before the registration. -/
def AddSSRPass.setup (pp : Postprocessor) (last_resource : RGResourceName) : List SetupStmt :=
  let ssr_output_desc : TextureDesc :=
    { width := some pp.width, height := some pp.height, format := some Format.R16G16B16A16_FLOAT }
  [ ⟨none, BuilderCall.DeclareTexture RGResourceName.SSR_Output ssr_output_desc⟩,
    ⟨none, BuilderCall.WriteRenderTarget RGResourceName.SSR_Output
      ERGLoadStoreAccessOp.Discard_Preserve⟩,
    ⟨some "input", BuilderCall.ReadTexture last_resource
      (some ERGReadAccess.ReadAccess_PixelShader)⟩,
    ⟨some "normals", BuilderCall.ReadTexture RGResourceName.GBufferNormal
      (some ERGReadAccess.ReadAccess_PixelShader)⟩,
    ⟨some "depth", BuilderCall.ReadTexture RGResourceName.DepthStencil
      (some ERGReadAccess.ReadAccess_PixelShader)⟩,
    ⟨none, BuilderCall.SetViewport pp.width pp.height⟩ ]

/-- The pass "SSR Pass" as it is registered. -/
def AddSSRPass.pass (pp : Postprocessor) (global_data : GlobalBlackboardData) (last_resource : RGResourceName) : RGPass :=
  { name := "SSR Pass", setup := AddSSRPass.setup pp last_resource,
    execute := ExecuteCallback.SSR global_data,
    type := ERGPassType.Graphics, flags := ERGPassFlags.None }

/-- `Postprocessor::AddSSRPass`. -/
def AddSSRPass (pp : Postprocessor) (rg : RenderGraph) : Except RGFailure RenderGraph := do
  let global_data ← GetChecked rg
  let last_resource := pp.final_resource
  pure (rg.AddPass (AddSSRPass.pass pp global_data last_resource))

/-- Setup callback of the Fog Pass. -/
def AddFogPass.setup (pp : Postprocessor) (last_resource : RGResourceName) : List SetupStmt :=
  let fog_output_desc : TextureDesc :=
    { clear_value := some [0, 0, 0, 0], width := some pp.width, height := some pp.height,
      format := some Format.R16G16B16A16_FLOAT }
  [ ⟨none, BuilderCall.DeclareTexture RGResourceName.FogOutput fog_output_desc⟩,
    ⟨some "depth", BuilderCall.ReadTexture RGResourceName.DepthStencil
      (some ERGReadAccess.ReadAccess_PixelShader)⟩,
    ⟨some "input", BuilderCall.ReadTexture last_resource
      (some ERGReadAccess.ReadAccess_PixelShader)⟩,
    ⟨none, BuilderCall.WriteRenderTarget RGResourceName.FogOutput
      ERGLoadStoreAccessOp.Discard_Preserve⟩,
    ⟨none, BuilderCall.SetViewport pp.width pp.height⟩ ]

/-- The pass "Fog Pass" as it is registered. -/
def AddFogPass.pass (pp : Postprocessor) (global_data : GlobalBlackboardData) (last_resource : RGResourceName) : RGPass :=
  { name := "Fog Pass", setup := AddFogPass.setup pp last_resource,
    execute := ExecuteCallback.Fog global_data,
    type := ERGPassType.Graphics, flags := ERGPassFlags.None }

/-- `Postprocessor::AddFogPass`. -/
def AddFogPass (pp : Postprocessor) (rg : RenderGraph) : Except RGFailure RenderGraph := do
  let global_data ← GetChecked rg
  let last_resource := pp.final_resource
  pure (rg.AddPass (AddFogPass.pass pp global_data last_resource))

/-- Setup callback of the BloomExtract Pass. -/
def AddBloomPass.extract_setup (pp : Postprocessor) (last_resource : RGResourceName) :
    List SetupStmt :=
  let bloom_extract_desc : TextureDesc :=
    { width := some pp.width, height := some pp.height, mip_levels := some 5,
      format := some Format.R16G16B16A16_FLOAT }
  [ ⟨none, BuilderCall.DeclareTexture RGResourceName.BloomExtract bloom_extract_desc⟩,
    ⟨some "extract", BuilderCall.WriteTexture RGResourceName.BloomExtract⟩,
    ⟨some "input", BuilderCall.ReadTexture last_resource
      (some ERGReadAccess.ReadAccess_NonPixelShader)⟩ ]

/-- Setup callback of the BloomCombine Pass; it reads the member `final_resource` itself, as it
stands when the pass is registered. -/
def AddBloomPass.combine_setup (pp : Postprocessor) : List SetupStmt :=
  let bloom_output_desc : TextureDesc :=
    { width := some pp.width, height := some pp.height, format := some Format.R16G16B16A16_FLOAT }
  [ ⟨none, BuilderCall.DeclareTexture RGResourceName.BloomOutput bloom_output_desc⟩,
    ⟨some "output", BuilderCall.WriteTexture RGResourceName.BloomOutput⟩,
    ⟨some "extract", BuilderCall.ReadTexture RGResourceName.BloomExtract
      (some ERGReadAccess.ReadAccess_NonPixelShader)⟩,
    ⟨some "input", BuilderCall.ReadTexture pp.final_resource
      (some ERGReadAccess.ReadAccess_NonPixelShader)⟩ ]

/-- The pass "BloomExtract Pass" as it is registered. -/
def AddBloomPass.extract_pass (pp : Postprocessor) (global_data : GlobalBlackboardData) (last_resource : RGResourceName) : RGPass :=
  { name := "BloomExtract Pass", setup := AddBloomPass.extract_setup pp last_resource,
    execute := ExecuteCallback.BloomExtract global_data,
    type := ERGPassType.Compute, flags := ERGPassFlags.None }

/-- The pass "BloomCombine Pass" as it is registered. -/
def AddBloomPass.combine_pass (pp : Postprocessor) (global_data : GlobalBlackboardData) : RGPass :=
  { name := "BloomCombine Pass", setup := AddBloomPass.combine_setup pp,
    execute := ExecuteCallback.BloomCombine global_data,
    type := ERGPassType.Compute, flags := ERGPassFlags.None }

/-- `Postprocessor::AddBloomPass`. -/
def AddBloomPass (helpers : HelperPasses) (pp : Postprocessor) (rg : RenderGraph) :
    Except RGFailure RenderGraph := do
  let global_data ← GetChecked rg
  let last_resource := pp.final_resource
  let rg := rg.AddPass (AddBloomPass.extract_pass pp global_data last_resource)
  let rg := generate_mips_pass_AddPass helpers rg RGResourceName.BloomExtract
  pure (rg.AddPass (AddBloomPass.combine_pass pp global_data))

/-- Setup callback of the Sun Pass. -/
def AddSunPass.setup (pp : Postprocessor) : List SetupStmt :=
  let sun_output_desc : TextureDesc :=
    { format := some Format.R16G16B16A16_FLOAT, width := some pp.width,
      height := some pp.height, clear_value := some [0, 0, 0, 0] }
  [ ⟨none, BuilderCall.DeclareTexture RGResourceName.SunOutput sun_output_desc⟩,
    ⟨none, BuilderCall.ReadDepthStencil RGResourceName.DepthStencil
      ERGLoadStoreAccessOp.Preserve_Preserve⟩,
    ⟨none, BuilderCall.WriteRenderTarget RGResourceName.SunOutput
      ERGLoadStoreAccessOp.Clear_Preserve⟩,
    ⟨none, BuilderCall.SetViewport pp.width pp.height⟩ ]

/-- The pass "Sun Pass" as it is registered. -/
def AddSunPass.pass (pp : Postprocessor) (global_data : GlobalBlackboardData) (sun : Nat) : RGPass :=
  { name := "Sun Pass", setup := AddSunPass.setup pp,
    execute := ExecuteCallback.Sun global_data sun,
    type := ERGPassType.Graphics, flags := ERGPassFlags.None }

/-- `Postprocessor::AddSunPass`. -/
def AddSunPass (pp : Postprocessor) (rg : RenderGraph) (sun : Nat) :
    Except RGFailure RenderGraph := do
  let global_data ← GetChecked rg
  pure (rg.AddPass (AddSunPass.pass pp global_data sun))

/-- Setup callback of the GodRays Pass. -/
def AddGodRaysPass.setup (pp : Postprocessor) : List SetupStmt :=
  let god_rays_desc : TextureDesc :=
    { format := some Format.R16G16B16A16_FLOAT, width := some pp.width,
      height := some pp.height, clear_value := some [0, 0, 0, 0] }
  [ ⟨none, BuilderCall.DeclareTexture RGResourceName.GodRaysOutput god_rays_desc⟩,
    ⟨none, BuilderCall.WriteRenderTarget RGResourceName.GodRaysOutput
      ERGLoadStoreAccessOp.Clear_Preserve⟩,
    ⟨some "sun_output", BuilderCall.ReadTexture RGResourceName.SunOutput
      (some ERGReadAccess.ReadAccess_PixelShader)⟩,
    ⟨none, BuilderCall.SetViewport pp.width pp.height⟩ ]

/-- The pass "GodRays Pass" as it is registered. -/
def AddGodRaysPass.pass (pp : Postprocessor) (global_data : GlobalBlackboardData) (light : Light) : RGPass :=
  { name := "GodRays Pass", setup := AddGodRaysPass.setup pp,
    execute := ExecuteCallback.GodRays global_data light,
    type := ERGPassType.Graphics, flags := ERGPassFlags.None }

/-- `Postprocessor::AddGodRaysPass`. -/
def AddGodRaysPass (pp : Postprocessor) (rg : RenderGraph) (light : Light) :
    Except RGFailure RenderGraph := do
  let global_data ← GetChecked rg
  pure (rg.AddPass (AddGodRaysPass.pass pp global_data light))

/-- Setup callback of the LensFlare Pass. -/
def AddLensFlarePass.setup (pp : Postprocessor) : List SetupStmt :=
  [ ⟨none, BuilderCall.WriteRenderTarget RGResourceName.PostprocessMain
      ERGLoadStoreAccessOp.Preserve_Preserve⟩,
    ⟨some "depth", BuilderCall.ReadTexture RGResourceName.DepthStencil
      (some ERGReadAccess.ReadAccess_PixelShader)⟩,
    ⟨none, BuilderCall.SetViewport pp.width pp.height⟩ ]

/-- The pass "LensFlare Pass" as it is registered. -/
def AddLensFlarePass.pass (pp : Postprocessor) (global_data : GlobalBlackboardData) (light : Light) : RGPass :=
  { name := "LensFlare Pass", setup := AddLensFlarePass.setup pp,
    execute := ExecuteCallback.LensFlare global_data light,
    type := ERGPassType.Graphics, flags := ERGPassFlags.None }

/-- `Postprocessor::AddLensFlarePass`. -/
def AddLensFlarePass (pp : Postprocessor) (rg : RenderGraph) (light : Light) :
    Except RGFailure RenderGraph := do
  let global_data ← GetChecked rg
  pure (rg.AddPass (AddLensFlarePass.pass pp global_data light))

/-- Setup callback of the DepthOfField Pass. -/
def AddDepthOfFieldPass.setup (pp : Postprocessor) (last_resource : RGResourceName) :
    List SetupStmt :=
  let dof_output_desc : TextureDesc :=
    { width := some pp.width, height := some pp.height, format := some Format.R16G16B16A16_FLOAT }
  [ ⟨none, BuilderCall.DeclareTexture RGResourceName.DepthOfFieldOutput dof_output_desc⟩,
    ⟨none, BuilderCall.WriteRenderTarget RGResourceName.DepthOfFieldOutput
      ERGLoadStoreAccessOp.Discard_Preserve⟩,
    ⟨some "input", BuilderCall.ReadTexture last_resource
      (some ERGReadAccess.ReadAccess_PixelShader)⟩,
    ⟨some "blurred_input", BuilderCall.ReadTexture RGResourceName.BlurredDofInput
      (some ERGReadAccess.ReadAccess_PixelShader)⟩,
    ⟨some "depth", BuilderCall.ReadTexture RGResourceName.DepthStencil
      (some ERGReadAccess.ReadAccess_PixelShader)⟩,
    ⟨none, BuilderCall.SetViewport pp.width pp.height⟩ ]

/-- The pass "DepthOfField Pass" as it is registered. -/
def AddDepthOfFieldPass.pass (pp : Postprocessor) (global_data : GlobalBlackboardData) (last_resource : RGResourceName) : RGPass :=
  { name := "DepthOfField Pass", setup := AddDepthOfFieldPass.setup pp last_resource,
    execute := ExecuteCallback.DepthOfField global_data,
    type := ERGPassType.Graphics, flags := ERGPassFlags.None }

/-- `Postprocessor::AddDepthOfFieldPass`. -/
def AddDepthOfFieldPass (pp : Postprocessor) (rg : RenderGraph) :
    Except RGFailure RenderGraph := do
  let global_data ← GetChecked rg
  let last_resource := pp.final_resource
  pure (rg.AddPass (AddDepthOfFieldPass.pass pp global_data last_resource))

/-- Setup callback of the Motion Blur Pass. -/
def AddMotionBlurPass.setup (pp : Postprocessor) (last_resource : RGResourceName) :
    List SetupStmt :=
  let motion_blur_desc : TextureDesc :=
    { width := some pp.width, height := some pp.height, format := some Format.R16G16B16A16_FLOAT }
  [ ⟨none, BuilderCall.SetViewport pp.width pp.height⟩,
    ⟨none, BuilderCall.DeclareTexture RGResourceName.MotionBlurOutput motion_blur_desc⟩,
    ⟨none, BuilderCall.WriteRenderTarget RGResourceName.MotionBlurOutput
      ERGLoadStoreAccessOp.Discard_Preserve⟩,
    ⟨some "input_srv", BuilderCall.ReadTexture last_resource
      (some ERGReadAccess.ReadAccess_PixelShader)⟩,
    ⟨some "velocity_srv", BuilderCall.ReadTexture RGResourceName.VelocityBuffer
      (some ERGReadAccess.ReadAccess_PixelShader)⟩ ]

/-- The pass "Motion Blur Pass" as it is registered. -/
def AddMotionBlurPass.pass (pp : Postprocessor) (global_data : GlobalBlackboardData) (last_resource : RGResourceName) : RGPass :=
  { name := "Motion Blur Pass", setup := AddMotionBlurPass.setup pp last_resource,
    execute := ExecuteCallback.MotionBlur global_data,
    type := ERGPassType.Graphics, flags := ERGPassFlags.None }

/-- `Postprocessor::AddMotionBlurPass`. -/
def AddMotionBlurPass (pp : Postprocessor) (rg : RenderGraph) :
    Except RGFailure RenderGraph := do
  let global_data ← GetChecked rg
  let last_resource := pp.final_resource
  pure (rg.AddPass (AddMotionBlurPass.pass pp global_data last_resource))

/-- Setup callback of the History Copy Pass: the descriptor `history_desc` it fills in is handed
to no builder call. -/
def AddHistoryCopyPass.setup (_pp : Postprocessor) (last_resource : RGResourceName) :
    List SetupStmt :=
  [ ⟨some "copy_dst", BuilderCall.WriteCopyDstTexture RGResourceName.HistoryBuffer⟩,
    ⟨some "copy_src", BuilderCall.ReadCopySrcTexture last_resource⟩ ]

/-- The pass "History Copy Pass" as it is registered. -/
def AddHistoryCopyPass.pass (pp : Postprocessor) (last_resource : RGResourceName) : RGPass :=
  { name := "History Copy Pass", setup := AddHistoryCopyPass.setup pp last_resource,
    execute := ExecuteCallback.HistoryCopy,
    type := ERGPassType.Copy, flags := ERGPassFlags.None }

/-- `Postprocessor::AddHistoryCopyPass`. -/
def AddHistoryCopyPass (pp : Postprocessor) (rg : RenderGraph) : RenderGraph :=
  let last_resource := pp.final_resource
  rg.AddPass (AddHistoryCopyPass.pass pp last_resource)

/-- Setup callback of the TAA Pass. -/
def AddTAAPass.setup (pp : Postprocessor) (last_resource : RGResourceName) : List SetupStmt :=
  let taa_desc : TextureDesc :=
    { width := some pp.width, height := some pp.height, format := some Format.R16G16B16A16_FLOAT }
  [ ⟨none, BuilderCall.SetViewport pp.width pp.height⟩,
    ⟨none, BuilderCall.DeclareTexture RGResourceName.TAAOutput taa_desc⟩,
    ⟨none, BuilderCall.WriteRenderTarget RGResourceName.TAAOutput
      ERGLoadStoreAccessOp.Discard_Preserve⟩,
    ⟨some "input_srv", BuilderCall.ReadTexture last_resource
      (some ERGReadAccess.ReadAccess_PixelShader)⟩,
    ⟨some "history_srv", BuilderCall.ReadTexture RGResourceName.HistoryBuffer
      (some ERGReadAccess.ReadAccess_PixelShader)⟩,
    ⟨some "velocity_srv", BuilderCall.ReadTexture RGResourceName.VelocityBuffer
      (some ERGReadAccess.ReadAccess_PixelShader)⟩ ]

/-- The pass "TAA Pass" as it is registered. -/
def AddTAAPass.pass (pp : Postprocessor) (global_data : GlobalBlackboardData) (last_resource : RGResourceName) : RGPass :=
  { name := "TAA Pass", setup := AddTAAPass.setup pp last_resource,
    execute := ExecuteCallback.TAA global_data,
    type := ERGPassType.Graphics, flags := ERGPassFlags.None }

/-- `Postprocessor::AddTAAPass`. -/
def AddTAAPass (pp : Postprocessor) (rg : RenderGraph) : Except RGFailure RenderGraph := do
  let global_data ← GetChecked rg
  let last_resource := pp.final_resource
  let rg := rg.ImportTexture RGResourceName.HistoryBuffer pp.history_buffer
  pure (rg.AddPass (AddTAAPass.pass pp global_data last_resource))

/-- The first loop of `AddPasses`: a LensFlare pass for every active light with `lens_flare`. -/
def AddPasses.lens_flare_loop (pp : Postprocessor) :
    List (Nat × Light) → RenderGraph → Except RGFailure RenderGraph
  | [], rg => pure rg
  | (_, light_data) :: rest, rg =>
    if !light_data.active || !light_data.lens_flare then
      AddPasses.lens_flare_loop pp rest rg
    else do
      let rg ← AddLensFlarePass pp rg light_data
      AddPasses.lens_flare_loop pp rest rg

/-- The second loop of `AddPasses`: it skips inactive lights and stops (`break`) after the first
active directional light. -/
def AddPasses.sun_loop (helpers : HelperPasses) (pp : Postprocessor) :
    List (Nat × Light) → RenderGraph → Except RGFailure RenderGraph
  | [], rg => pure rg
  | (light_entity, light) :: rest, rg =>
    if !light.active then
      AddPasses.sun_loop helpers pp rest rg
    else if light.type = ELightType.Directional then do
      let rg ← AddSunPass pp rg light_entity
      if light.god_rays then do
        let rg ← AddGodRaysPass pp rg light
        pure (copy_to_texture_pass_AddPass helpers rg pp.final_resource
          RGResourceName.GodRaysOutput EBlendMode.AdditiveBlend)
      else
        pure (copy_to_texture_pass_AddPass helpers rg pp.final_resource
          RGResourceName.SunOutput EBlendMode.AdditiveBlend)
    else
      AddPasses.sun_loop helpers pp rest rg

/-- `Postprocessor::AddPasses`: the updated object and graph, or the failure of a blackboard
lookup. -/
def AddPasses (helpers : HelperPasses) (pp : Postprocessor) (lights : List (Nat × Light))
    (rg : RenderGraph) (_settings : PostprocessSettings) :
    Except RGFailure (Postprocessor × RenderGraph) := do
  let pp := { pp with settings := _settings }
  let rg ← AddVelocityBufferPass pp rg
  let rg := AddCopyHDRPass pp rg
  let pp := { pp with final_resource := RGResourceName.PostprocessMain }
  let rg ← AddPasses.lens_flare_loop pp lights rg
  let rg ←
    (if pp.settings.clouds then do
      let rg ← AddVolumetricCloudsPass pp rg
      let rg := blur_pass_AddPass helpers rg RGResourceName.CloudsOutput
        RGResourceName.BlurredCloudsOutput "Volumetric Clouds"
      pure (copy_to_texture_pass_AddPass helpers rg RGResourceName.PostprocessMain
        RGResourceName.BlurredCloudsOutput EBlendMode.AlphaBlend)
    else pure rg)
  let (pp, rg) ←
    (if pp.settings.reflections = EReflections.SSR then do
      let rg ← AddSSRPass pp rg
      pure ({ pp with final_resource := RGResourceName.SSR_Output }, rg)
    else pure (pp, rg))
  let (pp, rg) ←
    (if pp.settings.fog then do
      let rg ← AddFogPass pp rg
      pure ({ pp with final_resource := RGResourceName.FogOutput }, rg)
    else pure (pp, rg))
  let (pp, rg) ←
    (if pp.settings.dof then do
      let rg := blur_pass_AddPass helpers rg pp.final_resource RGResourceName.BlurredDofInput "DoF"
      let rg ← AddDepthOfFieldPass pp rg
      pure ({ pp with final_resource := RGResourceName.DepthOfFieldOutput }, rg)
    else pure (pp, rg))
  let (pp, rg) ←
    (if pp.settings.motion_blur then do
      let rg ← AddMotionBlurPass pp rg
      pure ({ pp with final_resource := RGResourceName.MotionBlurOutput }, rg)
    else pure (pp, rg))
  let (pp, rg) ←
    (if pp.settings.bloom then do
      let rg ← AddBloomPass helpers pp rg
      pure ({ pp with final_resource := RGResourceName.BloomOutput }, rg)
    else pure (pp, rg))
  let rg ← AddPasses.sun_loop helpers pp lights rg
  if HasAnyFlag pp.settings.anti_aliasing AntiAliasing.AntiAliasing_TAA then do
    let rg ← AddTAAPass pp rg
    let pp := { pp with final_resource := RGResourceName.TAAOutput }
    let rg := AddHistoryCopyPass pp rg
    pure (pp, rg)
  else pure (pp, rg)

/-- `Postprocessor::GetFinalResource`. -/
def GetFinalResource (pp : Postprocessor) : RGResourceName :=
  pp.final_resource

end Postprocessor

/-! ## Postprocessor: execute callbacks -/

/-- Where a descriptor copied by an execute callback comes from: an access token of the pass
data redeemed on the context (`context.GetReadOnlyTexture(data.field)`), a texture-manager
handle (`none` for an element read past the end of the vector), or the albedo texture of an
entity's material. -/
inductive DescriptorSource
  | ReadOnlyTexture (field : String)
  | ReadWriteTexture (field : String)
  | TextureManagerHandle (handle : Option Nat)
  | MaterialAlbedoTexture (entity : Nat)
  deriving DecidableEq, Repr

/-- A constant-buffer address: one read from the blackboard data, or the address of a dynamic
allocation made in the callback. -/
inductive GpuAddress
  | Buffer (address : Nat)
  | DynamicAllocation (name : String)
  deriving DecidableEq, Repr

/-- A thread-group count: `CeilOver32 n` is `(uint32)std::ceil(n / 32.0f)`. -/
inductive GroupCount
  | Value (n : Nat)
  | CeilOver32 (n : Nat)
  deriving DecidableEq, Repr

/-- One call on the command list. -/
inductive CommandListCall
  | SetGraphicsRootSignature (signature : String)
  | SetComputeRootSignature (signature : String)
  | SetPipelineState (pso : String)
  | SetGraphicsRootConstantBufferView (slot : Nat) (address : GpuAddress)
  | SetComputeRootConstantBufferView (slot : Nat) (address : GpuAddress)
  | SetGraphicsRootDescriptorTable (slot : Nat) (index : Nat)
  | SetComputeRootDescriptorTable (slot : Nat) (index : Nat)
  | IASetPrimitiveTopology (topology : String)
  | DrawInstanced (vertex_count instance_count start_vertex start_instance : Nat)
  | Dispatch (x y z : GroupCount)
  | CopyResource (dst_field src_field : String)
  | MeshDraw (entity : Nat)
  | SetRootCBV (slot : Nat) (address : GpuAddress)
  | SetRootConstants (slot : Nat) (constants : List Nat)
  | SetRootConstant (slot : Nat) (value : Nat) (offset : Nat)
  | SetTopology (topology : String)
  | Draw (vertex_count : Nat)
  deriving DecidableEq, Repr

/-- One effect of an execute callback, in call order.  An allocation carries the index the
allocator returned.  `CopyDescriptors` carries the destination range starts and sizes, the
number of source ranges, the source array and the source range sizes. -/
inductive ExecOp
  | Command (call : CommandListCall)
  | AllocateRange (count : Nat) (index : Nat)
  | Allocate (index : Nat)
  | AllocateDescriptorsGPU (count : Nat) (index : Nat)
  | CopyDescriptorsSimple (count : Nat) (dst : Nat) (src : DescriptorSource)
  | CopyDescriptors (dst_ranges : List Nat) (dst_range_sizes : List Nat) (num_src_ranges : Nat)
      (src_ranges : List DescriptorSource) (src_range_sizes : List Nat)
  | CopyDescriptorsSpan (dst : Nat) (src : List DescriptorSource)
  | DynamicAllocate (name : String)
  | Log (level : String) (message : String)
  deriving DecidableEq, Repr

/-- The command-list calls among the effects of a callback. -/
def recorded_commands : List ExecOp → List CommandListCall
  | [] => []
  | ExecOp.Command call :: rest => call :: recorded_commands rest
  | _ :: rest => recorded_commands rest

/-- The descriptor slots a callback allocates. -/
def allocated_slots : List ExecOp → List Nat
  | [] => []
  | ExecOp.AllocateRange count index :: rest => List.range' index count ++ allocated_slots rest
  | ExecOp.Allocate index :: rest => index :: allocated_slots rest
  | ExecOp.AllocateDescriptorsGPU count index :: rest =>
    List.range' index count ++ allocated_slots rest
  | _ :: rest => allocated_slots rest

/-- The slots of the destination ranges `(start, size)` of one `CopyDescriptors` call. -/
def range_slots : List Nat → List Nat → List Nat
  | start :: starts, size :: sizes => List.range' start size ++ range_slots starts sizes
  | _, _ => []

/-- The descriptor slots a callback copies a view into. -/
def written_slots : List ExecOp → List Nat
  | [] => []
  | ExecOp.CopyDescriptorsSimple count dst _ :: rest => List.range' dst count ++ written_slots rest
  | ExecOp.CopyDescriptors dst_ranges dst_range_sizes _ _ _ :: rest =>
    range_slots dst_ranges dst_range_sizes ++ written_slots rest
  | ExecOp.CopyDescriptorsSpan dst src :: rest =>
    List.range' dst src.length ++ written_slots rest
  | _ :: rest => written_slots rest

/-- `Postprocessor::OnSceneInitialized`: `LoadTexture` is the texture manager, and
`texture_address` the identity of the texture object `make_unique` creates. -/
def Postprocessor.OnSceneInitialized (LoadTexture : String → Nat) (texture_address : Nat)
    (pp : Postprocessor) : Postprocessor :=
  let cloud_textures := pp.cloud_textures
    ++ [LoadTexture "Resources\\Textures\\clouds\\weather.dds"]
    ++ [LoadTexture "Resources\\Textures\\clouds\\cloud.dds"]
    ++ [LoadTexture "Resources\\Textures\\clouds\\worley.dds"]
  let lens_flare_textures := pp.lens_flare_textures
    ++ [LoadTexture "Resources/Textures/lensflare/flare0.jpg"]
    ++ [LoadTexture "Resources/Textures/lensflare/flare1.jpg"]
    ++ [LoadTexture "Resources/Textures/lensflare/flare2.jpg"]
    ++ [LoadTexture "Resources/Textures/lensflare/flare3.jpg"]
    ++ [LoadTexture "Resources/Textures/lensflare/flare4.jpg"]
    ++ [LoadTexture "Resources/Textures/lensflare/flare5.jpg"]
    ++ [LoadTexture "Resources/Textures/lensflare/flare6.jpg"]
  let render_target_desc : TextureDesc :=
    { format := some Format.R16G16B16A16_FLOAT, width := some pp.width,
      height := some pp.height, bind_flags := some "ShaderResource",
      initial_state := some "CopyDest" }
  { pp with
    cloud_textures := cloud_textures
    lens_flare_textures := lens_flare_textures
    history_buffer := some ⟨texture_address, render_target_desc⟩ }

/-- `Postprocessor::OnResize` (the resizes of the helper passes are outside the sources). -/
def Postprocessor.OnResize (texture_address : Nat) (pp : Postprocessor) (w h : Nat) :
    Postprocessor :=
  let render_target_desc : TextureDesc :=
    { format := some Format.R16G16B16A16_FLOAT, width := some w, height := some h,
      bind_flags := some "ShaderResource", initial_state := some "CopyDest" }
  { pp with width := w, height := h, history_buffer := some ⟨texture_address, render_target_desc⟩ }

namespace Postprocessor

/-- Execute callback of the Copy HDR Pass. -/
def AddCopyHDRPass.execute : List ExecOp :=
  [ .Command (.CopyResource "copy_dst" "copy_src") ]

/-- Execute callback of the Velocity Buffer Pass; `descriptor_index` is the index
`AllocateRange` returns. -/
def AddVelocityBufferPass.execute (global_data : GlobalBlackboardData)
    (descriptor_index : Nat) : List ExecOp :=
  [ .Command (.SetGraphicsRootSignature "VelocityBuffer"),
    .Command (.SetPipelineState "VelocityBuffer"),
    .Command (.SetGraphicsRootConstantBufferView 0 (.Buffer global_data.frame_cbuffer_address)),
    .Command (.SetGraphicsRootConstantBufferView 1
      (.Buffer global_data.postprocess_cbuffer_address)),
    .AllocateRange 1 descriptor_index,
    .CopyDescriptorsSimple 1 descriptor_index (.ReadOnlyTexture "depth_srv"),
    .Command (.SetGraphicsRootDescriptorTable 2 descriptor_index),
    .Command (.IASetPrimitiveTopology "TRIANGLESTRIP"),
    .Command (.DrawInstanced 4 1 0 0) ]

/-- Execute callback of the Volumetric Clouds Pass. -/
def AddVolumetricCloudsPass.execute (pp : Postprocessor) (global_data : GlobalBlackboardData)
    (descriptor_index : Nat) : List ExecOp :=
  [ .Command (.SetGraphicsRootSignature "Clouds"),
    .Command (.SetPipelineState "Clouds"),
    .Command (.SetGraphicsRootConstantBufferView 0 (.Buffer global_data.frame_cbuffer_address)),
    .Command (.SetGraphicsRootConstantBufferView 1 (.Buffer global_data.weather_cbuffer_address)),
    .AllocateRange 4 descriptor_index,
    .CopyDescriptors [descriptor_index] [4] 4
      [ .TextureManagerHandle (pp.cloud_textures.get? 0),
        .TextureManagerHandle (pp.cloud_textures.get? 1),
        .TextureManagerHandle (pp.cloud_textures.get? 2),
        .ReadOnlyTexture "depth" ]
      [1, 1, 1, 1],
    .Command (.SetGraphicsRootDescriptorTable 2 descriptor_index),
    .Command (.IASetPrimitiveTopology "TRIANGLESTRIP"),
    .Command (.DrawInstanced 4 1 0 0) ]

/-- Execute callback of the SSR Pass. -/
def AddSSRPass.execute (global_data : GlobalBlackboardData) (descriptor_index : Nat) :
    List ExecOp :=
  [ .Command (.SetGraphicsRootSignature "SSR"),
    .Command (.SetPipelineState "SSR"),
    .Command (.SetGraphicsRootConstantBufferView 0 (.Buffer global_data.frame_cbuffer_address)),
    .Command (.SetGraphicsRootConstantBufferView 1
      (.Buffer global_data.postprocess_cbuffer_address)),
    .AllocateRange 3 descriptor_index,
    .CopyDescriptors [descriptor_index] [3] 3
      [ .ReadOnlyTexture "normals", .ReadOnlyTexture "input", .ReadOnlyTexture "depth" ]
      [1, 1, 1],
    .Command (.SetGraphicsRootDescriptorTable 2 descriptor_index),
    .Command (.IASetPrimitiveTopology "TRIANGLESTRIP"),
    .Command (.DrawInstanced 4 1 0 0) ]

/-- Execute callback of the Fog Pass: `AllocateRange(3)`, two source ranges and one destination
range of size 2. -/
def AddFogPass.execute (global_data : GlobalBlackboardData) (descriptor_index : Nat) :
    List ExecOp :=
  [ .Command (.SetGraphicsRootSignature "Fog"),
    .Command (.SetPipelineState "Fog"),
    .Command (.SetGraphicsRootConstantBufferView 0 (.Buffer global_data.frame_cbuffer_address)),
    .Command (.SetGraphicsRootConstantBufferView 1
      (.Buffer global_data.postprocess_cbuffer_address)),
    .AllocateRange 3 descriptor_index,
    .CopyDescriptors [descriptor_index] [2] 2
      [ .ReadOnlyTexture "input", .ReadOnlyTexture "depth" ]
      [1, 1],
    .Command (.SetGraphicsRootDescriptorTable 2 descriptor_index),
    .Command (.IASetPrimitiveTopology "TRIANGLESTRIP"),
    .Command (.DrawInstanced 4 1 0 0) ]

/-- Execute callback of the BloomExtract Pass; the second copy goes to the incremented
index. -/
def AddBloomPass.extract_execute (pp : Postprocessor) (global_data : GlobalBlackboardData)
    (descriptor_index : Nat) : List ExecOp :=
  [ .Command (.SetComputeRootSignature "BloomExtract"),
    .Command (.SetPipelineState "BloomExtract"),
    .Command (.SetComputeRootConstantBufferView 0 (.Buffer global_data.compute_cbuffer_address)),
    .AllocateRange 2 descriptor_index,
    .CopyDescriptorsSimple 1 descriptor_index (.ReadOnlyTexture "input"),
    .Command (.SetComputeRootDescriptorTable 1 descriptor_index),
    .CopyDescriptorsSimple 1 (descriptor_index + 1) (.ReadWriteTexture "extract"),
    .Command (.SetComputeRootDescriptorTable 2 (descriptor_index + 1)),
    .Command (.Dispatch (.CeilOver32 pp.width) (.CeilOver32 pp.height) (.Value 1)) ]

/-- Execute callback of the BloomCombine Pass. -/
def AddBloomPass.combine_execute (pp : Postprocessor) (descriptor_index : Nat) : List ExecOp :=
  [ .Command (.SetComputeRootSignature "BloomCombine"),
    .Command (.SetPipelineState "BloomCombine"),
    .AllocateRange 3 descriptor_index,
    .CopyDescriptorsSimple 1 descriptor_index (.ReadOnlyTexture "input"),
    .CopyDescriptorsSimple 1 (descriptor_index + 1) (.ReadOnlyTexture "extract"),
    .Command (.SetComputeRootDescriptorTable 0 descriptor_index),
    .CopyDescriptorsSimple 1 (descriptor_index + 2) (.ReadWriteTexture "output"),
    .Command (.SetComputeRootDescriptorTable 1 (descriptor_index + 2)),
    .Command (.Dispatch (.CeilOver32 pp.width) (.CeilOver32 pp.height) (.Value 1)) ]

/-- Execute callback of the Sun Pass. -/
def AddSunPass.execute (global_data : GlobalBlackboardData) (sun : Nat)
    (descriptor_index : Nat) : List ExecOp :=
  [ .Command (.SetGraphicsRootSignature "Forward"),
    .Command (.SetPipelineState "Sun"),
    .Command (.SetGraphicsRootConstantBufferView 0 (.Buffer global_data.frame_cbuffer_address)),
    .DynamicAllocate "object_allocation",
    .Command (.SetGraphicsRootConstantBufferView 1 (.DynamicAllocation "object_allocation")),
    .DynamicAllocate "material_allocation",
    .Command (.SetGraphicsRootConstantBufferView 2 (.DynamicAllocation "material_allocation")),
    .Allocate descriptor_index,
    .CopyDescriptorsSimple 1 descriptor_index (.MaterialAlbedoTexture sun),
    .Command (.SetGraphicsRootDescriptorTable 3 descriptor_index),
    .Command (.MeshDraw sun) ]

/-- Execute callback of the GodRays Pass. -/
def AddGodRaysPass.execute (light : Light) (descriptor_index : Nat) : List ExecOp :=
  if light.type ≠ ELightType.Directional then
    [ .Log "WARNING" "Using God Rays on a Non-Directional Light Source" ]
  else
    [ .DynamicAllocate "light_allocation",
      .Command (.SetGraphicsRootSignature "GodRays"),
      .Command (.SetPipelineState "GodRays"),
      .Command (.SetGraphicsRootConstantBufferView 0 (.DynamicAllocation "light_allocation")),
      .Allocate descriptor_index,
      .CopyDescriptorsSimple 1 descriptor_index (.ReadOnlyTexture "sun_output"),
      .Command (.SetGraphicsRootDescriptorTable 1 descriptor_index),
      .Command (.IASetPrimitiveTopology "TRIANGLESTRIP"),
      .Command (.DrawInstanced 4 1 0 0) ]

/-- The vector `lens_flare_descriptors` the LensFlare callback gathers: one handle for every
element of `lens_flare_textures`, then the depth view. -/
def AddLensFlarePass.lens_flare_descriptors (pp : Postprocessor) : List DescriptorSource :=
  pp.lens_flare_textures.map (fun handle => DescriptorSource.TextureManagerHandle (some handle))
    ++ [DescriptorSource.ReadOnlyTexture "depth"]

/-- Execute callback of the LensFlare Pass; `pp` is the object when the callback runs. -/
def AddLensFlarePass.execute (pp : Postprocessor) (light : Light) (descriptor_index : Nat) :
    List ExecOp :=
  if light.type ≠ ELightType.Directional then
    [ .Log "WARNING" "Using Lens Flare on a Non-Directional Light Source" ]
  else
    [ .Command (.SetGraphicsRootSignature "LensFlare"),
      .Command (.SetPipelineState "LensFlare"),
      .DynamicAllocate "light_allocation",
      .Command (.SetGraphicsRootConstantBufferView 0 (.DynamicAllocation "light_allocation")),
      .AllocateRange 8 descriptor_index,
      .CopyDescriptors [descriptor_index] [8] 8 (AddLensFlarePass.lens_flare_descriptors pp)
        [1, 1, 1, 1, 1, 1, 1, 1],
      .Command (.SetGraphicsRootDescriptorTable 1 descriptor_index),
      .Command (.IASetPrimitiveTopology "POINTLIST"),
      .Command (.DrawInstanced 7 1 0 0) ]

/-- Execute callback of the DepthOfField Pass. -/
def AddDepthOfFieldPass.execute (global_data : GlobalBlackboardData) (descriptor_index : Nat) :
    List ExecOp :=
  [ .Command (.SetGraphicsRootSignature "DOF"),
    .Command (.SetPipelineState "DOF"),
    .Command (.SetGraphicsRootConstantBufferView 0 (.Buffer global_data.frame_cbuffer_address)),
    .Command (.SetGraphicsRootConstantBufferView 1
      (.Buffer global_data.postprocess_cbuffer_address)),
    .AllocateRange 3 descriptor_index,
    .CopyDescriptors [descriptor_index] [3] 3
      [ .ReadOnlyTexture "input", .ReadOnlyTexture "blurred_input", .ReadOnlyTexture "depth" ]
      [1, 1, 1],
    .Command (.SetGraphicsRootDescriptorTable 2 descriptor_index),
    .Command (.IASetPrimitiveTopology "TRIANGLESTRIP"),
    .Command (.DrawInstanced 4 1 0 0) ]

/-- Execute callback of the Motion Blur Pass. -/
def AddMotionBlurPass.execute (global_data : GlobalBlackboardData) (descriptor_index : Nat) :
    List ExecOp :=
  [ .Command (.SetGraphicsRootSignature "MotionBlur"),
    .Command (.SetPipelineState "MotionBlur"),
    .Command (.SetGraphicsRootConstantBufferView 0 (.Buffer global_data.frame_cbuffer_address)),
    .Command (.SetGraphicsRootConstantBufferView 1
      (.Buffer global_data.postprocess_cbuffer_address)),
    .AllocateRange 2 descriptor_index,
    .CopyDescriptors [descriptor_index] [2] 2
      [ .ReadOnlyTexture "input_srv", .ReadOnlyTexture "velocity_srv" ]
      [1, 1],
    .Command (.SetGraphicsRootDescriptorTable 2 descriptor_index),
    .Command (.IASetPrimitiveTopology "TRIANGLESTRIP"),
    .Command (.DrawInstanced 4 1 0 0) ]

/-- Execute callback of the History Copy Pass. -/
def AddHistoryCopyPass.execute : List ExecOp :=
  [ .Command (.CopyResource "copy_dst" "copy_src") ]

/-- Execute callback of the TAA Pass. -/
def AddTAAPass.execute (descriptor_index : Nat) : List ExecOp :=
  [ .Command (.SetGraphicsRootSignature "TAA"),
    .Command (.SetPipelineState "TAA"),
    .AllocateRange 3 descriptor_index,
    .CopyDescriptorsSimple 1 descriptor_index (.ReadOnlyTexture "input_srv"),
    .CopyDescriptorsSimple 1 (descriptor_index + 1) (.ReadOnlyTexture "history_srv"),
    .CopyDescriptorsSimple 1 (descriptor_index + 2) (.ReadOnlyTexture "velocity_srv"),
    .Command (.SetGraphicsRootDescriptorTable 0 descriptor_index),
    .Command (.IASetPrimitiveTopology "TRIANGLESTRIP"),
    .Command (.DrawInstanced 4 1 0 0) ]

end Postprocessor

/-! ## VolumetricFogPass -/

/-- Voxel size in texels along x. -/
def VOXEL_TEXEL_SIZE_X : Nat := 8

/-- Voxel size in texels along y. -/
def VOXEL_TEXEL_SIZE_Y : Nat := 8

/-- Depth of the voxel grid. -/
def VOXEL_GRID_SIZE_Z : Nat := 128

/-- Modelled from the spec: `Blackboard::Get<FrameBlackboardData>()` is declared outside the
sources and its result is bound to a reference; section 4.5 makes the read get-or-fail. -/
def Get (rg : RenderGraph) : Except RGFailure FrameBlackboardData :=
  match rg.blackboard.frame_data with
  | some frame_data => Except.ok frame_data
  | none => Except.error ⟨"FrameBlackboardData", rg⟩

/-- The members of `VolumetricFogPass` that registration and execution use;
`fog_volume_count` is `fog_volume_buffer->GetCount()`. -/
structure VolumetricFogPass where
  width : Nat
  height : Nat
  light_injection_target_history : Option Texture
  fog_volume_buffer_idx : Nat
  fog_volume_count : Nat
  temporal_lighting : Bool
  deriving DecidableEq, Repr

namespace VolumetricFogPass

/-- A dimension of the history texture (`light_injection_target_history->GetWidth()` and the
like); 0 stands for a dimension that is not there. -/
def history_dimension (fp : VolumetricFogPass) (dimension : TextureDesc → Option Nat) : Nat :=
  match fp.light_injection_target_history with
  | some texture => (dimension texture.desc).getD 0
  | none => 0

/-- `VolumetricFogPass::CreateLightInjectionHistoryTexture`; `DivideAndRoundUp` is defined
outside the sources and is a parameter, `texture_address` is the identity of the texture
`gfx->CreateTexture` returns. -/
def CreateLightInjectionHistoryTexture (DivideAndRoundUp : Nat → Nat → Nat)
    (texture_address : Nat) (fp : VolumetricFogPass) : VolumetricFogPass :=
  let voxel_grid_width := DivideAndRoundUp fp.width VOXEL_TEXEL_SIZE_X
  let voxel_grid_height := DivideAndRoundUp fp.height VOXEL_TEXEL_SIZE_Y
  match fp.light_injection_target_history with
  | some texture =>
    if texture.desc.width = some voxel_grid_width ∧ texture.desc.height = some voxel_grid_height
    then fp
    else
      { fp with light_injection_target_history := some ⟨texture_address,
          { type := some GfxTextureType.GfxTextureType_3D, width := some voxel_grid_width,
            height := some voxel_grid_height, depth := some VOXEL_GRID_SIZE_Z,
            format := some Format.R16G16B16A16_FLOAT, bind_flags := some "ShaderResource",
            initial_state := some "CopyDst" }⟩ }
  | none =>
    { fp with light_injection_target_history := some ⟨texture_address,
        { type := some GfxTextureType.GfxTextureType_3D, width := some voxel_grid_width,
          height := some voxel_grid_height, depth := some VOXEL_GRID_SIZE_Z,
          format := some Format.R16G16B16A16_FLOAT, bind_flags := some "ShaderResource",
          initial_state := some "CopyDst" }⟩ }

/-- Setup callback of the Volumetric Fog Light Injection Pass. -/
def AddLightInjectionPass.setup (DivideAndRoundUp : Nat → Nat → Nat) (fp : VolumetricFogPass) :
    List SetupStmt :=
  let voxel_grid_width := DivideAndRoundUp fp.width VOXEL_TEXEL_SIZE_X
  let voxel_grid_height := DivideAndRoundUp fp.height VOXEL_TEXEL_SIZE_Y
  let light_injection_target_desc : TextureDesc :=
    { type := some GfxTextureType.GfxTextureType_3D, width := some voxel_grid_width,
      height := some voxel_grid_height, depth := some VOXEL_GRID_SIZE_Z,
      format := some Format.R16G16B16A16_FLOAT }
  [ ⟨none, BuilderCall.DeclareTexture RGResourceName.FogLightInjectionTarget
      light_injection_target_desc⟩,
    ⟨some "light_injection_target",
      BuilderCall.WriteTexture RGResourceName.FogLightInjectionTarget⟩,
    ⟨some "light_injection_target_history",
      BuilderCall.ReadTexture RGResourceName.FogLightInjectionTargetHistory none⟩ ]

/-- Execute callback of the Volumetric Fog Light Injection Pass; `i` is the index of the
descriptors `AllocateDescriptorsGPU(2)` returns, `blue_noise_idx` the blue-noise handle the
callback selects. -/
def AddLightInjectionPass.execute (DivideAndRoundUp : Nat → Nat → Nat) (fp : VolumetricFogPass)
    (frame_data : FrameBlackboardData) (blue_noise_idx : Nat) (i : Nat) : List ExecOp :=
  [ .AllocateDescriptorsGPU 2 i,
    .CopyDescriptorsSimple 1 (i + 0) (.ReadWriteTexture "light_injection_target"),
    .CopyDescriptorsSimple 1 (i + 1) (.ReadOnlyTexture "light_injection_target_history"),
    .Command (.SetPipelineState "VolumetricFog_LightInjection"),
    .Command (.SetRootCBV 0 (.Buffer frame_data.frame_cbuffer_address)),
    .Command (.SetRootConstants 1
      [ fp.history_dimension TextureDesc.width, fp.history_dimension TextureDesc.height,
        fp.history_dimension TextureDesc.depth, fp.fog_volume_count, fp.fog_volume_buffer_idx,
        i, i + 1, blue_noise_idx ]),
    .Command (.Dispatch
      (.Value (DivideAndRoundUp (fp.history_dimension TextureDesc.width) 8))
      (.Value (DivideAndRoundUp (fp.history_dimension TextureDesc.height) 8))
      (.Value (DivideAndRoundUp (fp.history_dimension TextureDesc.depth) 8))) ]

/-- The pass "Volumetric Fog Light Injection Pass" as it is registered. -/
def AddLightInjectionPass.pass (DivideAndRoundUp : Nat → Nat → Nat) (fp : VolumetricFogPass)
    (frame_data : FrameBlackboardData) : RGPass :=
  { name := "Volumetric Fog Light Injection Pass",
    setup := AddLightInjectionPass.setup DivideAndRoundUp fp,
    execute := ExecuteCallback.FogLightInjection frame_data,
    type := ERGPassType.Compute, flags := ERGPassFlags.None }

/-- `VolumetricFogPass::AddLightInjectionPass`. -/
def AddLightInjectionPass (DivideAndRoundUp : Nat → Nat → Nat) (fp : VolumetricFogPass)
    (rg : RenderGraph) : Except RGFailure RenderGraph := do
  let frame_data ← Get rg
  let rg := rg.ImportTexture RGResourceName.FogLightInjectionTargetHistory
    fp.light_injection_target_history
  let rg := rg.AddPass (AddLightInjectionPass.pass DivideAndRoundUp fp frame_data)
  pure (rg.ExportTexture RGResourceName.FogLightInjectionTarget
    fp.light_injection_target_history)

/-- Setup callback of the Volumetric Fog Scattering Integration Pass. -/
def AddScatteringIntegrationPass.setup (DivideAndRoundUp : Nat → Nat → Nat)
    (fp : VolumetricFogPass) : List SetupStmt :=
  let voxel_grid_width := DivideAndRoundUp fp.width VOXEL_TEXEL_SIZE_X
  let voxel_grid_height := DivideAndRoundUp fp.height VOXEL_TEXEL_SIZE_Y
  let voxel_desc : TextureDesc :=
    { type := some GfxTextureType.GfxTextureType_3D, width := some voxel_grid_width,
      height := some voxel_grid_height, depth := some VOXEL_GRID_SIZE_Z,
      format := some Format.R16G16B16A16_FLOAT }
  [ ⟨none, BuilderCall.DeclareTexture RGResourceName.FogFinal voxel_desc⟩,
    ⟨some "integrated_scattering", BuilderCall.WriteTexture RGResourceName.FogFinal⟩,
    ⟨some "injected_light",
      BuilderCall.ReadTexture RGResourceName.FogLightInjectionTarget none⟩ ]

/-- Execute callback of the Volumetric Fog Scattering Integration Pass. -/
def AddScatteringIntegrationPass.execute (DivideAndRoundUp : Nat → Nat → Nat)
    (fp : VolumetricFogPass) (frame_data : FrameBlackboardData) (i : Nat) : List ExecOp :=
  [ .AllocateDescriptorsGPU 2 i,
    .CopyDescriptorsSimple 1 (i + 0) (.ReadOnlyTexture "injected_light"),
    .CopyDescriptorsSimple 1 (i + 1) (.ReadWriteTexture "integrated_scattering"),
    .Command (.SetPipelineState "VolumetricFog_ScatteringAccumulation"),
    .Command (.SetRootCBV 0 (.Buffer frame_data.frame_cbuffer_address)),
    .Command (.SetRootConstants 1
      [ fp.history_dimension TextureDesc.width, fp.history_dimension TextureDesc.height,
        fp.history_dimension TextureDesc.depth, i, i + 1 ]),
    .Command (.Dispatch
      (.Value (DivideAndRoundUp (fp.history_dimension TextureDesc.width) 8))
      (.Value (DivideAndRoundUp (fp.history_dimension TextureDesc.height) 8))
      (.Value (DivideAndRoundUp (fp.history_dimension TextureDesc.depth) 8))) ]

/-- The pass "Volumetric Fog Scattering Integration Pass" as it is registered. -/
def AddScatteringIntegrationPass.pass (DivideAndRoundUp : Nat → Nat → Nat)
    (fp : VolumetricFogPass) (frame_data : FrameBlackboardData) : RGPass :=
  { name := "Volumetric Fog Scattering Integration Pass",
    setup := AddScatteringIntegrationPass.setup DivideAndRoundUp fp,
    execute := ExecuteCallback.FogScatteringIntegration frame_data,
    type := ERGPassType.Compute, flags := ERGPassFlags.ForceNoCull }

/-- `VolumetricFogPass::AddScatteringIntegrationPass`. -/
def AddScatteringIntegrationPass (DivideAndRoundUp : Nat → Nat → Nat) (fp : VolumetricFogPass)
    (rg : RenderGraph) : Except RGFailure RenderGraph := do
  let frame_data ← Get rg
  pure (rg.AddPass (AddScatteringIntegrationPass.pass DivideAndRoundUp fp frame_data))

/-- Setup callback of the Volumetric Fog Combine Pass. -/
def AddCombineFogPass.setup (fp : VolumetricFogPass) : List SetupStmt :=
  [ ⟨none, BuilderCall.WriteRenderTarget RGResourceName.HDR_RenderTarget
      ERGLoadStoreAccessOp.Preserve_Preserve⟩,
    ⟨some "depth", BuilderCall.ReadTexture RGResourceName.DepthStencil
      (some ERGReadAccess.ReadAccess_PixelShader)⟩,
    ⟨some "fog", BuilderCall.ReadTexture RGResourceName.FogFinal
      (some ERGReadAccess.ReadAccess_PixelShader)⟩,
    ⟨none, BuilderCall.SetViewport fp.width fp.height⟩ ]

/-- Execute callback of the Volumetric Fog Combine Pass; `i` is the index of the descriptors
`AllocateDescriptorsGPU(ARRAYSIZE(src_descriptors))` returns. -/
def AddCombineFogPass.execute (i : Nat) : List ExecOp :=
  let src_descriptors : List DescriptorSource :=
    [ .ReadOnlyTexture "fog", .ReadOnlyTexture "depth" ]
  [ .Command (.SetPipelineState "VolumetricFog_CombineFog"),
    .AllocateDescriptorsGPU src_descriptors.length i,
    .CopyDescriptorsSpan i src_descriptors,
    .Command (.SetRootConstant 1 i 0),
    .Command (.SetRootConstant 1 (i + 1) 1),
    .Command (.SetTopology "TriangleList"),
    .Command (.Draw 3) ]

/-- The pass "Volumetric Fog Combine Pass" as it is registered. -/
def AddCombineFogPass.pass (fp : VolumetricFogPass) : RGPass :=
  { name := "Volumetric Fog Combine Pass", setup := AddCombineFogPass.setup fp,
    execute := ExecuteCallback.FogCombine,
    type := ERGPassType.Graphics, flags := ERGPassFlags.None }

/-- `VolumetricFogPass::AddCombineFogPass`. -/
def AddCombineFogPass (fp : VolumetricFogPass) (rg : RenderGraph) : RenderGraph :=
  rg.AddPass (AddCombineFogPass.pass fp)

/-- `VolumetricFogPass::AddPasses`; `fog_volume_buffer_srv_gpu` is the index of the descriptor
`gfx->AllocateDescriptorsGPU()` returns.  The descriptor copy it starts with and the GUI command
it queues make no graph call. -/
def AddPasses (DivideAndRoundUp : Nat → Nat → Nat) (fp : VolumetricFogPass) (rg : RenderGraph)
    (fog_volume_buffer_srv_gpu : Nat) : Except RGFailure (VolumetricFogPass × RenderGraph) := do
  let fp := { fp with fog_volume_buffer_idx := fog_volume_buffer_srv_gpu }
  let rg ← AddLightInjectionPass DivideAndRoundUp fp rg
  let rg ← AddScatteringIntegrationPass DivideAndRoundUp fp rg
  let rg := AddCombineFogPass fp rg
  pure (fp, rg)

end VolumetricFogPass

/-! ## The registration sequence as a sequence of calls -/

/-- The name a builder call introduces (declares), if any. -/
def BuilderCall.introduced : BuilderCall → Option RGResourceName
  | BuilderCall.DeclareTexture name _ => some name
  | BuilderCall.DeclareBuffer name => some name
  | _ => none

/-- The name a builder call reads or writes, if any. -/
def BuilderCall.accessed : BuilderCall → Option RGResourceName
  | BuilderCall.WriteRenderTarget name _ => some name
  | BuilderCall.WriteTexture name => some name
  | BuilderCall.ReadTexture name _ => some name
  | BuilderCall.ReadDepthStencil name _ => some name
  | BuilderCall.WriteCopyDstTexture name => some name
  | BuilderCall.ReadCopySrcTexture name => some name
  | _ => none

/-- One call of the registration sequence: a graph-level import or export, or a builder call made
by the setup callback of the named pass. -/
inductive RegistrationCall
  | ImportTexture (name : RGResourceName)
  | ExportTexture (name : RGResourceName)
  | Builder (pass : String) (call : BuilderCall)
  deriving DecidableEq, Repr

/-- The name a call declares or imports, if any. -/
def RegistrationCall.introduced : RegistrationCall → Option RGResourceName
  | RegistrationCall.ImportTexture name => some name
  | RegistrationCall.ExportTexture _ => none
  | RegistrationCall.Builder _ call => call.introduced

/-- The name a call reads, writes or exports, if any. -/
def RegistrationCall.accessed : RegistrationCall → Option RGResourceName
  | RegistrationCall.ImportTexture _ => none
  | RegistrationCall.ExportTexture name => some name
  | RegistrationCall.Builder _ call => call.accessed

/-- The calls of one graph call, in call order: a registration runs its setup callback. -/
def RGOp.calls : RGOp → List RegistrationCall
  | RGOp.ImportTexture name _ => [RegistrationCall.ImportTexture name]
  | RGOp.ExportTexture name _ => [RegistrationCall.ExportTexture name]
  | RGOp.AddPass pass => pass.setup.map (fun stmt => RegistrationCall.Builder pass.name stmt.call)

/-- The calls of a list of graph calls. -/
def ops_calls (ops : List RGOp) : List RegistrationCall :=
  ops.flatMap RGOp.calls

/-- The graph calls of one entry of the registration sequence. -/
def RGEvent.ops : RGEvent → List RGOp
  | RGEvent.direct op => [op]
  | RGEvent.helper _ ops => ops

/-- The calls of a registration sequence, across passes in registration order and inside each
setup callback in call order. -/
def call_sequence (events : List RGEvent) : List RegistrationCall :=
  ops_calls (events.flatMap RGEvent.ops)

/-- The entries a call appended to the graph. -/
def added_events (before after : RenderGraph) : List RGEvent :=
  after.events.drop before.events.length

/-- Every name that is declared or imported somewhere in the sequence is declared or imported
before each call that reads or writes it. -/
def DeclaredBeforeUse (calls : List RegistrationCall) : Prop :=
  ∀ (i : Nat) (call : RegistrationCall) (name : RGResourceName),
    calls[i]? = some call → call.accessed = some name →
    (∃ c ∈ calls, c.introduced = some name) →
    ∃ (j : Nat) (c : RegistrationCall), j < i ∧ calls[j]? = some c ∧ c.introduced = some name

/-- Every call of the sequence reads or writes only names of `known` or names an earlier call of
the sequence has introduced. -/
def closed_from : List RGResourceName → List RegistrationCall → Bool
  | _, [] => true
  | known, call :: rest =>
    (match call.accessed with
      | some name => decide (name ∈ known)
      | none => true)
    && closed_from
      (match call.introduced with
        | some name => name :: known
        | none => known)
      rest

/-- The names a sequence of calls introduces. -/
def introduced_names (calls : List RegistrationCall) : List RGResourceName :=
  calls.filterMap RegistrationCall.introduced

/-- The names the post-processor reads without introducing them: they come from the passes
registered before it. -/
def upstream_names : List RGResourceName :=
  [RGResourceName.DepthStencil, RGResourceName.HDR_RenderTarget, RGResourceName.GBufferNormal]

/-- What is assumed of the helper passes, whose code is outside the sources: the blur pass
touches only its source and names it introduces itself, its destination among them; the
copy-to-texture pass and the mip generation touch only the names handed to them and names they
introduce themselves; none of them introduces a name that comes from upstream, the destination
handed to the blur pass apart. -/
structure HelperContract (helpers : HelperPasses) : Prop where
  blur_closed : ∀ src dst pass_name,
    closed_from [src] (ops_calls (helpers.blur_pass src dst pass_name)) = true
  blur_declares : ∀ src dst pass_name,
    dst ∈ introduced_names (ops_calls (helpers.blur_pass src dst pass_name))
  blur_upstream : ∀ src dst pass_name, ∀ name ∈ upstream_names,
    name ∈ introduced_names (ops_calls (helpers.blur_pass src dst pass_name)) → name = dst
  copy_closed : ∀ dst src mode,
    closed_from [dst, src] (ops_calls (helpers.copy_to_texture_pass dst src mode)) = true
  copy_upstream : ∀ dst src mode, ∀ name ∈ upstream_names,
    name ∉ introduced_names (ops_calls (helpers.copy_to_texture_pass dst src mode))
  mips_closed : ∀ texture,
    closed_from [texture] (ops_calls (helpers.generate_mips_pass texture)) = true
  mips_upstream : ∀ texture, ∀ name ∈ upstream_names,
    name ∉ introduced_names (ops_calls (helpers.generate_mips_pass texture))

/-- The passes the file itself registers, in registration order. -/
def own_passes : List RGEvent → List RGPass
  | [] => []
  | RGEvent.direct (RGOp.AddPass pass) :: rest => pass :: own_passes rest
  | _ :: rest => own_passes rest

/-- The names a setup callback hands to `DeclareTexture`, in call order. -/
def declared_textures (pass : RGPass) : List RGResourceName :=
  pass.setup.filterMap (fun stmt =>
    match stmt.call with
    | BuilderCall.DeclareTexture name _ => some name
    | _ => none)

/-- The names handed to `DeclareTexture` by the setup callbacks of the file's own passes. -/
def own_declarations (events : List RGEvent) : List RGResourceName :=
  (own_passes events).flatMap declared_textures

/-- The setup callback makes a resource-introducing builder call (`DeclareTexture` or
`DeclareBuffer`; the builder is never asked to import). -/
def introduces_resource (pass : RGPass) : Bool :=
  pass.setup.any (fun stmt => stmt.call.introduced.isSome)

/-- No call of the entries introduces an upstream name. -/
def upstream_free (events : List RGEvent) : Prop :=
  ∀ n ∈ upstream_names, n ∉ introduced_names (call_sequence events)

/-! ## The registration sequence of `Postprocessor::AddPasses`, stage by stage -/

/-- Appending entries to the registration sequence of a graph. -/
def RenderGraph.extend (rg : RenderGraph) (events : List RGEvent) : RenderGraph :=
  { rg with events := rg.events ++ events }

namespace Postprocessor

/-- A helper call as an entry of the registration sequence. -/
def helper_event (helpers : HelperPasses) : HelperCall → RGEvent
  | HelperCall.blur_pass src dst pass_name =>
    RGEvent.helper (HelperCall.blur_pass src dst pass_name)
      (helpers.blur_pass src dst pass_name)
  | HelperCall.copy_to_texture_pass dst src mode =>
    RGEvent.helper (HelperCall.copy_to_texture_pass dst src mode)
      (helpers.copy_to_texture_pass dst src mode)
  | HelperCall.generate_mips_pass texture =>
    RGEvent.helper (HelperCall.generate_mips_pass texture) (helpers.generate_mips_pass texture)

/-- The entries the first loop of `AddPasses` appends. -/
def lens_flare_events (pp : Postprocessor) (gd : GlobalBlackboardData) :
    List (Nat × Light) → List RGEvent
  | [] => []
  | (_, light_data) :: rest =>
    if !light_data.active || !light_data.lens_flare then lens_flare_events pp gd rest
    else RGEvent.direct (RGOp.AddPass (AddLensFlarePass.pass pp gd light_data))
      :: lens_flare_events pp gd rest

/-- The entries the second loop of `AddPasses` appends. -/
def sun_events (helpers : HelperPasses) (pp : Postprocessor) (gd : GlobalBlackboardData) :
    List (Nat × Light) → List RGEvent
  | [] => []
  | (light_entity, light) :: rest =>
    if !light.active then sun_events helpers pp gd rest
    else if light.type = ELightType.Directional then
      if light.god_rays then
        [ RGEvent.direct (RGOp.AddPass (AddSunPass.pass pp gd light_entity)),
          RGEvent.direct (RGOp.AddPass (AddGodRaysPass.pass pp gd light)),
          helper_event helpers (HelperCall.copy_to_texture_pass pp.final_resource
            RGResourceName.GodRaysOutput EBlendMode.AdditiveBlend) ]
      else
        [ RGEvent.direct (RGOp.AddPass (AddSunPass.pass pp gd light_entity)),
          helper_event helpers (HelperCall.copy_to_texture_pass pp.final_resource
            RGResourceName.SunOutput EBlendMode.AdditiveBlend) ]
    else sun_events helpers pp gd rest

/-- The value of `final_resource` after the SSR stage. -/
def resource_after_ssr (s : PostprocessSettings) : RGResourceName :=
  if s.reflections = EReflections.SSR then RGResourceName.SSR_Output
  else RGResourceName.PostprocessMain

/-- The value of `final_resource` after the fog stage. -/
def resource_after_fog (s : PostprocessSettings) : RGResourceName :=
  if s.fog = true then RGResourceName.FogOutput else resource_after_ssr s

/-- The value of `final_resource` after the depth-of-field stage. -/
def resource_after_dof (s : PostprocessSettings) : RGResourceName :=
  if s.dof = true then RGResourceName.DepthOfFieldOutput else resource_after_fog s

/-- The value of `final_resource` after the motion-blur stage. -/
def resource_after_motion_blur (s : PostprocessSettings) : RGResourceName :=
  if s.motion_blur = true then RGResourceName.MotionBlurOutput else resource_after_dof s

/-- The value of `final_resource` after the bloom stage. -/
def resource_after_bloom (s : PostprocessSettings) : RGResourceName :=
  if s.bloom = true then RGResourceName.BloomOutput else resource_after_motion_blur s

/-- The value of `final_resource` after the TAA stage, the last one. -/
def resource_after_taa (s : PostprocessSettings) : RGResourceName :=
  if HasAnyFlag s.anti_aliasing AntiAliasing.AntiAliasing_TAA = true then RGResourceName.TAAOutput
  else resource_after_bloom s

/-- The object during a stage: the settings are stored and `final_resource` is `resource`. -/
def during (pp : Postprocessor) (s : PostprocessSettings) (resource : RGResourceName) :
    Postprocessor :=
  { pp with settings := s, final_resource := resource }

/-- Entries up to the first loop: velocity buffer, HDR copy, lens flares. -/
def registered_main (pp : Postprocessor) (gd : GlobalBlackboardData)
    (lights : List (Nat × Light)) (s : PostprocessSettings) : List RGEvent :=
  [ RGEvent.direct (RGOp.AddPass (AddVelocityBufferPass.pass { pp with settings := s } gd)) ]
  ++ [ RGEvent.direct (RGOp.AddPass (AddCopyHDRPass.pass { pp with settings := s })) ]
  ++ lens_flare_events (during pp s RGResourceName.PostprocessMain) gd lights

/-- Entries of the clouds stage. -/
def clouds_events (helpers : HelperPasses) (pp : Postprocessor) (gd : GlobalBlackboardData)
    (s : PostprocessSettings) : List RGEvent :=
  if s.clouds = true then
    [ RGEvent.direct (RGOp.AddPass
        (AddVolumetricCloudsPass.pass (during pp s RGResourceName.PostprocessMain) gd)),
      helper_event helpers (HelperCall.blur_pass RGResourceName.CloudsOutput
        RGResourceName.BlurredCloudsOutput "Volumetric Clouds"),
      helper_event helpers (HelperCall.copy_to_texture_pass RGResourceName.PostprocessMain
        RGResourceName.BlurredCloudsOutput EBlendMode.AlphaBlend) ]
  else []

/-- Entries of the SSR stage. -/
def ssr_events (pp : Postprocessor) (gd : GlobalBlackboardData) (s : PostprocessSettings) :
    List RGEvent :=
  if s.reflections = EReflections.SSR then
    [ RGEvent.direct (RGOp.AddPass (AddSSRPass.pass (during pp s RGResourceName.PostprocessMain)
        gd RGResourceName.PostprocessMain)) ]
  else []

/-- Entries of the fog stage. -/
def fog_events (pp : Postprocessor) (gd : GlobalBlackboardData) (s : PostprocessSettings) :
    List RGEvent :=
  if s.fog = true then
    [ RGEvent.direct (RGOp.AddPass (AddFogPass.pass (during pp s (resource_after_ssr s)) gd
        (resource_after_ssr s))) ]
  else []

/-- Entries of the depth-of-field stage. -/
def dof_events (helpers : HelperPasses) (pp : Postprocessor) (gd : GlobalBlackboardData)
    (s : PostprocessSettings) : List RGEvent :=
  if s.dof = true then
    [ helper_event helpers (HelperCall.blur_pass (resource_after_fog s)
        RGResourceName.BlurredDofInput "DoF"),
      RGEvent.direct (RGOp.AddPass (AddDepthOfFieldPass.pass (during pp s (resource_after_fog s))
        gd (resource_after_fog s))) ]
  else []

/-- Entries of the motion-blur stage. -/
def motion_blur_events (pp : Postprocessor) (gd : GlobalBlackboardData)
    (s : PostprocessSettings) : List RGEvent :=
  if s.motion_blur = true then
    [ RGEvent.direct (RGOp.AddPass (AddMotionBlurPass.pass (during pp s (resource_after_dof s))
        gd (resource_after_dof s))) ]
  else []

/-- Entries of the bloom stage. -/
def bloom_events (helpers : HelperPasses) (pp : Postprocessor) (gd : GlobalBlackboardData)
    (s : PostprocessSettings) : List RGEvent :=
  if s.bloom = true then
    [ RGEvent.direct (RGOp.AddPass (AddBloomPass.extract_pass
        (during pp s (resource_after_motion_blur s)) gd (resource_after_motion_blur s))),
      helper_event helpers (HelperCall.generate_mips_pass RGResourceName.BloomExtract),
      RGEvent.direct (RGOp.AddPass (AddBloomPass.combine_pass
        (during pp s (resource_after_motion_blur s)) gd)) ]
  else []

/-- Entries of the TAA stage. -/
def taa_events (pp : Postprocessor) (gd : GlobalBlackboardData) (s : PostprocessSettings) :
    List RGEvent :=
  if HasAnyFlag s.anti_aliasing AntiAliasing.AntiAliasing_TAA = true then
    [ RGEvent.direct (RGOp.ImportTexture RGResourceName.HistoryBuffer pp.history_buffer),
      RGEvent.direct (RGOp.AddPass (AddTAAPass.pass (during pp s (resource_after_bloom s)) gd
        (resource_after_bloom s))),
      RGEvent.direct (RGOp.AddPass (AddHistoryCopyPass.pass
        (during pp s RGResourceName.TAAOutput) RGResourceName.TAAOutput)) ]
  else []

/-- Entries up to the clouds stage. -/
def registered_clouds (helpers : HelperPasses) (pp : Postprocessor) (gd : GlobalBlackboardData)
    (lights : List (Nat × Light)) (s : PostprocessSettings) : List RGEvent :=
  registered_main pp gd lights s ++ clouds_events helpers pp gd s

/-- Entries up to the SSR stage. -/
def registered_ssr (helpers : HelperPasses) (pp : Postprocessor) (gd : GlobalBlackboardData)
    (lights : List (Nat × Light)) (s : PostprocessSettings) : List RGEvent :=
  registered_clouds helpers pp gd lights s ++ ssr_events pp gd s

/-- Entries up to the fog stage. -/
def registered_fog (helpers : HelperPasses) (pp : Postprocessor) (gd : GlobalBlackboardData)
    (lights : List (Nat × Light)) (s : PostprocessSettings) : List RGEvent :=
  registered_ssr helpers pp gd lights s ++ fog_events pp gd s

/-- Entries up to the depth-of-field stage. -/
def registered_dof (helpers : HelperPasses) (pp : Postprocessor) (gd : GlobalBlackboardData)
    (lights : List (Nat × Light)) (s : PostprocessSettings) : List RGEvent :=
  registered_fog helpers pp gd lights s ++ dof_events helpers pp gd s

/-- Entries up to the motion-blur stage. -/
def registered_motion_blur (helpers : HelperPasses) (pp : Postprocessor)
    (gd : GlobalBlackboardData) (lights : List (Nat × Light)) (s : PostprocessSettings) :
    List RGEvent :=
  registered_dof helpers pp gd lights s ++ motion_blur_events pp gd s

/-- Entries up to the bloom stage. -/
def registered_bloom (helpers : HelperPasses) (pp : Postprocessor) (gd : GlobalBlackboardData)
    (lights : List (Nat × Light)) (s : PostprocessSettings) : List RGEvent :=
  registered_motion_blur helpers pp gd lights s ++ bloom_events helpers pp gd s

/-- Entries up to the second loop. -/
def registered_sun (helpers : HelperPasses) (pp : Postprocessor) (gd : GlobalBlackboardData)
    (lights : List (Nat × Light)) (s : PostprocessSettings) : List RGEvent :=
  registered_bloom helpers pp gd lights s
    ++ sun_events helpers (during pp s (resource_after_bloom s)) gd lights

/-- The registration sequence one call of `AddPasses` appends to the graph when the blackboard
holds `gd`. -/
def registered (helpers : HelperPasses) (pp : Postprocessor) (gd : GlobalBlackboardData)
    (lights : List (Nat × Light)) (s : PostprocessSettings) : List RGEvent :=
  registered_sun helpers pp gd lights s ++ taa_events pp gd s

end Postprocessor

/-- The object the constructor `Postprocessor(reg, texture_manager, width, height)` leaves: no
texture loaded, no history buffer; `final_resource` is default-constructed. -/
def Postprocessor.construct (width height : Nat) : Postprocessor :=
  { width := width, height := height, settings := {}, cloud_textures := [],
    lens_flare_textures := [], final_resource := RGResourceName.Named 0,
    history_buffer := none }

/-- The object after `count` calls of `OnSceneInitialized`. -/
def Postprocessor.OnSceneInitialized_times (LoadTexture : String → Nat) (texture_address : Nat) :
    Nat → Postprocessor → Postprocessor
  | 0, pp => pp
  | count + 1, pp =>
    Postprocessor.OnSceneInitialized_times LoadTexture texture_address count
      (Postprocessor.OnSceneInitialized LoadTexture texture_address pp)

/-- The graph calls of a registration sequence, helper calls expanded. -/
def graph_ops (events : List RGEvent) : List RGOp :=
  events.flatMap RGEvent.ops

/-! ## Compiler and execution engine, modelled from the spec

The render graph itself (`RenderGraph.h`) is outside the sources.  Its compiler and execution
engine are modelled from sections 4.2, 4.3 and 8 of the spec. -/

/-- The names a pass reads, from its setup callback. -/
def RGPass.reads (pass : RGPass) : List RGResourceName :=
  pass.setup.filterMap (fun stmt =>
    match stmt.call with
    | BuilderCall.ReadTexture name _ => some name
    | BuilderCall.ReadDepthStencil name _ => some name
    | BuilderCall.ReadCopySrcTexture name => some name
    | _ => none)

/-- The names a pass writes, from its setup callback. -/
def RGPass.writes (pass : RGPass) : List RGResourceName :=
  pass.setup.filterMap (fun stmt =>
    match stmt.call with
    | BuilderCall.WriteRenderTarget name _ => some name
    | BuilderCall.WriteTexture name => some name
    | BuilderCall.WriteCopyDstTexture name => some name
    | _ => none)

/-- The passes of a frame, in registration order. -/
def frame_passes : List RGOp → List RGPass
  | [] => []
  | RGOp.AddPass pass :: rest => pass :: frame_passes rest
  | _ :: rest => frame_passes rest

/-- What the compiler uses of a pass: the names it reads, the names it writes and its flags. -/
structure PassNode where
  reads : List RGResourceName
  writes : List RGResourceName
  flags : ERGPassFlags
  deriving DecidableEq, Repr

/-- The node of a registered pass. -/
def RGPass.node (pass : RGPass) : PassNode :=
  { reads := pass.reads, writes := pass.writes, flags := pass.flags }

/-- Modelled from the spec: the compiler of the render graph is outside the sources.  Section
4.2 (1) has an edge from `p` to `q` if `q` reads a resource last written by `p`; this is the
index of the last pass registered before `reader` that writes `name`. -/
def last_writer (nodes : List PassNode) (reader : Nat) (name : RGResourceName) : Option Nat :=
  ((List.range reader).filter (fun i =>
    match nodes[i]? with
    | some node => decide (name ∈ node.writes)
    | none => false)).getLast?

/-- Modelled from the spec: the dependency edges of section 4.2 (1), which the compiler that is
outside the sources builds; pass `reader` reads a resource last written by pass `writer`. -/
def depends_on (nodes : List PassNode) (reader writer : Nat) : Bool :=
  match nodes[reader]? with
  | some node => node.reads.any (fun name => last_writer nodes reader name == some writer)
  | none => false

/-- Modelled from the spec: one round of the culling of section 4.2 (3), done by the compiler
that is outside the sources; a pass stays if it is already kept or a kept pass reads a resource
it wrote last. -/
def keep_step (nodes : List PassNode) (kept : List Nat) : List Nat :=
  (List.range nodes.length).filter (fun i =>
    decide (i ∈ kept) || kept.any (fun reader => depends_on nodes reader i))

/-- Modelled from the spec: the culling of section 4.2 (3) and section 8, done by the compiler
that is outside the sources; a pass survives if it is flagged force-no-cull or a surviving pass
reads what it wrote, and every other pass is culled. -/
def surviving_passes (nodes : List PassNode) : List Nat :=
  Nat.iterate (keep_step nodes) nodes.length
    ((List.range nodes.length).filter (fun i =>
      match nodes[i]? with
      | some node => decide (node.flags = ERGPassFlags.ForceNoCull)
      | none => false))

/-- Modelled from the spec: the topological sort of section 4.2 (2), done by the compiler that
is outside the sources; among the passes left it takes the first, in declaration order, that
depends on no other pass left; `none` is the fatal error for a cycle. -/
def topological_order (nodes : List PassNode) :
    Nat → List Nat → List Nat → Option (List Nat)
  | _, [], ordered => some ordered
  | 0, _ :: _, _ => none
  | fuel + 1, i :: rest, ordered =>
    match (i :: rest).find? (fun candidate =>
      (i :: rest).all (fun other => !depends_on nodes candidate other)) with
    | some next => topological_order nodes fuel ((i :: rest).erase next) (ordered ++ [next])
    | none => none

/-- Modelled from the spec: the compiled pass list of sections 4.2 and 8 for the given nodes, as
indices into the registration order, produced by the compiler that is outside the sources. -/
def compile_nodes (nodes : List PassNode) : Option (List Nat) :=
  topological_order nodes nodes.length (surviving_passes nodes) []

/-- Modelled from the spec: the compiled pass list of sections 4.2 and 8, as indices into the
registration order, produced by the compiler that is outside the sources. -/
def compile (passes : List RGPass) : Option (List Nat) :=
  compile_nodes (passes.map RGPass.node)

/-- What a texture holds: what it held before the first frame, or what a pass wrote into the
named resource in a frame. -/
inductive Content
  | Initial (address : Nat)
  | Written (frame : Nat) (pass : String) (name : RGResourceName)
  deriving DecidableEq, Repr

/-- The textures of a frame being executed: what each resource the graph owns holds (by name),
what each persistent texture holds (by address), and the log of the reads of the executed
passes. -/
structure FrameState where
  resources : RGResourceName → Option Content
  slots : Nat → Content
  reads : List (String × RGResourceName × Option Content)

/-- Modelled from the spec: `ImportTexture` is implemented outside the sources; by section 3 an
imported resource is the persistent object itself, registered under the name for the frame.
This is the address of the persistent texture a name stands for, the last import of a name
counting. -/
def imported_address : List RGOp → RGResourceName → Option Nat
  | [], _ => none
  | RGOp.ImportTexture name (some texture) :: rest, wanted =>
    match imported_address rest wanted with
    | some address => some address
    | none => if name = wanted then some texture.address else none
  | _ :: rest, wanted => imported_address rest wanted

/-- Modelled from the spec: the resource registry is outside the sources; by section 3 an
imported name is the persistent texture itself, so its contents are those of the texture, and
any other name holds what was written into it in this frame. -/
def FrameState.content (imported : RGResourceName → Option Nat) (state : FrameState)
    (name : RGResourceName) : Option Content :=
  match imported name with
  | some address => some (state.slots address)
  | none => state.resources name

/-- Modelled from the spec: the execution engine is outside the sources; by section 4.3 a pass
of the compiled list runs its execute callback, which reads the resources it declared as read
and writes those it declared as written.  A write to an imported name is a write to the
persistent texture it stands for (section 3). -/
def run_pass (frame : Nat) (imported : RGResourceName → Option Nat) (pass : RGPass)
    (state : FrameState) : FrameState :=
  { reads := state.reads
      ++ pass.reads.map (fun name => (pass.name, name, state.content imported name))
    resources := fun name =>
      if name ∈ pass.writes then some (Content.Written frame pass.name name)
      else state.resources name
    slots := fun address =>
      match pass.writes.find? (fun name => imported name == some address) with
      | some name => Content.Written frame pass.name name
      | none => state.slots address }

/-- Modelled from the spec: the execution engine, outside the sources, replays the compiled pass
list in order (section 4.3). -/
def run_passes (frame : Nat) (imported : RGResourceName → Option Nat) (passes : List RGPass) :
    List Nat → FrameState → FrameState
  | [], state => state
  | i :: rest, state =>
    match passes[i]? with
    | some pass => run_passes frame imported passes rest (run_pass frame imported pass state)
    | none => run_passes frame imported passes rest state

/-- Modelled from the spec: `ExportTexture` is implemented outside the sources; by section 4.3
the export requests are resolved after the last pass, the persistent texture taking the
contents of the named resource. -/
def apply_exports (resources : RGResourceName → Option Content) :
    List RGOp → (Nat → Content) → (Nat → Content)
  | [], slots => slots
  | RGOp.ExportTexture name (some texture) :: rest, slots =>
    match resources name with
    | some content => apply_exports resources rest (Function.update slots texture.address content)
    | none => apply_exports resources rest slots
  | _ :: rest, slots => apply_exports resources rest slots

/-- Modelled from the spec: one frame of the render graph, which is outside the sources: import,
compile, execute the compiled list, export (sections 4.2 and 4.3).  A frame that does not
compile executes nothing. -/
def execute_frame (frame : Nat) (ops : List RGOp) (slots : Nat → Content) : FrameState :=
  match compile (frame_passes ops) with
  | some order =>
    let state := run_passes frame (imported_address ops) (frame_passes ops) order
      { resources := fun _ => none, slots := slots, reads := [] }
    { state with slots := apply_exports (state.content (imported_address ops)) ops state.slots }
  | none => { resources := fun _ => none, slots := slots, reads := [] }

/-! ## A concrete frame -/

/-- Helper passes of the concrete frame: a blur pass that declares and writes its destination
and reads its source, a copy that draws its source onto its destination, and a mip generation
that reads and writes its texture. -/
def sample_helpers : HelperPasses where
  blur_pass := fun src dst pass_name =>
    [ RGOp.AddPass
        { name := pass_name,
          setup :=
            [ ⟨none, BuilderCall.DeclareTexture dst {}⟩,
              ⟨some "dst_texture", BuilderCall.WriteTexture dst⟩,
              ⟨some "src_texture", BuilderCall.ReadTexture src
                (some ERGReadAccess.ReadAccess_NonPixelShader)⟩ ],
          execute := ExecuteCallback.External 0,
          type := ERGPassType.Compute, flags := ERGPassFlags.None } ]
  copy_to_texture_pass := fun dst src _ =>
    [ RGOp.AddPass
        { name := "CopyToTexture Pass",
          setup :=
            [ ⟨none, BuilderCall.WriteRenderTarget dst ERGLoadStoreAccessOp.Preserve_Preserve⟩,
              ⟨some "texture_src", BuilderCall.ReadTexture src
                (some ERGReadAccess.ReadAccess_PixelShader)⟩ ],
          execute := ExecuteCallback.External 1,
          type := ERGPassType.Graphics, flags := ERGPassFlags.None } ]
  generate_mips_pass := fun texture =>
    [ RGOp.AddPass
        { name := "GenerateMips Pass",
          setup :=
            [ ⟨some "texture_src", BuilderCall.ReadTexture texture
                (some ERGReadAccess.ReadAccess_NonPixelShader)⟩ ],
          execute := ExecuteCallback.External 2,
          type := ERGPassType.Compute, flags := ERGPassFlags.None } ]

/-- Blackboard data of the concrete frame. -/
def sample_global_data : GlobalBlackboardData :=
  { frame_cbuffer_address := 4096, postprocess_cbuffer_address := 8192,
    weather_cbuffer_address := 12288, compute_cbuffer_address := 16384 }

/-- Frame data of the concrete frame. -/
def sample_frame_data : FrameBlackboardData :=
  { frame_cbuffer_address := 4096 }

/-- The graph of the concrete frame before the clients register: both blackboard entries are
written, nothing is registered. -/
def sample_graph : RenderGraph :=
  { blackboard := { global_data := some sample_global_data, frame_data := some sample_frame_data },
    events := [] }

/-- A graph whose blackboard holds no entry. -/
def sample_graph_without_blackboard : RenderGraph :=
  { blackboard := { global_data := none, frame_data := none }, events := [] }

/-- The post-processor of the concrete frame, after one `OnSceneInitialized`. -/
def sample_postprocessor : Postprocessor :=
  Postprocessor.OnSceneInitialized (fun path => path.length) 1
    { width := 1920, height := 1080, settings := {}, cloud_textures := [],
      lens_flare_textures := [], final_resource := RGResourceName.Named 0,
      history_buffer := none }

/-- The lights of the concrete frame: a point light with a lens flare, an inactive directional
light, a directional light with lens flare and god rays, and a second directional light. -/
def sample_lights : List (Nat × Light) :=
  [ (0, { type := ELightType.NonDirectional 1, lens_flare := true }),
    (1, { type := ELightType.Directional, active := false, god_rays := true }),
    (2, { type := ELightType.Directional, lens_flare := true, god_rays := true }),
    (3, { type := ELightType.Directional }) ]

/-- Settings of the concrete frame: every stage is on. -/
def sample_settings : PostprocessSettings :=
  { clouds := true, reflections := EReflections.SSR, fog := true, dof := true,
    motion_blur := true, bloom := true, anti_aliasing := [AntiAliasing.AntiAliasing_TAA] }

/-- Settings with temporal anti-aliasing only. -/
def sample_settings_taa : PostprocessSettings :=
  { anti_aliasing := [AntiAliasing.AntiAliasing_TAA] }

/-- The fog pass of the concrete frame, as its constructor leaves it. -/
def sample_fog_pass : VolumetricFogPass :=
  VolumetricFogPass.CreateLightInjectionHistoryTexture (fun a b => (a + b - 1) / b) 2
    { width := 1920, height := 1080, light_injection_target_history := none,
      fog_volume_buffer_idx := 0, fog_volume_count := 1, temporal_lighting := true }

/-- The history texture of `sample_fog_pass`. -/
def sample_history_texture : Texture :=
  { address := 2,
    desc :=
      { type := some GfxTextureType.GfxTextureType_3D, width := some 240, height := some 135,
        depth := some 128, format := some Format.R16G16B16A16_FLOAT,
        bind_flags := some "ShaderResource", initial_state := some "CopyDst" } }

/-- The names of the passes whose setup callback introduces no resource. -/
def non_declaring_passes : List String :=
  ["LensFlare Pass", "History Copy Pass", "Volumetric Fog Combine Pass"]

/-- The registration sequence one call of `VolumetricFogPass::AddPasses` appends to the graph
when the blackboard holds `frame_data`. -/
def VolumetricFogPass.registered (DivideAndRoundUp : Nat → Nat → Nat) (fp : VolumetricFogPass)
    (frame_data : FrameBlackboardData) (fog_volume_buffer_srv_gpu : Nat) : List RGEvent :=
  let fp := { fp with fog_volume_buffer_idx := fog_volume_buffer_srv_gpu }
  [ RGEvent.direct (RGOp.ImportTexture RGResourceName.FogLightInjectionTargetHistory
      fp.light_injection_target_history),
    RGEvent.direct (RGOp.AddPass
      (VolumetricFogPass.AddLightInjectionPass.pass DivideAndRoundUp fp frame_data)),
    RGEvent.direct (RGOp.ExportTexture RGResourceName.FogLightInjectionTarget
      fp.light_injection_target_history),
    RGEvent.direct (RGOp.AddPass
      (VolumetricFogPass.AddScatteringIntegrationPass.pass DivideAndRoundUp fp frame_data)),
    RGEvent.direct (RGOp.AddPass (VolumetricFogPass.AddCombineFogPass.pass fp)) ]

/-- The setup callback of the pass introduces a resource exactly if the pass is none of the
three named in `non_declaring_passes`. -/
def DeclaresUnlessListed (pass : RGPass) : Prop :=
  introduces_resource pass = true ↔ pass.name ∉ non_declaring_passes

/-! ## Graphics state, access tokens and captured pointers of a registered pass -/

/-- The viewports a setup callback records with `builder.SetViewport(width, height)`, in call
order. -/
def viewports (pass : RGPass) : List (Nat × Nat) :=
  pass.setup.filterMap (fun stmt =>
    match stmt.call with
    | BuilderCall.SetViewport width height => some (width, height)
    | _ => none)

/-- The names a setup callback hands to `builder.WriteRenderTarget`, in call order. -/
def render_targets (pass : RGPass) : List RGResourceName :=
  pass.setup.filterMap (fun stmt =>
    match stmt.call with
    | BuilderCall.WriteRenderTarget name _ => some name
    | _ => none)

/-- The kinds of access token the pass-data structs hold: `RGTextureReadOnlyId`,
`RGTextureReadWriteId`, `RGTextureCopySrcId` and `RGTextureCopyDstId`. -/
inductive TokenKind
  | ReadOnly
  | ReadWrite
  | CopySrc
  | CopyDst
  deriving DecidableEq, Repr

/-- The kind of token a builder call returns into a pass-data field, as the assignments in the
setup callbacks have it: `ReadTexture` a read-only id, `WriteTexture` a read-write id,
`ReadCopySrcTexture` a copy-source id and `WriteCopyDstTexture` a copy-destination id. -/
def BuilderCall.token : BuilderCall → Option TokenKind
  | BuilderCall.ReadTexture _ _ => some TokenKind.ReadOnly
  | BuilderCall.WriteTexture _ => some TokenKind.ReadWrite
  | BuilderCall.ReadCopySrcTexture _ => some TokenKind.CopySrc
  | BuilderCall.WriteCopyDstTexture _ => some TokenKind.CopyDst
  | _ => none

/-- The tokens a setup callback assigns to fields of its pass data
(`data.field = builder.Call(...)`), with their kind. -/
def assigned_tokens (pass : RGPass) : List (TokenKind × String) :=
  pass.setup.filterMap (fun stmt =>
    match stmt.field, stmt.call.token with
    | some field, some kind => some (kind, field)
    | _, _ => none)

/-- The resource a pass-data field stands for: the name handed to the builder call whose token
the setup callback assigned to the field. -/
def token_resource (pass : RGPass) (field : String) : Option RGResourceName :=
  (pass.setup.find? (fun stmt => decide (stmt.field = some field))).bind
    (fun stmt => stmt.call.accessed)

/-- The token a descriptor source redeems on the context, if it is one:
`context.GetReadOnlyTexture(data.field)` or `context.GetReadWriteTexture(data.field)`. -/
def DescriptorSource.token : DescriptorSource → Option (TokenKind × String)
  | DescriptorSource.ReadOnlyTexture field => some (TokenKind.ReadOnly, field)
  | DescriptorSource.ReadWriteTexture field => some (TokenKind.ReadWrite, field)
  | _ => none

/-- The tokens one effect of an execute callback redeems on the context.  A `CopyResource` of
the two copy passes redeems `context.GetCopySrcTexture(data.copy_src)` and
`context.GetCopyDstTexture(data.copy_dst)`. -/
def ExecOp.redeemed : ExecOp → List (TokenKind × String)
  | ExecOp.CopyDescriptorsSimple _ _ src => src.token.toList
  | ExecOp.CopyDescriptors _ _ _ src_ranges _ => src_ranges.filterMap DescriptorSource.token
  | ExecOp.CopyDescriptorsSpan _ src => src.filterMap DescriptorSource.token
  | ExecOp.Command (CommandListCall.CopyResource dst_field src_field) =>
    [(TokenKind.CopySrc, src_field), (TokenKind.CopyDst, dst_field)]
  | _ => []

/-- The tokens an execute callback redeems on the context, in call order. -/
def redeemed_tokens (ops : List ExecOp) : List (TokenKind × String) :=
  ops.flatMap ExecOp.redeemed

/-- Running the execute callback of a registered pass.  The lambdas capture `this` by copy of
the pointer, so `pp` and `fp` are the objects as they stand when the callback runs;
`blue_noise_idx` is the blue-noise handle the light injection selects and `descriptor_index`
the index the descriptor allocator returns.  A callback defined outside the two files is not
run. -/
def ExecuteCallback.run (pp : Postprocessor) (DivideAndRoundUp : Nat → Nat → Nat)
    (fp : VolumetricFogPass) (blue_noise_idx descriptor_index : Nat) :
    ExecuteCallback → List ExecOp
  | ExecuteCallback.CopyHDR => Postprocessor.AddCopyHDRPass.execute
  | ExecuteCallback.VelocityBuffer global_data =>
    Postprocessor.AddVelocityBufferPass.execute global_data descriptor_index
  | ExecuteCallback.VolumetricClouds global_data =>
    Postprocessor.AddVolumetricCloudsPass.execute pp global_data descriptor_index
  | ExecuteCallback.SSR global_data =>
    Postprocessor.AddSSRPass.execute global_data descriptor_index
  | ExecuteCallback.Fog global_data =>
    Postprocessor.AddFogPass.execute global_data descriptor_index
  | ExecuteCallback.BloomExtract global_data =>
    Postprocessor.AddBloomPass.extract_execute pp global_data descriptor_index
  | ExecuteCallback.BloomCombine _ =>
    Postprocessor.AddBloomPass.combine_execute pp descriptor_index
  | ExecuteCallback.Sun global_data sun =>
    Postprocessor.AddSunPass.execute global_data sun descriptor_index
  | ExecuteCallback.GodRays _ light =>
    Postprocessor.AddGodRaysPass.execute light descriptor_index
  | ExecuteCallback.LensFlare _ light =>
    Postprocessor.AddLensFlarePass.execute pp light descriptor_index
  | ExecuteCallback.DepthOfField global_data =>
    Postprocessor.AddDepthOfFieldPass.execute global_data descriptor_index
  | ExecuteCallback.MotionBlur global_data =>
    Postprocessor.AddMotionBlurPass.execute global_data descriptor_index
  | ExecuteCallback.HistoryCopy => Postprocessor.AddHistoryCopyPass.execute
  | ExecuteCallback.TAA _ => Postprocessor.AddTAAPass.execute descriptor_index
  | ExecuteCallback.FogLightInjection frame_data =>
    VolumetricFogPass.AddLightInjectionPass.execute DivideAndRoundUp fp frame_data
      blue_noise_idx descriptor_index
  | ExecuteCallback.FogScatteringIntegration frame_data =>
    VolumetricFogPass.AddScatteringIntegrationPass.execute DivideAndRoundUp fp frame_data
      descriptor_index
  | ExecuteCallback.FogCombine => VolumetricFogPass.AddCombineFogPass.execute descriptor_index
  | ExecuteCallback.External _ => []

/-- The post-processor as a previous call of `AddPasses` with every stage on leaves it. -/
def sample_postprocessor_used : Postprocessor :=
  { sample_postprocessor with
    settings := sample_settings, final_resource := RGResourceName.TAAOutput }

/-- Settings with temporal anti-aliasing and clouds. -/
def sample_settings_taa_clouds : PostprocessSettings :=
  { clouds := true, anti_aliasing := [AntiAliasing.AntiAliasing_TAA] }

/-! ## What is compared between two registrations -/

/-- What identifies a registered pass apart from its execute callback: name, type, flags and
the builder calls of its setup callback (the names it declares, reads and writes, with their
descriptors). -/
structure PassSignature where
  name : String
  type : ERGPassType
  flags : ERGPassFlags
  calls : List BuilderCall
  deriving DecidableEq, Repr

/-- The signature of a registered pass. -/
def RGPass.signature (pass : RGPass) : PassSignature :=
  { name := pass.name, type := pass.type, flags := pass.flags,
    calls := pass.setup.map SetupStmt.call }

/-- The helper-pass calls of a registration sequence, in call order. -/
def helper_calls : List RGEvent → List HelperCall
  | [] => []
  | RGEvent.helper call _ :: rest => call :: helper_calls rest
  | _ :: rest => helper_calls rest

/-- One entry of a registration sequence with the execute callbacks left out: the signature of
a pass the file registers, an import, an export, or a helper call. -/
inductive RegistrationEntry
  | Pass (signature : PassSignature)
  | Import (name : RGResourceName)
  | Export (name : RGResourceName)
  | Helper (call : HelperCall)
  deriving DecidableEq, Repr

/-- The entry of a registration event. -/
def RGEvent.entry : RGEvent → RegistrationEntry
  | RGEvent.direct (RGOp.AddPass pass) => RegistrationEntry.Pass pass.signature
  | RGEvent.direct (RGOp.ImportTexture name _) => RegistrationEntry.Import name
  | RGEvent.direct (RGOp.ExportTexture name _) => RegistrationEntry.Export name
  | RGEvent.helper call _ => RegistrationEntry.Helper call

/-! ## The compiled order -/

/-- The stages of `AddPasses` that replace the final resource. -/
inductive Stage
  | SSR
  | Fog
  | DoF
  | MotionBlur
  | Bloom
  | TAA
  deriving DecidableEq, Repr

/-- The fixed order of the stages. -/
def stage_order : List Stage :=
  [Stage.SSR, Stage.Fog, Stage.DoF, Stage.MotionBlur, Stage.Bloom, Stage.TAA]

/-- The setting that enables a stage. -/
def Stage.enabled (s : PostprocessSettings) : Stage → Bool
  | Stage.SSR => decide (s.reflections = EReflections.SSR)
  | Stage.Fog => s.fog
  | Stage.DoF => s.dof
  | Stage.MotionBlur => s.motion_blur
  | Stage.Bloom => s.bloom
  | Stage.TAA => HasAnyFlag s.anti_aliasing AntiAliasing.AntiAliasing_TAA

/-- The output resource of a stage. -/
def Stage.output : Stage → RGResourceName
  | Stage.SSR => RGResourceName.SSR_Output
  | Stage.Fog => RGResourceName.FogOutput
  | Stage.DoF => RGResourceName.DepthOfFieldOutput
  | Stage.MotionBlur => RGResourceName.MotionBlurOutput
  | Stage.Bloom => RGResourceName.BloomOutput
  | Stage.TAA => RGResourceName.TAAOutput

/-- The passes of a stage that read the stage input, each with the pass-data field that holds
the token of the input. -/
def Stage.readers : Stage → List (String × String)
  | Stage.SSR => [("SSR Pass", "input")]
  | Stage.Fog => [("Fog Pass", "input")]
  | Stage.DoF => [("DepthOfField Pass", "input")]
  | Stage.MotionBlur => [("Motion Blur Pass", "input_srv")]
  | Stage.Bloom => [("BloomExtract Pass", "input"), ("BloomCombine Pass", "input")]
  | Stage.TAA => [("TAA Pass", "input_srv")]

/-- The final resource in the words of the specification: the output of the last enabled stage
among `stages`, or `PostprocessMain` when none of them is enabled. -/
def spec_last_enabled_output (s : PostprocessSettings) (stages : List Stage) : RGResourceName :=
  match (stages.filter (Stage.enabled s)).getLast? with
  | some stage => stage.output
  | none => RGResourceName.PostprocessMain

/-- The input of a stage in the words of the specification: the output of the nearest preceding
enabled stage in the fixed order, or `PostprocessMain` when none precedes it. -/
def spec_chain_input (s : PostprocessSettings) (stage : Stage) : RGResourceName :=
  spec_last_enabled_output s (stage_order.takeWhile (fun other => decide (other ≠ stage)))

/-! ## The lights of the second loop -/

/-- The first active light of type `Directional`, in iteration order. -/
def first_active_directional (lights : List (Nat × Light)) : Option (Nat × Light) :=
  lights.find? (fun entry => entry.2.active && decide (entry.2.type = ELightType.Directional))

/-- The helper call is a copy with additive blending. -/
def is_additive_copy : HelperCall → Bool
  | HelperCall.copy_to_texture_pass _ _ EBlendMode.AdditiveBlend => true
  | _ => false

/-- What the second loop registers, in the words of the specification, for the first active
directional light: the Sun Pass for that light, a GodRays Pass if the light has `god_rays`, and
one additive copy into the current final resource, from `GodRaysOutput` if the light has
`god_rays` and from `SunOutput` otherwise; nothing when there is no such light. -/
def Postprocessor.spec_sun_registration (helpers : HelperPasses) (pp : Postprocessor)
    (gd : GlobalBlackboardData) : Option (Nat × Light) → List RGEvent
  | none => []
  | some (light_entity, light) =>
    [ RGEvent.direct (RGOp.AddPass (Postprocessor.AddSunPass.pass pp gd light_entity)) ]
    ++ (if light.god_rays = true then
          [ RGEvent.direct (RGOp.AddPass (Postprocessor.AddGodRaysPass.pass pp gd light)) ]
        else [])
    ++ [ Postprocessor.helper_event helpers (HelperCall.copy_to_texture_pass pp.final_resource
          (if light.god_rays = true then RGResourceName.GodRaysOutput
            else RGResourceName.SunOutput)
          EBlendMode.AdditiveBlend) ]

/-! ## Camera -/

/-- The fields of `CameraParameters` whose values end up in the members the accessors return.
A `float` is a rational number here: the constructor and the setters only copy the values.
`position` and `look_at` feed the position and the orientation only. -/
structure CameraParameters where
  near_plane : Rat
  far_plane : Rat
  fov : Rat
  deriving DecidableEq, Repr

/-- The members of `Camera` that the constructor, the accessors and the setters of the
projection touch.  `projection_matrix` holds the arguments of the last call of
`SetProjectionMatrix` (`XMMatrixPerspectiveFovLH(fov, aspect, zn, zf)` is outside the
sources), `none` before the first call. -/
structure Camera where
  aspect_ratio : Rat
  fov : Rat
  near_plane : Rat
  far_plane : Rat
  enabled : Bool
  projection_matrix : Option (Rat × Rat × Rat × Rat)
  deriving DecidableEq, Repr

namespace Camera

/-- The constructor `Camera::Camera(CameraParameters const& desc)`: the member initialisers
`aspect_ratio(1.0f), fov(desc.fov), near_plane(desc.far_plane), far_plane(desc.near_plane),
enabled(true)`. -/
def construct (desc : CameraParameters) : Camera :=
  { aspect_ratio := 1, fov := desc.fov, near_plane := desc.far_plane,
    far_plane := desc.near_plane, enabled := true, projection_matrix := none }

/-- `Camera::Near`. -/
def Near (camera : Camera) : Rat := camera.near_plane

/-- `Camera::Far`. -/
def Far (camera : Camera) : Rat := camera.far_plane

/-- `Camera::Fov`. -/
def Fov (camera : Camera) : Rat := camera.fov

/-- `Camera::AspectRatio`. -/
def AspectRatio (camera : Camera) : Rat := camera.aspect_ratio

/-- `Camera::SetProjectionMatrix`. -/
def SetProjectionMatrix (camera : Camera) (fov aspect zn zf : Rat) : Camera :=
  { camera with projection_matrix := some (fov, aspect, zn, zf) }

/-- `Camera::SetAspectRatio`. -/
def SetAspectRatio (camera : Camera) (ar : Rat) : Camera :=
  let camera := { camera with aspect_ratio := ar }
  camera.SetProjectionMatrix camera.fov camera.aspect_ratio camera.near_plane camera.far_plane

/-- `Camera::SetFov`. -/
def SetFov (camera : Camera) (_fov : Rat) : Camera :=
  let camera := { camera with fov := _fov }
  camera.SetProjectionMatrix camera.fov camera.aspect_ratio camera.near_plane camera.far_plane

/-- `Camera::SetNearAndFar`. -/
def SetNearAndFar (camera : Camera) (n f : Rat) : Camera :=
  let camera := { camera with near_plane := n, far_plane := f }
  camera.SetProjectionMatrix camera.fov camera.aspect_ratio camera.near_plane camera.far_plane

/-- The index at which `Camera::Jitter` reads its two tables: `frame_index % 16`. -/
def Jitter.index (frame_index : Nat) : Nat := frame_index % 16

/-- `Camera::Jitter`.  The tables `HaltonSequence<16, 2> x` and `HaltonSequence<16, 3> y`
(`Math/Halton.h`) are outside the sources and are parameters; a read past the end of a table
has no value. -/
def Jitter (x y : List Rat) (frame_index : Nat) : Option (Rat × Rat) :=
  match x[Jitter.index frame_index]?, y[Jitter.index frame_index]? with
  | some x_value, some y_value => some (x_value - 1 / 2, y_value - 1 / 2)
  | _, _ => none

end Camera

/-- A camera description with the near plane at a tenth and the far plane at a thousand. -/
def sample_camera_parameters : CameraParameters :=
  { near_plane := 1 / 10, far_plane := 1000, fov := 3 / 4 }

/-- A table of sixteen entries: `i / 16` at index `i`. -/
def sample_halton_table : List Rat :=
  (List.range 16).map (fun i => (i : Rat) / 16)

/-! ## GfxCapabilities -/

/-- The values of `D3D12_RAYTRACING_TIER` the converter names; `Other value` is any other value
of the type. -/
inductive D3D12_RAYTRACING_TIER
  | D3D12_RAYTRACING_TIER_NOT_SUPPORTED
  | D3D12_RAYTRACING_TIER_1_0
  | D3D12_RAYTRACING_TIER_1_1
  | Other (value : Nat)
  deriving DecidableEq, Repr

/-- The values of `D3D12_VARIABLE_SHADING_RATE_TIER` the converter names; `Other value` is any
other value of the type. -/
inductive D3D12_VARIABLE_SHADING_RATE_TIER
  | D3D12_VARIABLE_SHADING_RATE_TIER_NOT_SUPPORTED
  | D3D12_VARIABLE_SHADING_RATE_TIER_1
  | D3D12_VARIABLE_SHADING_RATE_TIER_2
  | Other (value : Nat)
  deriving DecidableEq, Repr

/-- The values of `D3D12_MESH_SHADER_TIER` the converter names; `Other value` is any other
value of the type. -/
inductive D3D12_MESH_SHADER_TIER
  | D3D12_MESH_SHADER_TIER_NOT_SUPPORTED
  | D3D12_MESH_SHADER_TIER_1
  | Other (value : Nat)
  deriving DecidableEq, Repr

/-- The levels of `RayTracingSupport` the converter returns. -/
inductive RayTracingSupport
  | TierNotSupported
  | Tier1_0
  | Tier1_1
  deriving DecidableEq, Repr

/-- The levels of `VSRSupport` the converter returns. -/
inductive VSRSupport
  | TierNotSupported
  | Tier1
  | Tier2
  deriving DecidableEq, Repr

/-- The levels of `MeshShaderSupport` the converter returns. -/
inductive MeshShaderSupport
  | TierNotSupported
  | Tier1
  deriving DecidableEq, Repr

/-- `ConvertRayTracingTier`: the three cases of the switch, and the return after it. -/
def ConvertRayTracingTier : D3D12_RAYTRACING_TIER → RayTracingSupport
  | D3D12_RAYTRACING_TIER.D3D12_RAYTRACING_TIER_NOT_SUPPORTED =>
    RayTracingSupport.TierNotSupported
  | D3D12_RAYTRACING_TIER.D3D12_RAYTRACING_TIER_1_0 => RayTracingSupport.Tier1_0
  | D3D12_RAYTRACING_TIER.D3D12_RAYTRACING_TIER_1_1 => RayTracingSupport.Tier1_1
  | D3D12_RAYTRACING_TIER.Other _ => RayTracingSupport.TierNotSupported

/-- `ConvertVSRTier`: the three cases of the switch, and the return after it. -/
def ConvertVSRTier : D3D12_VARIABLE_SHADING_RATE_TIER → VSRSupport
  | D3D12_VARIABLE_SHADING_RATE_TIER.D3D12_VARIABLE_SHADING_RATE_TIER_NOT_SUPPORTED =>
    VSRSupport.TierNotSupported
  | D3D12_VARIABLE_SHADING_RATE_TIER.D3D12_VARIABLE_SHADING_RATE_TIER_1 => VSRSupport.Tier1
  | D3D12_VARIABLE_SHADING_RATE_TIER.D3D12_VARIABLE_SHADING_RATE_TIER_2 => VSRSupport.Tier2
  | D3D12_VARIABLE_SHADING_RATE_TIER.Other _ => VSRSupport.TierNotSupported

/-- `ConvertMeshShaderTier`: the two cases of the switch, and the return after it. -/
def ConvertMeshShaderTier : D3D12_MESH_SHADER_TIER → MeshShaderSupport
  | D3D12_MESH_SHADER_TIER.D3D12_MESH_SHADER_TIER_NOT_SUPPORTED =>
    MeshShaderSupport.TierNotSupported
  | D3D12_MESH_SHADER_TIER.D3D12_MESH_SHADER_TIER_1 => MeshShaderSupport.Tier1
  | D3D12_MESH_SHADER_TIER.Other _ => MeshShaderSupport.TierNotSupported

/-- What `CD3DX12FeatureSupport` reports after `Init(gfx->GetDevice())`: the three tiers and
the value of the enumerator `HighestShaderModel()` returns. -/
structure FeatureSupport where
  RaytracingTier : D3D12_RAYTRACING_TIER
  VariableShadingRateTier : D3D12_VARIABLE_SHADING_RATE_TIER
  MeshShaderTier : D3D12_MESH_SHADER_TIER
  HighestShaderModel : Nat
  deriving DecidableEq, Repr

/-- The members of `GfxCapabilities` that `Initialize` assigns; `shader_model` is a `uint16`. -/
structure GfxCapabilities where
  ray_tracing_support : RayTracingSupport
  vsr_support : VSRSupport
  mesh_shader_support : MeshShaderSupport
  shader_model : Nat
  deriving DecidableEq, Repr

/-- What a call of `GfxCapabilities::Initialize` leaves: the object, the messages logged and
the value returned. -/
structure InitializeResult where
  capabilities : GfxCapabilities
  log : List (String × String)
  returned : Bool
  deriving DecidableEq, Repr

/-- `GfxCapabilities::Initialize`.  The value of the enumerator `D3D_SHADER_MODEL_6_6`
(`d3dcommon.h`) is a parameter; `(uint16)` keeps the value modulo `2 ^ 16`. -/
def GfxCapabilities.Initialize (D3D_SHADER_MODEL_6_6 : Nat) (capabilities : GfxCapabilities)
    (feature_support : FeatureSupport) : InitializeResult :=
  let capabilities := { capabilities with
    ray_tracing_support := ConvertRayTracingTier feature_support.RaytracingTier }
  let capabilities := { capabilities with
    vsr_support := ConvertVSRTier feature_support.VariableShadingRateTier }
  let capabilities := { capabilities with
    mesh_shader_support := ConvertMeshShaderTier feature_support.MeshShaderTier }
  let capabilities := { capabilities with
    shader_model := feature_support.HighestShaderModel % 2 ^ 16 }
  if capabilities.shader_model < D3D_SHADER_MODEL_6_6 then
    { capabilities := capabilities,
      log := [("ERROR", "Device doesn't support Shader Model 6.6 which is required!")],
      returned := false }
  else
    { capabilities := capabilities, log := [], returned := true }

/-- A capabilities object before `Initialize`. -/
def sample_capabilities : GfxCapabilities :=
  { ray_tracing_support := RayTracingSupport.TierNotSupported,
    vsr_support := VSRSupport.TierNotSupported,
    mesh_shader_support := MeshShaderSupport.TierNotSupported, shader_model := 0 }

/-- A device with ray tracing tier 1.1, an unnamed shading-rate tier, mesh shader tier 1 and
the given highest shader model. -/
def sample_feature_support (highest_shader_model : Nat) : FeatureSupport :=
  { RaytracingTier := D3D12_RAYTRACING_TIER.D3D12_RAYTRACING_TIER_1_1,
    VariableShadingRateTier := D3D12_VARIABLE_SHADING_RATE_TIER.Other 3,
    MeshShaderTier := D3D12_MESH_SHADER_TIER.D3D12_MESH_SHADER_TIER_1,
    HighestShaderModel := highest_shader_model }

/-! ## Mesh -/

/-- The component `Mesh`, with the default member initialisers of the struct.  A buffer pointer
is `none` when it is null and the identity of the buffer otherwise; `topology` is the name of
the enumerator. -/
structure Mesh where
  vertex_buffer : Option Nat := none
  index_buffer : Option Nat := none
  instance_buffer : Option Nat := none
  vertex_count : Nat := 0
  start_vertex_location : Nat := 0
  indices_count : Nat := 0
  start_index_location : Nat := 0
  base_vertex_location : Int := 0
  instance_count : Nat := 1
  start_instance_location : Nat := 0
  topology : String := "D3D_PRIMITIVE_TOPOLOGY_TRIANGLELIST"
  deriving DecidableEq, Repr

/-- One call `Mesh::Draw` makes, in call order.  `VertexBuffer::Bind` and `IndexBuffer::Bind`
are outside the sources: such a call is recorded with the pointer it is made through. -/
inductive MeshCall
  | IASetPrimitiveTopology (topology : String)
  | VertexBufferBind (vertex_buffer : Option Nat) (slot : Nat)
  | IndexBufferBind (index_buffer : Nat)
  | DrawIndexedInstanced (indices_count instance_count start_index_location : Nat)
      (base_vertex_location : Int) (start_instance_location : Nat)
  | DrawInstanced (vertex_count instance_count start_vertex_location
      start_instance_location : Nat)
  deriving DecidableEq, Repr

/-- `Mesh::Draw(cmd_list)`. -/
def Mesh.Draw (mesh : Mesh) : List MeshCall :=
  [ MeshCall.IASetPrimitiveTopology mesh.topology,
    MeshCall.VertexBufferBind mesh.vertex_buffer 0 ]
  ++ (match mesh.index_buffer with
      | some index_buffer =>
        [ MeshCall.IndexBufferBind index_buffer,
          MeshCall.DrawIndexedInstanced mesh.indices_count mesh.instance_count
            mesh.start_index_location mesh.base_vertex_location mesh.start_instance_location ]
      | none =>
        [ MeshCall.DrawInstanced mesh.vertex_count mesh.instance_count
            mesh.start_vertex_location mesh.start_instance_location ])

/-- The constructor `VolumetricFogPass(gfx, reg, w, h)`: it stores the dimensions and calls
`CreateLightInjectionHistoryTexture()` on an object whose history pointer is still null.  The
members the header initialises, outside the sources, are parameters. -/
def VolumetricFogPass.construct (DivideAndRoundUp : Nat → Nat → Nat) (texture_address : Nat)
    (w h : Nat) (fog_volume_buffer_idx fog_volume_count : Nat) (temporal_lighting : Bool) :
    VolumetricFogPass :=
  VolumetricFogPass.CreateLightInjectionHistoryTexture DivideAndRoundUp texture_address
    { width := w, height := h, light_injection_target_history := none,
      fog_volume_buffer_idx := fog_volume_buffer_idx, fog_volume_count := fog_volume_count,
      temporal_lighting := temporal_lighting }

/-- The textures a setup callback declares, with their descriptors, in call order. -/
def declared_descs (pass : RGPass) : List (RGResourceName × TextureDesc) :=
  pass.setup.filterMap (fun stmt =>
    match stmt.call with
    | BuilderCall.DeclareTexture name desc => some (name, desc)
    | _ => none)

/-- Two descriptors have the same type, width, height, depth and format. -/
def same_shape (a b : TextureDesc) : Prop :=
  a.type = b.type ∧ a.width = b.width ∧ a.height = b.height ∧ a.depth = b.depth ∧
    a.format = b.format

/-- The thread-group counts of the `Dispatch` calls of a callback, in call order. -/
def dispatches : List ExecOp → List (GroupCount × GroupCount × GroupCount)
  | [] => []
  | ExecOp.Command (CommandListCall.Dispatch x y z) :: rest => (x, y, z) :: dispatches rest
  | _ :: rest => dispatches rest

/-- Thread groups of eight threads along an axis, `groups` of them, reach over an extent: the
callbacks divide by eight when they compute the counts. -/
def covers (groups : GroupCount) (extent : Option Nat) : Prop :=
  ∃ (count n : Nat), groups = GroupCount.Value count ∧ extent = some n ∧ n ≤ 8 * count

/-! # Theorems -/

@[simp] theorem RenderGraph.AddPass_blackboard (rg : RenderGraph) (p : RGPass) :
    (rg.AddPass p).blackboard = rg.blackboard := rfl

@[simp] theorem RenderGraph.ImportTexture_blackboard (rg : RenderGraph) (n : RGResourceName)
    (t : Option Texture) : (rg.ImportTexture n t).blackboard = rg.blackboard := rfl

@[simp] theorem RenderGraph.CallHelper_blackboard (rg : RenderGraph) (c : HelperCall)
    (ops : List RGOp) : (rg.CallHelper c ops).blackboard = rg.blackboard := rfl

theorem RenderGraph.AddPass_eq (rg : RenderGraph) (p : RGPass) :
    rg.AddPass p = rg.extend [RGEvent.direct (RGOp.AddPass p)] := rfl

theorem RenderGraph.ImportTexture_eq (rg : RenderGraph) (n : RGResourceName)
    (t : Option Texture) :
    rg.ImportTexture n t = rg.extend [RGEvent.direct (RGOp.ImportTexture n t)] := rfl

theorem RenderGraph.ExportTexture_eq (rg : RenderGraph) (n : RGResourceName)
    (t : Option Texture) :
    rg.ExportTexture n t = rg.extend [RGEvent.direct (RGOp.ExportTexture n t)] := rfl

theorem RenderGraph.CallHelper_eq (rg : RenderGraph) (c : HelperCall) (ops : List RGOp) :
    rg.CallHelper c ops = rg.extend [RGEvent.helper c ops] := rfl

theorem RenderGraph.extend_extend (rg : RenderGraph) (a b : List RGEvent) :
    (rg.extend a).extend b = rg.extend (a ++ b) := by
  simp [RenderGraph.extend]

theorem RenderGraph.extend_nil (rg : RenderGraph) : rg.extend [] = rg := by
  simp [RenderGraph.extend]

@[simp] theorem RenderGraph.extend_blackboard (rg : RenderGraph) (es : List RGEvent) :
    (rg.extend es).blackboard = rg.blackboard := rfl

theorem GetChecked_of_some {rg : RenderGraph} {gd : GlobalBlackboardData}
    (h : rg.blackboard.global_data = some gd) : GetChecked rg = Except.ok gd := by
  simp [GetChecked, h]

theorem GetChecked_extend {rg : RenderGraph} {gd : GlobalBlackboardData}
    (h : rg.blackboard.global_data = some gd) (es : List RGEvent) :
    GetChecked (rg.extend es) = Except.ok gd := by
  simp [GetChecked, RenderGraph.extend, h]

namespace Postprocessor

theorem lens_flare_loop_eq (pp : Postprocessor) (gd : GlobalBlackboardData)
    (lights : List (Nat × Light)) (rg : RenderGraph)
    (h : rg.blackboard.global_data = some gd) :
    AddPasses.lens_flare_loop pp lights rg = Except.ok (rg.extend (lens_flare_events pp gd lights)) := by
  induction lights generalizing rg with
  | nil => simp [AddPasses.lens_flare_loop, lens_flare_events, RenderGraph.extend_nil, pure,
      Except.pure]
  | cons l rest ih =>
    obtain ⟨e, light_data⟩ := l
    by_cases hc : (!light_data.active || !light_data.lens_flare) = true
    · simp only [AddPasses.lens_flare_loop, lens_flare_events, hc, if_true]
      exact ih rg h
    · have h := h
      have h2 := ih (rg.extend [RGEvent.direct (RGOp.AddPass (AddLensFlarePass.pass pp gd
        light_data))]) h
      simp only [AddPasses.lens_flare_loop, lens_flare_events, hc, AddLensFlarePass,
        GetChecked_of_some h, bind, Except.bind, pure, Except.pure, RenderGraph.AddPass_eq,
        Bool.false_eq_true, if_false, h2, RenderGraph.extend_extend, List.singleton_append]


theorem sun_loop_eq (helpers : HelperPasses) (pp : Postprocessor) (gd : GlobalBlackboardData)
    (lights : List (Nat × Light)) (rg : RenderGraph)
    (h : rg.blackboard.global_data = some gd) :
    AddPasses.sun_loop helpers pp lights rg
      = Except.ok (rg.extend (sun_events helpers pp gd lights)) := by
  induction lights with
  | nil => simp [AddPasses.sun_loop, sun_events, RenderGraph.extend_nil, pure, Except.pure]
  | cons l rest ih =>
    obtain ⟨e, light⟩ := l
    simp only [AddPasses.sun_loop, sun_events]
    split_ifs <;>
      simp [ih, AddSunPass, AddGodRaysPass, GetChecked_of_some h, GetChecked_extend h, bind,
        Except.bind, pure, Except.pure, RenderGraph.extend_extend, RenderGraph.AddPass_eq,
        copy_to_texture_pass_AddPass, RenderGraph.CallHelper_eq, helper_event]

theorem velocity_stage (pp : Postprocessor) (gd : GlobalBlackboardData) (rg : RenderGraph)
    (h : rg.blackboard.global_data = some gd) :
    AddVelocityBufferPass pp rg
      = Except.ok (rg.extend [RGEvent.direct (RGOp.AddPass (AddVelocityBufferPass.pass pp gd))]) := by
  simp [AddVelocityBufferPass, GetChecked_of_some h, RenderGraph.AddPass_eq, bind, Except.bind,
    pure, Except.pure]

theorem copy_hdr_stage (pp : Postprocessor) (rg : RenderGraph) (es : List RGEvent) :
    AddCopyHDRPass pp (rg.extend es)
      = rg.extend (es ++ [RGEvent.direct (RGOp.AddPass (AddCopyHDRPass.pass pp))]) := by
  simp [AddCopyHDRPass, RenderGraph.AddPass_eq, RenderGraph.extend_extend]

theorem clouds_stage (helpers : HelperPasses) (gd : GlobalBlackboardData) (rg : RenderGraph)
    (h : rg.blackboard.global_data = some gd) (c : Bool) (pp : Postprocessor)
    (es : List RGEvent) :
    (if c = true then do
        let rg ← AddVolumetricCloudsPass pp (rg.extend es)
        let rg := blur_pass_AddPass helpers rg RGResourceName.CloudsOutput
          RGResourceName.BlurredCloudsOutput "Volumetric Clouds"
        pure (copy_to_texture_pass_AddPass helpers rg RGResourceName.PostprocessMain
          RGResourceName.BlurredCloudsOutput EBlendMode.AlphaBlend)
      else pure (rg.extend es) : Except RGFailure RenderGraph)
      = Except.ok (rg.extend (es ++ (if c = true then
          [ RGEvent.direct (RGOp.AddPass (AddVolumetricCloudsPass.pass pp gd)),
            helper_event helpers (HelperCall.blur_pass RGResourceName.CloudsOutput
              RGResourceName.BlurredCloudsOutput "Volumetric Clouds"),
            helper_event helpers (HelperCall.copy_to_texture_pass RGResourceName.PostprocessMain
              RGResourceName.BlurredCloudsOutput EBlendMode.AlphaBlend) ]
          else []))) := by
  cases c <;>
    simp [AddVolumetricCloudsPass, GetChecked_extend h, RenderGraph.AddPass_eq,
      RenderGraph.CallHelper_eq, RenderGraph.extend_extend, blur_pass_AddPass,
      copy_to_texture_pass_AddPass, helper_event, bind, Except.bind, pure, Except.pure]

theorem ssr_stage (gd : GlobalBlackboardData) (rg : RenderGraph)
    (h : rg.blackboard.global_data = some gd) (c : Prop) [Decidable c] (pp : Postprocessor)
    (es : List RGEvent) :
    (if c then do
        let rg ← AddSSRPass pp (rg.extend es)
        pure ({ pp with final_resource := RGResourceName.SSR_Output }, rg)
      else pure (pp, rg.extend es) : Except RGFailure (Postprocessor × RenderGraph))
      = Except.ok
          ({ pp with final_resource := if c then RGResourceName.SSR_Output else pp.final_resource },
            rg.extend (es ++ (if c then
              [ RGEvent.direct (RGOp.AddPass (AddSSRPass.pass pp gd pp.final_resource)) ]
              else []))) := by
  by_cases hc : c <;>
    simp [hc, AddSSRPass, GetChecked_extend h, RenderGraph.AddPass_eq,
      RenderGraph.extend_extend, bind, Except.bind, pure, Except.pure]

theorem fog_stage (gd : GlobalBlackboardData) (rg : RenderGraph)
    (h : rg.blackboard.global_data = some gd) (c : Bool) (pp : Postprocessor)
    (es : List RGEvent) :
    (if c = true then do
        let rg ← AddFogPass pp (rg.extend es)
        pure ({ pp with final_resource := RGResourceName.FogOutput }, rg)
      else pure (pp, rg.extend es) : Except RGFailure (Postprocessor × RenderGraph))
      = Except.ok
          ({ pp with
              final_resource := if c = true then RGResourceName.FogOutput else pp.final_resource },
            rg.extend (es ++ (if c = true then
              [ RGEvent.direct (RGOp.AddPass (AddFogPass.pass pp gd pp.final_resource)) ]
              else []))) := by
  cases c <;>
    simp [AddFogPass, GetChecked_extend h, RenderGraph.AddPass_eq,
      RenderGraph.extend_extend, bind, Except.bind, pure, Except.pure]

theorem dof_stage (helpers : HelperPasses) (gd : GlobalBlackboardData) (rg : RenderGraph)
    (h : rg.blackboard.global_data = some gd) (c : Bool) (pp : Postprocessor)
    (es : List RGEvent) :
    (if c = true then do
        let rg := blur_pass_AddPass helpers (rg.extend es) pp.final_resource
          RGResourceName.BlurredDofInput "DoF"
        let rg ← AddDepthOfFieldPass pp rg
        pure ({ pp with final_resource := RGResourceName.DepthOfFieldOutput }, rg)
      else pure (pp, rg.extend es) : Except RGFailure (Postprocessor × RenderGraph))
      = Except.ok
          ({ pp with
              final_resource :=
                if c = true then RGResourceName.DepthOfFieldOutput else pp.final_resource },
            rg.extend (es ++ (if c = true then
              [ helper_event helpers (HelperCall.blur_pass pp.final_resource
                  RGResourceName.BlurredDofInput "DoF"),
                RGEvent.direct (RGOp.AddPass (AddDepthOfFieldPass.pass pp gd pp.final_resource)) ]
              else []))) := by
  cases c <;>
    simp [AddDepthOfFieldPass, GetChecked_extend h, RenderGraph.AddPass_eq, blur_pass_AddPass,
      RenderGraph.CallHelper_eq, helper_event,
      RenderGraph.extend_extend, bind, Except.bind, pure, Except.pure]

theorem motion_blur_stage (gd : GlobalBlackboardData) (rg : RenderGraph)
    (h : rg.blackboard.global_data = some gd) (c : Bool) (pp : Postprocessor)
    (es : List RGEvent) :
    (if c = true then do
        let rg ← AddMotionBlurPass pp (rg.extend es)
        pure ({ pp with final_resource := RGResourceName.MotionBlurOutput }, rg)
      else pure (pp, rg.extend es) : Except RGFailure (Postprocessor × RenderGraph))
      = Except.ok
          ({ pp with
              final_resource :=
                if c = true then RGResourceName.MotionBlurOutput else pp.final_resource },
            rg.extend (es ++ (if c = true then
              [ RGEvent.direct (RGOp.AddPass (AddMotionBlurPass.pass pp gd pp.final_resource)) ]
              else []))) := by
  cases c <;>
    simp [AddMotionBlurPass, GetChecked_extend h, RenderGraph.AddPass_eq,
      RenderGraph.extend_extend, bind, Except.bind, pure, Except.pure]

theorem bloom_stage (helpers : HelperPasses) (gd : GlobalBlackboardData) (rg : RenderGraph)
    (h : rg.blackboard.global_data = some gd) (c : Bool) (pp : Postprocessor)
    (es : List RGEvent) :
    (if c = true then do
        let rg ← AddBloomPass helpers pp (rg.extend es)
        pure ({ pp with final_resource := RGResourceName.BloomOutput }, rg)
      else pure (pp, rg.extend es) : Except RGFailure (Postprocessor × RenderGraph))
      = Except.ok
          ({ pp with
              final_resource := if c = true then RGResourceName.BloomOutput else pp.final_resource },
            rg.extend (es ++ (if c = true then
              [ RGEvent.direct (RGOp.AddPass (AddBloomPass.extract_pass pp gd pp.final_resource)),
                helper_event helpers (HelperCall.generate_mips_pass RGResourceName.BloomExtract),
                RGEvent.direct (RGOp.AddPass (AddBloomPass.combine_pass pp gd)) ]
              else []))) := by
  cases c <;>
    simp [AddBloomPass, GetChecked_extend h, RenderGraph.AddPass_eq,
      generate_mips_pass_AddPass, RenderGraph.CallHelper_eq, helper_event,
      RenderGraph.extend_extend, bind, Except.bind, pure, Except.pure]

theorem taa_stage (gd : GlobalBlackboardData) (rg : RenderGraph)
    (h : rg.blackboard.global_data = some gd) (c : Bool) (pp : Postprocessor)
    (es : List RGEvent) :
    (if c = true then do
        let rg ← AddTAAPass pp (rg.extend es)
        let pp := { pp with final_resource := RGResourceName.TAAOutput }
        let rg := AddHistoryCopyPass pp rg
        pure (pp, rg)
      else pure (pp, rg.extend es) : Except RGFailure (Postprocessor × RenderGraph))
      = Except.ok
          ({ pp with
              final_resource := if c = true then RGResourceName.TAAOutput else pp.final_resource },
            rg.extend (es ++ (if c = true then
              [ RGEvent.direct (RGOp.ImportTexture RGResourceName.HistoryBuffer pp.history_buffer),
                RGEvent.direct (RGOp.AddPass (AddTAAPass.pass pp gd pp.final_resource)),
                RGEvent.direct (RGOp.AddPass (AddHistoryCopyPass.pass
                  { pp with final_resource := RGResourceName.TAAOutput }
                  RGResourceName.TAAOutput)) ]
              else []))) := by
  cases c <;>
    simp [AddTAAPass, AddHistoryCopyPass, GetChecked_extend h, RenderGraph.AddPass_eq,
      RenderGraph.ImportTexture_eq,
      RenderGraph.extend_extend, bind, Except.bind, pure, Except.pure]

theorem AddPasses_eq (helpers : HelperPasses) (pp : Postprocessor) (gd : GlobalBlackboardData)
    (lights : List (Nat × Light)) (rg : RenderGraph) (s : PostprocessSettings)
    (h : rg.blackboard.global_data = some gd) :
    AddPasses helpers pp lights rg s
      = Except.ok ({ pp with settings := s, final_resource := resource_after_taa s },
          rg.extend (registered helpers pp gd lights s)) := by
  have hl := fun (q : Postprocessor) (ls : List (Nat × Light)) (es : List RGEvent) =>
    lens_flare_loop_eq q gd ls (rg.extend es) h
  have hs := fun (q : Postprocessor) (ls : List (Nat × Light)) (es : List RGEvent) =>
    sun_loop_eq helpers q gd ls (rg.extend es) h
  have e1 : ∀ (α β : Type) (a : α) (f : α → Except RGFailure β),
      (Except.ok a >>= f) = f a := fun _ _ _ _ => rfl
  unfold AddPasses
  simp only [velocity_stage _ gd rg h, e1, copy_hdr_stage, hl, hs, RenderGraph.extend_extend,
    clouds_stage helpers gd rg h, ssr_stage gd rg h, fog_stage gd rg h,
    dof_stage helpers gd rg h, motion_blur_stage gd rg h, bloom_stage helpers gd rg h,
    taa_stage gd rg h]
  rfl

end Postprocessor

/-! ## Closure of call sequences -/

theorem ops_calls_append (a b : List RGOp) : ops_calls (a ++ b) = ops_calls a ++ ops_calls b := by
  simp [ops_calls]

theorem call_sequence_append (a b : List RGEvent) :
    call_sequence (a ++ b) = call_sequence a ++ call_sequence b := by
  simp [call_sequence, ops_calls]

theorem call_sequence_nil : call_sequence [] = [] := rfl

theorem call_sequence_cons (e : RGEvent) (es : List RGEvent) :
    call_sequence (e :: es) = ops_calls e.ops ++ call_sequence es := by
  simp [call_sequence, ops_calls]

theorem introduced_names_append (a b : List RegistrationCall) :
    introduced_names (a ++ b) = introduced_names a ++ introduced_names b := by
  simp [introduced_names]

theorem closed_from_mono {known known' : List RGResourceName} {calls : List RegistrationCall}
    (hsub : ∀ n ∈ known, n ∈ known') (h : closed_from known calls = true) :
    closed_from known' calls = true := by
  induction calls generalizing known known' with
  | nil => rfl
  | cons c rest ih =>
    simp only [closed_from, Bool.and_eq_true] at h ⊢
    refine ⟨?_, ?_⟩
    · cases hacc : c.accessed with
      | none => rfl
      | some n =>
        have h1 := h.1
        rw [hacc] at h1
        simp only [decide_eq_true_eq] at h1 ⊢
        exact hsub n h1
    · cases hint : c.introduced with
      | none =>
        have h2 := h.2
        rw [hint] at h2
        exact ih hsub h2
      | some n =>
        have h2 := h.2
        rw [hint] at h2
        refine ih ?_ h2
        intro m hm
        rcases List.mem_cons.1 hm with rfl | hm
        · exact List.mem_cons_self _ _
        · exact List.mem_cons_of_mem _ (hsub m hm)

theorem closed_from_append {known : List RGResourceName} (known_b : List RGResourceName)
    {a b : List RegistrationCall} (ha : closed_from known a = true)
    (hb : closed_from known_b b = true)
    (hsub : ∀ n ∈ known_b, n ∈ known ∨ n ∈ introduced_names a) :
    closed_from known (a ++ b) = true := by
  induction a generalizing known with
  | nil =>
    refine closed_from_mono ?_ hb
    intro n hn
    rcases hsub n hn with h | h
    · exact h
    · simp [introduced_names] at h
  | cons c rest ih =>
    simp only [closed_from, Bool.and_eq_true, List.cons_append] at ha ⊢
    refine ⟨ha.1, ih ha.2 ?_⟩
    intro n hn
    rcases hsub n hn with h | h
    · left
      cases c.introduced with
      | none => exact h
      | some m => exact List.mem_cons_of_mem _ h
    · simp only [introduced_names, List.filterMap_cons] at h
      cases hint : c.introduced with
      | none =>
        rw [hint] at h
        right
        exact h
      | some m =>
        rw [hint] at h
        rcases List.mem_cons.1 h with rfl | h
        · left
          exact List.mem_cons_self _ _
        · right
          exact h

theorem closed_from_sound {known : List RGResourceName} {calls : List RegistrationCall}
    (h : closed_from known calls = true) (i : Nat) (call : RegistrationCall)
    (name : RGResourceName) (hi : calls[i]? = some call) (hacc : call.accessed = some name) :
    name ∈ known ∨
      ∃ (j : Nat) (c : RegistrationCall), j < i ∧ calls[j]? = some c ∧ c.introduced = some name := by
  induction calls generalizing known i with
  | nil => simp at hi
  | cons c rest ih =>
    simp only [closed_from, Bool.and_eq_true] at h
    cases i with
    | zero =>
      simp only [List.getElem?_cons_zero, Option.some.injEq] at hi
      subst hi
      have h1 := h.1
      rw [hacc] at h1
      left
      simpa using h1
    | succ k =>
      simp only [List.getElem?_cons_succ] at hi
      rcases ih h.2 k hi with hk | ⟨j, c', hj, hc', hint⟩
      · cases hint : c.introduced with
        | none =>
          rw [hint] at hk
          exact Or.inl hk
        | some m =>
          rw [hint] at hk
          rcases List.mem_cons.1 hk with rfl | hk
          · exact Or.inr ⟨0, c, Nat.succ_pos _, by simp, hint⟩
          · exact Or.inl hk
      · exact Or.inr ⟨j + 1, c', Nat.succ_lt_succ hj, by simpa using hc', hint⟩

theorem declared_before_use_of_closed {calls : List RegistrationCall}
    (h : closed_from upstream_names calls = true)
    (hup : ∀ n ∈ upstream_names, n ∉ introduced_names calls) : DeclaredBeforeUse calls := by
  intro i call name hi hacc hintro
  rcases closed_from_sound h i call name hi hacc with hk | hk
  · exfalso
    obtain ⟨c, hc, hcn⟩ := hintro
    exact hup name hk (List.mem_filterMap.2 ⟨c, hc, hcn⟩)
  · exact hk

/-! ## Closure of the registration sequence of `Postprocessor::AddPasses` -/

namespace Postprocessor

theorem closed_stage {A B : List RGEvent} {known_b : List RGResourceName}
    (hA : closed_from upstream_names (call_sequence A) = true)
    (hB : closed_from known_b (call_sequence B) = true)
    (hsub : ∀ n ∈ known_b, n ∈ upstream_names ∨ n ∈ introduced_names (call_sequence A)) :
    closed_from upstream_names (call_sequence (A ++ B)) = true := by
  rw [call_sequence_append]
  exact closed_from_append _ hA hB hsub

theorem introduced_left {A B : List RGEvent} {n : RGResourceName}
    (h : n ∈ introduced_names (call_sequence A)) :
    n ∈ introduced_names (call_sequence (A ++ B)) := by
  rw [call_sequence_append, introduced_names_append]
  exact List.mem_append_left _ h

theorem introduced_right {A B : List RGEvent} {n : RGResourceName}
    (h : n ∈ introduced_names (call_sequence B)) :
    n ∈ introduced_names (call_sequence (A ++ B)) := by
  rw [call_sequence_append, introduced_names_append]
  exact List.mem_append_right _ h

theorem call_sequence_helper (helpers : HelperPasses) (call : HelperCall) :
    call_sequence [helper_event helpers call]
      = ops_calls (match call with
          | HelperCall.blur_pass src dst pass_name => helpers.blur_pass src dst pass_name
          | HelperCall.copy_to_texture_pass dst src mode =>
            helpers.copy_to_texture_pass dst src mode
          | HelperCall.generate_mips_pass texture => helpers.generate_mips_pass texture) := by
  cases call <;> simp [call_sequence, helper_event, RGEvent.ops]

theorem closed_blur {helpers : HelperPasses} (hc : HelperContract helpers)
    {known : List RGResourceName} (src dst : RGResourceName) (pass_name : String)
    (hsrc : src ∈ known) :
    closed_from known
      (call_sequence [helper_event helpers (HelperCall.blur_pass src dst pass_name)]) = true := by
  rw [call_sequence_helper]
  refine closed_from_mono ?_ (hc.blur_closed src dst pass_name)
  intro n hn
  simp only [List.mem_singleton] at hn
  exact hn ▸ hsrc

theorem closed_copy {helpers : HelperPasses} (hc : HelperContract helpers)
    {known : List RGResourceName} (dst src : RGResourceName) (mode : EBlendMode)
    (hdst : dst ∈ known) (hsrc : src ∈ known) :
    closed_from known
      (call_sequence [helper_event helpers (HelperCall.copy_to_texture_pass dst src mode)])
      = true := by
  rw [call_sequence_helper]
  refine closed_from_mono ?_ (hc.copy_closed dst src mode)
  intro n hn
  simp only [List.mem_cons, List.mem_singleton, List.not_mem_nil, or_false] at hn
  rcases hn with rfl | rfl
  · exact hdst
  · exact hsrc

theorem closed_mips {helpers : HelperPasses} (hc : HelperContract helpers)
    {known : List RGResourceName} (texture : RGResourceName) (htex : texture ∈ known) :
    closed_from known
      (call_sequence [helper_event helpers (HelperCall.generate_mips_pass texture)]) = true := by
  rw [call_sequence_helper]
  refine closed_from_mono ?_ (hc.mips_closed texture)
  intro n hn
  simp only [List.mem_singleton] at hn
  exact hn ▸ htex

theorem blur_introduces {helpers : HelperPasses} (hc : HelperContract helpers)
    (src dst : RGResourceName) (pass_name : String) :
    dst ∈ introduced_names
      (call_sequence [helper_event helpers (HelperCall.blur_pass src dst pass_name)]) := by
  rw [call_sequence_helper]
  exact hc.blur_declares src dst pass_name

theorem upstream_free_blur {helpers : HelperPasses} (hc : HelperContract helpers)
    (src dst : RGResourceName) (pass_name : String) (hdst : dst ∉ upstream_names) :
    upstream_free [helper_event helpers (HelperCall.blur_pass src dst pass_name)] := by
  intro n hn hmem
  rw [call_sequence_helper] at hmem
  exact hdst (hc.blur_upstream src dst pass_name n hn hmem ▸ hn)

theorem upstream_free_copy {helpers : HelperPasses} (hc : HelperContract helpers)
    (dst src : RGResourceName) (mode : EBlendMode) :
    upstream_free [helper_event helpers (HelperCall.copy_to_texture_pass dst src mode)] := by
  intro n hn
  rw [call_sequence_helper]
  exact hc.copy_upstream dst src mode n hn

theorem upstream_free_mips {helpers : HelperPasses} (hc : HelperContract helpers)
    (texture : RGResourceName) :
    upstream_free [helper_event helpers (HelperCall.generate_mips_pass texture)] := by
  intro n hn
  rw [call_sequence_helper]
  exact hc.mips_upstream texture n hn

theorem call_sequence_pass (pass : RGPass) :
    call_sequence [RGEvent.direct (RGOp.AddPass pass)]
      = pass.setup.map (fun stmt => RegistrationCall.Builder pass.name stmt.call) := by
  simp [call_sequence, ops_calls, RGEvent.ops, RGOp.calls]

theorem call_sequence_import (name : RGResourceName) (texture : Option Texture) :
    call_sequence [RGEvent.direct (RGOp.ImportTexture name texture)]
      = [RegistrationCall.ImportTexture name] := by
  simp [call_sequence, ops_calls, RGEvent.ops, RGOp.calls]

theorem call_sequence_cons_append (e : RGEvent) (es : List RGEvent) :
    call_sequence (e :: es) = call_sequence [e] ++ call_sequence es := by
  simp [call_sequence, ops_calls]

theorem closed_lens_flare (pp : Postprocessor) (gd : GlobalBlackboardData)
    (lights : List (Nat × Light)) :
    closed_from [RGResourceName.PostprocessMain, RGResourceName.DepthStencil]
      (call_sequence (lens_flare_events pp gd lights)) = true := by
  induction lights with
  | nil => rfl
  | cons l rest ih =>
    obtain ⟨e, light_data⟩ := l
    simp only [lens_flare_events]
    split_ifs
    · exact ih
    · rw [call_sequence_cons_append]
      refine closed_from_append _ ?_ ih ?_
      · simp [call_sequence_pass, AddLensFlarePass.pass, AddLensFlarePass.setup, closed_from,
          BuilderCall.accessed, BuilderCall.introduced, RegistrationCall.accessed,
          RegistrationCall.introduced]
      · intro n hn
        exact Or.inl hn

theorem introduced_lens_flare (pp : Postprocessor) (gd : GlobalBlackboardData)
    (lights : List (Nat × Light)) :
    introduced_names (call_sequence (lens_flare_events pp gd lights)) = [] := by
  induction lights with
  | nil => rfl
  | cons l rest ih =>
    obtain ⟨e, light_data⟩ := l
    simp only [lens_flare_events]
    split_ifs
    · exact ih
    · rw [call_sequence_cons_append, introduced_names_append, ih]
      simp [call_sequence_pass, AddLensFlarePass.pass, AddLensFlarePass.setup, introduced_names,
          BuilderCall.introduced, RegistrationCall.introduced]


theorem closed_velocity_copy (pp : Postprocessor) (gd : GlobalBlackboardData) :
    closed_from upstream_names
      (call_sequence ([ RGEvent.direct (RGOp.AddPass (AddVelocityBufferPass.pass pp gd)) ]
        ++ [ RGEvent.direct (RGOp.AddPass (AddCopyHDRPass.pass pp)) ])) = true := by
  simp [call_sequence, ops_calls, RGEvent.ops, RGOp.calls, AddVelocityBufferPass.pass,
    AddVelocityBufferPass.setup, AddCopyHDRPass.pass, AddCopyHDRPass.setup, closed_from,
    upstream_names, BuilderCall.accessed, BuilderCall.introduced, RegistrationCall.accessed,
    RegistrationCall.introduced]

theorem introduced_velocity_copy (pp : Postprocessor) (gd : GlobalBlackboardData) :
    introduced_names
      (call_sequence ([ RGEvent.direct (RGOp.AddPass (AddVelocityBufferPass.pass pp gd)) ]
        ++ [ RGEvent.direct (RGOp.AddPass (AddCopyHDRPass.pass pp)) ]))
      = [RGResourceName.VelocityBuffer, RGResourceName.PostprocessMain] := by
  simp [call_sequence, ops_calls, RGEvent.ops, RGOp.calls, AddVelocityBufferPass.pass,
    AddVelocityBufferPass.setup, AddCopyHDRPass.pass, AddCopyHDRPass.setup, introduced_names,
    BuilderCall.introduced, RegistrationCall.introduced]

theorem introduced_main (pp : Postprocessor) (gd : GlobalBlackboardData)
    (lights : List (Nat × Light)) (s : PostprocessSettings) :
    introduced_names (call_sequence (registered_main pp gd lights s))
      = [RGResourceName.VelocityBuffer, RGResourceName.PostprocessMain] := by
  unfold registered_main
  rw [call_sequence_append, introduced_names_append, introduced_velocity_copy,
    introduced_lens_flare]
  rfl

theorem closed_main (pp : Postprocessor) (gd : GlobalBlackboardData)
    (lights : List (Nat × Light)) (s : PostprocessSettings) :
    closed_from upstream_names (call_sequence (registered_main pp gd lights s)) = true := by
  unfold registered_main
  refine closed_stage (closed_velocity_copy _ gd) (closed_lens_flare _ gd lights) ?_
  intro n hn
  rw [introduced_velocity_copy]
  simp only [List.mem_cons, List.mem_singleton, List.not_mem_nil, or_false] at hn
  rcases hn with rfl | rfl <;> simp [upstream_names]


theorem events3 (a b c : RGEvent) : [a, b, c] = [a] ++ ([b] ++ [c]) := rfl

theorem events2 (a b : RGEvent) : [a, b] = [a] ++ [b] := rfl

theorem closed_clouds {helpers : HelperPasses} (hc : HelperContract helpers)
    (pp : Postprocessor) (gd : GlobalBlackboardData) (s : PostprocessSettings) :
    closed_from [RGResourceName.DepthStencil, RGResourceName.PostprocessMain]
      (call_sequence (clouds_events helpers pp gd s)) = true := by
  unfold clouds_events
  split_ifs
  · rw [events3, call_sequence_append, call_sequence_append]
    refine closed_from_append ([RGResourceName.CloudsOutput,
      RGResourceName.PostprocessMain]) ?_ (closed_from_append
        ([RGResourceName.PostprocessMain, RGResourceName.BlurredCloudsOutput])
        (closed_blur hc _ _ _ (by simp)) (closed_copy hc _ _ _ (by simp) (by simp)) ?_) ?_
    · simp [call_sequence_pass, AddVolumetricCloudsPass.pass, AddVolumetricCloudsPass.setup,
        closed_from, BuilderCall.accessed, BuilderCall.introduced, RegistrationCall.accessed,
        RegistrationCall.introduced]
    · intro n hn
      simp only [List.mem_cons, List.mem_singleton, List.not_mem_nil, or_false] at hn
      rcases hn with rfl | rfl
      · left; simp
      · right; exact blur_introduces hc _ _ _
    · intro n hn
      simp only [List.mem_cons, List.mem_singleton, List.not_mem_nil, or_false] at hn
      rcases hn with rfl | rfl
      · right
        simp [call_sequence_pass, AddVolumetricCloudsPass.pass, AddVolumetricCloudsPass.setup,
          introduced_names, BuilderCall.introduced, RegistrationCall.introduced]
      · left; simp
  · rfl

theorem closed_ssr (pp : Postprocessor) (gd : GlobalBlackboardData) (s : PostprocessSettings) :
    closed_from [RGResourceName.PostprocessMain, RGResourceName.GBufferNormal,
        RGResourceName.DepthStencil]
      (call_sequence (ssr_events pp gd s)) = true := by
  unfold ssr_events
  split_ifs
  · simp [call_sequence_pass, AddSSRPass.pass, AddSSRPass.setup, closed_from,
      BuilderCall.accessed, BuilderCall.introduced, RegistrationCall.accessed,
      RegistrationCall.introduced]
  · rfl

theorem closed_fog (pp : Postprocessor) (gd : GlobalBlackboardData) (s : PostprocessSettings) :
    closed_from [RGResourceName.DepthStencil, resource_after_ssr s]
      (call_sequence (fog_events pp gd s)) = true := by
  unfold fog_events
  split_ifs
  · simp [call_sequence_pass, AddFogPass.pass, AddFogPass.setup, closed_from,
      BuilderCall.accessed, BuilderCall.introduced, RegistrationCall.accessed,
      RegistrationCall.introduced]
  · rfl

theorem closed_dof {helpers : HelperPasses} (hc : HelperContract helpers)
    (pp : Postprocessor) (gd : GlobalBlackboardData) (s : PostprocessSettings) :
    closed_from [resource_after_fog s, RGResourceName.DepthStencil]
      (call_sequence (dof_events helpers pp gd s)) = true := by
  unfold dof_events
  split_ifs
  · rw [events2, call_sequence_append]
    refine closed_from_append ([resource_after_fog s,
      RGResourceName.BlurredDofInput, RGResourceName.DepthStencil])
      (closed_blur hc _ _ _ (by simp)) ?_ ?_
    · simp [call_sequence_pass, AddDepthOfFieldPass.pass, AddDepthOfFieldPass.setup,
        closed_from, BuilderCall.accessed, BuilderCall.introduced, RegistrationCall.accessed,
        RegistrationCall.introduced]
    · intro n hn
      simp only [List.mem_cons, List.mem_singleton, List.not_mem_nil, or_false] at hn
      rcases hn with rfl | rfl | rfl
      · left; simp
      · right; exact blur_introduces hc _ _ _
      · left; simp
  · rfl

theorem closed_motion_blur (pp : Postprocessor) (gd : GlobalBlackboardData)
    (s : PostprocessSettings) :
    closed_from [resource_after_dof s, RGResourceName.VelocityBuffer]
      (call_sequence (motion_blur_events pp gd s)) = true := by
  unfold motion_blur_events
  split_ifs
  · simp [call_sequence_pass, AddMotionBlurPass.pass, AddMotionBlurPass.setup, closed_from,
      BuilderCall.accessed, BuilderCall.introduced, RegistrationCall.accessed,
      RegistrationCall.introduced]
  · rfl

theorem closed_bloom {helpers : HelperPasses} (hc : HelperContract helpers)
    (pp : Postprocessor) (gd : GlobalBlackboardData) (s : PostprocessSettings) :
    closed_from [resource_after_motion_blur s]
      (call_sequence (bloom_events helpers pp gd s)) = true := by
  unfold bloom_events
  split_ifs
  · rw [events3, call_sequence_append, call_sequence_append]
    refine closed_from_append ([RGResourceName.BloomExtract,
      resource_after_motion_blur s]) ?_ (closed_from_append
        ([RGResourceName.BloomExtract, resource_after_motion_blur s])
        (closed_mips hc _ (by simp)) ?_ ?_) ?_
    · simp [call_sequence_pass, AddBloomPass.extract_pass, AddBloomPass.extract_setup,
        closed_from, BuilderCall.accessed, BuilderCall.introduced, RegistrationCall.accessed,
        RegistrationCall.introduced]
    · simp [call_sequence_pass, AddBloomPass.combine_pass, AddBloomPass.combine_setup,
        closed_from, BuilderCall.accessed, BuilderCall.introduced, RegistrationCall.accessed,
        RegistrationCall.introduced, during]
    · intro n hn
      exact Or.inl hn
    · intro n hn
      simp only [List.mem_cons, List.mem_singleton, List.not_mem_nil, or_false] at hn
      rcases hn with rfl | rfl
      · right
        simp [call_sequence_pass, AddBloomPass.extract_pass, AddBloomPass.extract_setup,
          introduced_names, BuilderCall.introduced, RegistrationCall.introduced]
      · left; simp
  · rfl

theorem closed_sun {helpers : HelperPasses} (hc : HelperContract helpers)
    (pp : Postprocessor) (gd : GlobalBlackboardData) (lights : List (Nat × Light)) :
    closed_from [RGResourceName.DepthStencil, pp.final_resource]
      (call_sequence (sun_events helpers pp gd lights)) = true := by
  induction lights with
  | nil => rfl
  | cons l rest ih =>
    obtain ⟨e, light⟩ := l
    simp only [sun_events]
    split_ifs
    · exact ih
    · rw [events3, call_sequence_append, call_sequence_append]
      refine closed_from_append ([RGResourceName.SunOutput, pp.final_resource])
        ?_ (closed_from_append
          ([pp.final_resource, RGResourceName.GodRaysOutput])
          ?_ (closed_copy hc _ _ _ (by simp) (by simp)) ?_) ?_
      · simp [call_sequence_pass, AddSunPass.pass, AddSunPass.setup,
          closed_from, BuilderCall.accessed, BuilderCall.introduced, RegistrationCall.accessed,
          RegistrationCall.introduced]
      · simp [call_sequence_pass, AddGodRaysPass.pass, AddGodRaysPass.setup,
          closed_from, BuilderCall.accessed, BuilderCall.introduced, RegistrationCall.accessed,
          RegistrationCall.introduced]
      · intro n hn
        simp only [List.mem_cons, List.mem_singleton, List.not_mem_nil, or_false] at hn
        rcases hn with rfl | rfl
        · left; simp
        · right
          simp [call_sequence_pass, AddGodRaysPass.pass, AddGodRaysPass.setup,
            introduced_names, BuilderCall.introduced, RegistrationCall.introduced]
      · intro n hn
        simp only [List.mem_cons, List.mem_singleton, List.not_mem_nil, or_false] at hn
        rcases hn with rfl | rfl
        · right
          simp [call_sequence_pass, AddSunPass.pass, AddSunPass.setup,
            introduced_names, BuilderCall.introduced, RegistrationCall.introduced]
        · left; simp
    · rw [events2, call_sequence_append]
      refine closed_from_append ([pp.final_resource, RGResourceName.SunOutput])
        ?_ (closed_copy hc _ _ _ (by simp) (by simp)) ?_
      · simp [call_sequence_pass, AddSunPass.pass, AddSunPass.setup,
          closed_from, BuilderCall.accessed, BuilderCall.introduced, RegistrationCall.accessed,
          RegistrationCall.introduced]
      · intro n hn
        simp only [List.mem_cons, List.mem_singleton, List.not_mem_nil, or_false] at hn
        rcases hn with rfl | rfl
        · left; simp
        · right
          simp [call_sequence_pass, AddSunPass.pass, AddSunPass.setup,
            introduced_names, BuilderCall.introduced, RegistrationCall.introduced]
    · exact ih

theorem closed_taa (pp : Postprocessor) (gd : GlobalBlackboardData) (s : PostprocessSettings) :
    closed_from [resource_after_bloom s, RGResourceName.VelocityBuffer]
      (call_sequence (taa_events pp gd s)) = true := by
  unfold taa_events
  split_ifs
  · simp [call_sequence, ops_calls, RGEvent.ops, RGOp.calls, AddTAAPass.pass, AddTAAPass.setup,
      AddHistoryCopyPass.pass, AddHistoryCopyPass.setup, closed_from,
      BuilderCall.accessed, BuilderCall.introduced, RegistrationCall.accessed,
      RegistrationCall.introduced]
  · rfl


/-! ### Which names are introduced by the end of each stage -/

theorem main_in_clouds {helpers : HelperPasses} {pp : Postprocessor} {gd : GlobalBlackboardData}
    {lights : List (Nat × Light)} {s : PostprocessSettings} {n : RGResourceName}
    (h : n ∈ [RGResourceName.VelocityBuffer, RGResourceName.PostprocessMain]) :
    n ∈ introduced_names (call_sequence (registered_clouds helpers pp gd lights s)) := by
  unfold registered_clouds
  exact introduced_left (by rw [introduced_main]; exact h)

theorem clouds_in_ssr {helpers : HelperPasses} {pp : Postprocessor} {gd : GlobalBlackboardData}
    {lights : List (Nat × Light)} {s : PostprocessSettings} {n : RGResourceName}
    (h : n ∈ introduced_names (call_sequence (registered_clouds helpers pp gd lights s))) :
    n ∈ introduced_names (call_sequence (registered_ssr helpers pp gd lights s)) :=
  introduced_left h

theorem ssr_in_fog {helpers : HelperPasses} {pp : Postprocessor} {gd : GlobalBlackboardData}
    {lights : List (Nat × Light)} {s : PostprocessSettings} {n : RGResourceName}
    (h : n ∈ introduced_names (call_sequence (registered_ssr helpers pp gd lights s))) :
    n ∈ introduced_names (call_sequence (registered_fog helpers pp gd lights s)) :=
  introduced_left h

theorem fog_in_dof {helpers : HelperPasses} {pp : Postprocessor} {gd : GlobalBlackboardData}
    {lights : List (Nat × Light)} {s : PostprocessSettings} {n : RGResourceName}
    (h : n ∈ introduced_names (call_sequence (registered_fog helpers pp gd lights s))) :
    n ∈ introduced_names (call_sequence (registered_dof helpers pp gd lights s)) :=
  introduced_left h

theorem dof_in_motion_blur {helpers : HelperPasses} {pp : Postprocessor}
    {gd : GlobalBlackboardData} {lights : List (Nat × Light)} {s : PostprocessSettings}
    {n : RGResourceName}
    (h : n ∈ introduced_names (call_sequence (registered_dof helpers pp gd lights s))) :
    n ∈ introduced_names (call_sequence (registered_motion_blur helpers pp gd lights s)) :=
  introduced_left h

theorem motion_blur_in_bloom {helpers : HelperPasses} {pp : Postprocessor}
    {gd : GlobalBlackboardData} {lights : List (Nat × Light)} {s : PostprocessSettings}
    {n : RGResourceName}
    (h : n ∈ introduced_names (call_sequence (registered_motion_blur helpers pp gd lights s))) :
    n ∈ introduced_names (call_sequence (registered_bloom helpers pp gd lights s)) :=
  introduced_left h

theorem bloom_in_sun {helpers : HelperPasses} {pp : Postprocessor} {gd : GlobalBlackboardData}
    {lights : List (Nat × Light)} {s : PostprocessSettings} {n : RGResourceName}
    (h : n ∈ introduced_names (call_sequence (registered_bloom helpers pp gd lights s))) :
    n ∈ introduced_names (call_sequence (registered_sun helpers pp gd lights s)) :=
  introduced_left h

theorem known_ssr (helpers : HelperPasses) (pp : Postprocessor) (gd : GlobalBlackboardData)
    (lights : List (Nat × Light)) (s : PostprocessSettings) :
    resource_after_ssr s
      ∈ introduced_names (call_sequence (registered_ssr helpers pp gd lights s)) := by
  unfold resource_after_ssr
  split_ifs with h
  · refine introduced_right ?_
    simp [ssr_events, h, call_sequence_pass, AddSSRPass.pass, AddSSRPass.setup,
      introduced_names, BuilderCall.introduced, RegistrationCall.introduced]
  · exact clouds_in_ssr (main_in_clouds (by simp))

theorem known_fog (helpers : HelperPasses) (pp : Postprocessor) (gd : GlobalBlackboardData)
    (lights : List (Nat × Light)) (s : PostprocessSettings) :
    resource_after_fog s
      ∈ introduced_names (call_sequence (registered_fog helpers pp gd lights s)) := by
  unfold resource_after_fog
  split_ifs with h
  · refine introduced_right ?_
    simp [fog_events, h, call_sequence_pass, AddFogPass.pass, AddFogPass.setup,
      introduced_names, BuilderCall.introduced, RegistrationCall.introduced]
  · exact ssr_in_fog (known_ssr helpers pp gd lights s)

theorem known_dof (helpers : HelperPasses) (pp : Postprocessor) (gd : GlobalBlackboardData)
    (lights : List (Nat × Light)) (s : PostprocessSettings) :
    resource_after_dof s
      ∈ introduced_names (call_sequence (registered_dof helpers pp gd lights s)) := by
  unfold resource_after_dof
  split_ifs with h
  · refine introduced_right ?_
    unfold dof_events
    rw [if_pos h, events2, call_sequence_append, introduced_names_append]
    refine List.mem_append_right _ ?_
    simp [call_sequence_pass, AddDepthOfFieldPass.pass, AddDepthOfFieldPass.setup,
      introduced_names, BuilderCall.introduced, RegistrationCall.introduced]
  · exact fog_in_dof (known_fog helpers pp gd lights s)

theorem known_motion_blur (helpers : HelperPasses) (pp : Postprocessor)
    (gd : GlobalBlackboardData) (lights : List (Nat × Light)) (s : PostprocessSettings) :
    resource_after_motion_blur s
      ∈ introduced_names (call_sequence (registered_motion_blur helpers pp gd lights s)) := by
  unfold resource_after_motion_blur
  split_ifs with h
  · refine introduced_right ?_
    simp [motion_blur_events, h, call_sequence_pass, AddMotionBlurPass.pass,
      AddMotionBlurPass.setup, introduced_names, BuilderCall.introduced,
      RegistrationCall.introduced]
  · exact dof_in_motion_blur (known_dof helpers pp gd lights s)

theorem known_bloom (helpers : HelperPasses) (pp : Postprocessor) (gd : GlobalBlackboardData)
    (lights : List (Nat × Light)) (s : PostprocessSettings) :
    resource_after_bloom s
      ∈ introduced_names (call_sequence (registered_bloom helpers pp gd lights s)) := by
  unfold resource_after_bloom
  split_ifs with h
  · refine introduced_right ?_
    unfold bloom_events
    rw [if_pos h, events3, call_sequence_append, call_sequence_append, introduced_names_append,
      introduced_names_append]
    refine List.mem_append_right _ (List.mem_append_right _ ?_)
    simp [call_sequence_pass, AddBloomPass.combine_pass, AddBloomPass.combine_setup,
      introduced_names, BuilderCall.introduced, RegistrationCall.introduced]
  · exact motion_blur_in_bloom (known_motion_blur helpers pp gd lights s)

/-! ### Closure of the whole sequence -/

theorem closed_registered {helpers : HelperPasses} (hc : HelperContract helpers)
    (pp : Postprocessor) (gd : GlobalBlackboardData) (lights : List (Nat × Light))
    (s : PostprocessSettings) :
    closed_from upstream_names (call_sequence (registered helpers pp gd lights s)) = true := by
  have h1 : closed_from upstream_names
      (call_sequence (registered_clouds helpers pp gd lights s)) = true := by
    refine closed_stage (closed_main pp gd lights s) (closed_clouds hc pp gd s) ?_
    intro n hn
    simp only [List.mem_cons, List.mem_singleton, List.not_mem_nil, or_false] at hn
    rcases hn with rfl | rfl
    · left; simp [upstream_names]
    · right; rw [introduced_main]; simp
  have h2 : closed_from upstream_names
      (call_sequence (registered_ssr helpers pp gd lights s)) = true := by
    refine closed_stage h1 (closed_ssr pp gd s) ?_
    intro n hn
    simp only [List.mem_cons, List.mem_singleton, List.not_mem_nil, or_false] at hn
    rcases hn with rfl | rfl | rfl
    · right; exact main_in_clouds (by simp)
    · left; simp [upstream_names]
    · left; simp [upstream_names]
  have h3 : closed_from upstream_names
      (call_sequence (registered_fog helpers pp gd lights s)) = true := by
    refine closed_stage h2 (closed_fog pp gd s) ?_
    intro n hn
    simp only [List.mem_cons, List.mem_singleton, List.not_mem_nil, or_false] at hn
    rcases hn with rfl | rfl
    · left; simp [upstream_names]
    · right; exact known_ssr helpers pp gd lights s
  have h4 : closed_from upstream_names
      (call_sequence (registered_dof helpers pp gd lights s)) = true := by
    refine closed_stage h3 (closed_dof hc pp gd s) ?_
    intro n hn
    simp only [List.mem_cons, List.mem_singleton, List.not_mem_nil, or_false] at hn
    rcases hn with rfl | rfl
    · right; exact known_fog helpers pp gd lights s
    · left; simp [upstream_names]
  have h5 : closed_from upstream_names
      (call_sequence (registered_motion_blur helpers pp gd lights s)) = true := by
    refine closed_stage h4 (closed_motion_blur pp gd s) ?_
    intro n hn
    simp only [List.mem_cons, List.mem_singleton, List.not_mem_nil, or_false] at hn
    rcases hn with rfl | rfl
    · right; exact known_dof helpers pp gd lights s
    · right; exact fog_in_dof (ssr_in_fog (clouds_in_ssr (main_in_clouds (by simp))))
  have h6 : closed_from upstream_names
      (call_sequence (registered_bloom helpers pp gd lights s)) = true := by
    refine closed_stage h5 (closed_bloom hc pp gd s) ?_
    intro n hn
    simp only [List.mem_singleton] at hn
    subst hn
    right; exact known_motion_blur helpers pp gd lights s
  have h7 : closed_from upstream_names
      (call_sequence (registered_sun helpers pp gd lights s)) = true := by
    refine closed_stage h6 (closed_sun hc (during pp s (resource_after_bloom s)) gd lights) ?_
    intro n hn
    simp only [List.mem_cons, List.mem_singleton, List.not_mem_nil, or_false] at hn
    rcases hn with rfl | rfl
    · left; simp [upstream_names]
    · right; exact known_bloom helpers pp gd lights s
  refine closed_stage h7 (closed_taa pp gd s) ?_
  intro n hn
  simp only [List.mem_cons, List.mem_singleton, List.not_mem_nil, or_false] at hn
  rcases hn with rfl | rfl
  · right; exact bloom_in_sun (known_bloom helpers pp gd lights s)
  · right
    exact bloom_in_sun (motion_blur_in_bloom (dof_in_motion_blur (fog_in_dof (ssr_in_fog
      (clouds_in_ssr (main_in_clouds (by simp)))))))


/-! ### No stage introduces an upstream name -/

theorem upstream_free_nil : upstream_free [] := by
  intro n _
  simp [call_sequence_nil, introduced_names]

theorem upstream_free_append {A B : List RGEvent} (hA : upstream_free A)
    (hB : upstream_free B) : upstream_free (A ++ B) := by
  intro n hn
  rw [call_sequence_append, introduced_names_append, List.mem_append]
  rintro (h | h)
  · exact hA n hn h
  · exact hB n hn h

theorem upstream_free_pass (pass : RGPass)
    (h : ∀ n ∈ upstream_names, n ∉ declared_textures pass)
    (hb : ∀ stmt ∈ pass.setup, ∀ name, stmt.call ≠ BuilderCall.DeclareBuffer name) :
    upstream_free [RGEvent.direct (RGOp.AddPass pass)] := by
  intro n hn hmem
  rw [call_sequence_pass] at hmem
  simp only [introduced_names, List.mem_filterMap, List.mem_map] at hmem
  obtain ⟨c, ⟨stmt, hstmt, rfl⟩, hc⟩ := hmem
  refine h n hn ?_
  simp only [declared_textures, List.mem_filterMap]
  refine ⟨stmt, hstmt, ?_⟩
  cases hcall : stmt.call with
  | DeclareTexture name desc =>
    simp only [RegistrationCall.introduced, hcall, BuilderCall.introduced] at hc
    simpa using hc
  | DeclareBuffer name => exact absurd hcall (hb stmt hstmt name)
  | _ => simp [RegistrationCall.introduced, hcall, BuilderCall.introduced] at hc

theorem upstream_free_lens_flare (pp : Postprocessor) (gd : GlobalBlackboardData)
    (lights : List (Nat × Light)) : upstream_free (lens_flare_events pp gd lights) := by
  intro n _
  rw [introduced_lens_flare]
  simp

theorem upstream_free_main (pp : Postprocessor) (gd : GlobalBlackboardData)
    (lights : List (Nat × Light)) (s : PostprocessSettings) :
    upstream_free (registered_main pp gd lights s) := by
  intro n hn
  rw [introduced_main]
  simp only [upstream_names, List.mem_cons, List.mem_singleton, List.not_mem_nil,
    or_false] at hn
  rcases hn with rfl | rfl | rfl <;> simp

theorem upstream_free_clouds {helpers : HelperPasses} (hc : HelperContract helpers)
    (pp : Postprocessor) (gd : GlobalBlackboardData) (s : PostprocessSettings) :
    upstream_free (clouds_events helpers pp gd s) := by
  unfold clouds_events
  split_ifs
  · rw [events3]
    refine upstream_free_append (upstream_free_pass _ ?_ ?_)
      (upstream_free_append (upstream_free_blur hc _ _ _ (by simp [upstream_names]))
        (upstream_free_copy hc _ _ _))
    · simp [upstream_names, declared_textures, AddVolumetricCloudsPass.pass,
        AddVolumetricCloudsPass.setup]
    · simp [AddVolumetricCloudsPass.pass, AddVolumetricCloudsPass.setup]
  · exact upstream_free_nil

theorem upstream_free_ssr (pp : Postprocessor) (gd : GlobalBlackboardData)
    (s : PostprocessSettings) : upstream_free (ssr_events pp gd s) := by
  unfold ssr_events
  split_ifs
  · refine upstream_free_pass _ ?_ ?_
    · simp [upstream_names, declared_textures, AddSSRPass.pass, AddSSRPass.setup]
    · simp [AddSSRPass.pass, AddSSRPass.setup]
  · exact upstream_free_nil

theorem upstream_free_fog (pp : Postprocessor) (gd : GlobalBlackboardData)
    (s : PostprocessSettings) : upstream_free (fog_events pp gd s) := by
  unfold fog_events
  split_ifs
  · refine upstream_free_pass _ ?_ ?_
    · simp [upstream_names, declared_textures, AddFogPass.pass, AddFogPass.setup]
    · simp [AddFogPass.pass, AddFogPass.setup]
  · exact upstream_free_nil

theorem upstream_free_dof {helpers : HelperPasses} (hc : HelperContract helpers)
    (pp : Postprocessor) (gd : GlobalBlackboardData) (s : PostprocessSettings) :
    upstream_free (dof_events helpers pp gd s) := by
  unfold dof_events
  split_ifs
  · rw [events2]
    refine upstream_free_append (upstream_free_blur hc _ _ _ (by simp [upstream_names]))
      (upstream_free_pass _ ?_ ?_)
    · simp [upstream_names, declared_textures, AddDepthOfFieldPass.pass,
        AddDepthOfFieldPass.setup]
    · simp [AddDepthOfFieldPass.pass, AddDepthOfFieldPass.setup]
  · exact upstream_free_nil

theorem upstream_free_motion_blur (pp : Postprocessor) (gd : GlobalBlackboardData)
    (s : PostprocessSettings) : upstream_free (motion_blur_events pp gd s) := by
  unfold motion_blur_events
  split_ifs
  · refine upstream_free_pass _ ?_ ?_
    · simp [upstream_names, declared_textures, AddMotionBlurPass.pass, AddMotionBlurPass.setup]
    · simp [AddMotionBlurPass.pass, AddMotionBlurPass.setup]
  · exact upstream_free_nil

theorem upstream_free_bloom {helpers : HelperPasses} (hc : HelperContract helpers)
    (pp : Postprocessor) (gd : GlobalBlackboardData) (s : PostprocessSettings) :
    upstream_free (bloom_events helpers pp gd s) := by
  unfold bloom_events
  split_ifs
  · rw [events3]
    refine upstream_free_append (upstream_free_pass _ ?_ ?_)
      (upstream_free_append (upstream_free_mips hc _) (upstream_free_pass _ ?_ ?_))
    · simp [upstream_names, declared_textures, AddBloomPass.extract_pass,
        AddBloomPass.extract_setup]
    · simp [AddBloomPass.extract_pass, AddBloomPass.extract_setup]
    · simp [upstream_names, declared_textures, AddBloomPass.combine_pass,
        AddBloomPass.combine_setup]
    · simp [AddBloomPass.combine_pass, AddBloomPass.combine_setup]
  · exact upstream_free_nil

theorem upstream_free_sun {helpers : HelperPasses} (hc : HelperContract helpers)
    (pp : Postprocessor) (gd : GlobalBlackboardData) (lights : List (Nat × Light)) :
    upstream_free (sun_events helpers pp gd lights) := by
  induction lights with
  | nil => exact upstream_free_nil
  | cons l rest ih =>
    obtain ⟨e, light⟩ := l
    simp only [sun_events]
    split_ifs
    · exact ih
    · rw [events3]
      refine upstream_free_append (upstream_free_pass _ ?_ ?_)
        (upstream_free_append (upstream_free_pass _ ?_ ?_) (upstream_free_copy hc _ _ _))
      · simp [upstream_names, declared_textures, AddSunPass.pass, AddSunPass.setup]
      · simp [AddSunPass.pass, AddSunPass.setup]
      · simp [upstream_names, declared_textures, AddGodRaysPass.pass, AddGodRaysPass.setup]
      · simp [AddGodRaysPass.pass, AddGodRaysPass.setup]
    · rw [events2]
      refine upstream_free_append (upstream_free_pass _ ?_ ?_) (upstream_free_copy hc _ _ _)
      · simp [upstream_names, declared_textures, AddSunPass.pass, AddSunPass.setup]
      · simp [AddSunPass.pass, AddSunPass.setup]
    · exact ih

theorem upstream_free_taa (pp : Postprocessor) (gd : GlobalBlackboardData)
    (s : PostprocessSettings) : upstream_free (taa_events pp gd s) := by
  unfold taa_events
  split_ifs
  · rw [events3]
    refine upstream_free_append ?_
      (upstream_free_append (upstream_free_pass _ ?_ ?_) (upstream_free_pass _ ?_ ?_))
    · intro n hn
      rw [call_sequence_import]
      simp only [upstream_names, List.mem_cons, List.mem_singleton, List.not_mem_nil,
        or_false] at hn
      rcases hn with rfl | rfl | rfl <;>
        simp [introduced_names, RegistrationCall.introduced]
    · simp [upstream_names, declared_textures, AddTAAPass.pass, AddTAAPass.setup]
    · simp [AddTAAPass.pass, AddTAAPass.setup]
    · simp [upstream_names, declared_textures, AddHistoryCopyPass.pass,
        AddHistoryCopyPass.setup]
    · simp [AddHistoryCopyPass.pass, AddHistoryCopyPass.setup]
  · exact upstream_free_nil

theorem upstream_free_registered {helpers : HelperPasses} (hc : HelperContract helpers)
    (pp : Postprocessor) (gd : GlobalBlackboardData) (lights : List (Nat × Light))
    (s : PostprocessSettings) : upstream_free (registered helpers pp gd lights s) := by
  unfold registered registered_sun registered_bloom registered_motion_blur registered_dof
    registered_fog registered_ssr registered_clouds
  exact upstream_free_append (upstream_free_append (upstream_free_append (upstream_free_append
    (upstream_free_append (upstream_free_append (upstream_free_append (upstream_free_append
      (upstream_free_main pp gd lights s) (upstream_free_clouds hc pp gd s))
      (upstream_free_ssr pp gd s)) (upstream_free_fog pp gd s)) (upstream_free_dof hc pp gd s))
      (upstream_free_motion_blur pp gd s)) (upstream_free_bloom hc pp gd s))
      (upstream_free_sun hc _ gd lights)) (upstream_free_taa pp gd s)

theorem added_events_extend (rg : RenderGraph) (events : List RGEvent) :
    added_events rg (rg.extend events) = events := by
  simp [added_events, RenderGraph.extend]

end Postprocessor

theorem sample_helpers_contract : HelperContract sample_helpers where
  blur_closed := by
    intro src dst pass_name
    simp [sample_helpers, ops_calls, RGOp.calls, closed_from, RegistrationCall.accessed,
      RegistrationCall.introduced, BuilderCall.accessed, BuilderCall.introduced]
  blur_declares := by
    intro src dst pass_name
    simp [sample_helpers, ops_calls, RGOp.calls, introduced_names,
      RegistrationCall.introduced, BuilderCall.introduced]
  blur_upstream := by
    intro src dst pass_name name _
    simp [sample_helpers, ops_calls, RGOp.calls, introduced_names,
      RegistrationCall.introduced, BuilderCall.introduced]
  copy_closed := by
    intro dst src mode
    simp [sample_helpers, ops_calls, RGOp.calls, closed_from, RegistrationCall.accessed,
      RegistrationCall.introduced, BuilderCall.accessed, BuilderCall.introduced]
  copy_upstream := by
    intro dst src mode name _
    simp [sample_helpers, ops_calls, RGOp.calls, introduced_names,
      RegistrationCall.introduced, BuilderCall.introduced]
  mips_closed := by
    intro texture
    simp [sample_helpers, ops_calls, RGOp.calls, closed_from, RegistrationCall.accessed,
      RegistrationCall.introduced, BuilderCall.accessed, BuilderCall.introduced]
  mips_upstream := by
    intro texture name _
    simp [sample_helpers, ops_calls, RGOp.calls, introduced_names,
      RegistrationCall.introduced, BuilderCall.introduced]

/-- C1. For every settings value and every list of lights, one call of
`Postprocessor::AddPasses` on a graph whose blackboard holds the global data succeeds, and in
the sequence of calls it makes (across passes in registration order, inside each setup callback
in call order) every name that is declared or imported in that call is declared or imported
before each call that reads or writes it.  The helper passes defined outside the sources are
assumed to keep `HelperContract`. -/
theorem Postprocessor.AddPasses_declares_before_use (helpers : HelperPasses)
    (hc : HelperContract helpers) (pp : Postprocessor) (lights : List (Nat × Light))
    (rg : RenderGraph) (s : PostprocessSettings) (gd : GlobalBlackboardData)
    (hbb : rg.blackboard.global_data = some gd) :
    ∃ (pp' : Postprocessor) (rg' : RenderGraph),
      Postprocessor.AddPasses helpers pp lights rg s = Except.ok (pp', rg') ∧
      DeclaredBeforeUse (call_sequence (added_events rg rg')) := by
  refine ⟨_, _, Postprocessor.AddPasses_eq helpers pp gd lights rg s hbb, ?_⟩
  rw [Postprocessor.added_events_extend]
  exact declared_before_use_of_closed (Postprocessor.closed_registered hc pp gd lights s)
    (Postprocessor.upstream_free_registered hc pp gd lights s)

/-- Witness of C1 on the concrete frame. -/
theorem Postprocessor.AddPasses_declares_before_use_witness :
    HelperContract sample_helpers ∧
    sample_graph.blackboard.global_data = some sample_global_data ∧
    ∃ (pp' : Postprocessor) (rg' : RenderGraph),
      Postprocessor.AddPasses sample_helpers sample_postprocessor sample_lights sample_graph
        sample_settings = Except.ok (pp', rg') ∧
      DeclaredBeforeUse (call_sequence (added_events sample_graph rg')) :=
  ⟨sample_helpers_contract, rfl,
    Postprocessor.AddPasses_declares_before_use sample_helpers sample_helpers_contract
      sample_postprocessor sample_lights sample_graph sample_settings sample_global_data rfl⟩

/-- C7. If the blackboard holds no `GlobalBlackboardData` entry, `Postprocessor::AddPasses`
fails in the lookup of `AddVelocityBufferPass`, for every settings value and light list, and
the graph at the point of failure is the graph it was called with: no pass has been
registered. -/
theorem Postprocessor.AddPasses_fails_before_registration (helpers : HelperPasses)
    (pp : Postprocessor) (lights : List (Nat × Light)) (rg : RenderGraph)
    (s : PostprocessSettings) (hbb : rg.blackboard.global_data = none) :
    Postprocessor.AddPasses helpers pp lights rg s
      = Except.error { message := "GlobalBlackboardData", graph := rg } := by
  simp [Postprocessor.AddPasses, Postprocessor.AddVelocityBufferPass, GetChecked, hbb, bind,
    Except.bind]

/-- Witness of C7 on a graph with an empty blackboard. -/
theorem Postprocessor.AddPasses_fails_before_registration_witness :
    sample_graph_without_blackboard.blackboard.global_data = none ∧
    Postprocessor.AddPasses sample_helpers sample_postprocessor sample_lights
      sample_graph_without_blackboard sample_settings
      = Except.error
          { message := "GlobalBlackboardData", graph := sample_graph_without_blackboard } :=
  ⟨rfl, Postprocessor.AddPasses_fails_before_registration sample_helpers sample_postprocessor
    sample_lights sample_graph_without_blackboard sample_settings rfl⟩

/-! ## The passes the post-processor registers itself -/

theorem own_passes_append (a b : List RGEvent) :
    own_passes (a ++ b) = own_passes a ++ own_passes b := by
  induction a with
  | nil => rfl
  | cons e rest ih =>
    cases e with
    | direct op =>
      cases op <;> simp [own_passes, ih]
    | helper call ops => simp [own_passes, ih]

theorem own_passes_helper (helpers : HelperPasses) (call : HelperCall) (rest : List RGEvent) :
    own_passes (Postprocessor.helper_event helpers call :: rest) = own_passes rest := by
  cases call <;> simp [Postprocessor.helper_event, own_passes]

theorem own_declarations_append (a b : List RGEvent) :
    own_declarations (a ++ b) = own_declarations a ++ own_declarations b := by
  simp [own_declarations, own_passes_append]

namespace Postprocessor

theorem own_passes_lens_flare (pp : Postprocessor) (gd : GlobalBlackboardData)
    (lights : List (Nat × Light)) :
    ∀ p ∈ own_passes (lens_flare_events pp gd lights),
      ∃ light, p = AddLensFlarePass.pass pp gd light := by
  induction lights with
  | nil => simp [lens_flare_events, own_passes]
  | cons l rest ih =>
    obtain ⟨e, light_data⟩ := l
    simp only [lens_flare_events]
    split_ifs
    · exact ih
    · intro p hp
      simp only [own_passes, List.mem_cons] at hp
      rcases hp with rfl | hp
      · exact ⟨light_data, rfl⟩
      · exact ih p hp

theorem own_declarations_lens_flare (pp : Postprocessor) (gd : GlobalBlackboardData)
    (lights : List (Nat × Light)) :
    own_declarations (lens_flare_events pp gd lights) = [] := by
  induction lights with
  | nil => rfl
  | cons l rest ih =>
    obtain ⟨e, light_data⟩ := l
    simp only [lens_flare_events]
    split_ifs
    · exact ih
    · simp only [own_declarations, own_passes, List.flatMap_cons] at ih ⊢
      rw [ih]
      simp [declared_textures, AddLensFlarePass.pass, AddLensFlarePass.setup]

theorem own_declarations_sun (helpers : HelperPasses) (pp : Postprocessor)
    (gd : GlobalBlackboardData) (lights : List (Nat × Light)) :
    (own_declarations (sun_events helpers pp gd lights)).Sublist
      [RGResourceName.SunOutput, RGResourceName.GodRaysOutput] := by
  induction lights with
  | nil => simp [sun_events, own_declarations, own_passes]
  | cons l rest ih =>
    obtain ⟨e, light⟩ := l
    simp only [sun_events]
    split_ifs
    · exact ih
    · simp [own_declarations, own_passes, own_passes_helper, declared_textures, AddSunPass.pass,
        AddSunPass.setup, AddGodRaysPass.pass, AddGodRaysPass.setup]
    · simp [own_declarations, own_passes, own_passes_helper, declared_textures, AddSunPass.pass,
        AddSunPass.setup]
    · exact ih

/-- The names `AddPasses` can hand to `DeclareTexture`, in stage order. -/
theorem own_declarations_registered (helpers : HelperPasses) (pp : Postprocessor)
    (gd : GlobalBlackboardData) (lights : List (Nat × Light)) (s : PostprocessSettings) :
    (own_declarations (registered helpers pp gd lights s)).Sublist
      ([RGResourceName.VelocityBuffer, RGResourceName.PostprocessMain]
        ++ [RGResourceName.CloudsOutput] ++ [RGResourceName.SSR_Output]
        ++ [RGResourceName.FogOutput] ++ [RGResourceName.DepthOfFieldOutput]
        ++ [RGResourceName.MotionBlurOutput]
        ++ [RGResourceName.BloomExtract, RGResourceName.BloomOutput]
        ++ [RGResourceName.SunOutput, RGResourceName.GodRaysOutput]
        ++ [RGResourceName.TAAOutput]) := by
  unfold registered registered_sun registered_bloom registered_motion_blur registered_dof
    registered_fog registered_ssr registered_clouds registered_main
  simp only [own_declarations_append]
  refine List.Sublist.append (List.Sublist.append (List.Sublist.append (List.Sublist.append
    (List.Sublist.append (List.Sublist.append (List.Sublist.append (List.Sublist.append
      ?_ ?_) ?_) ?_) ?_) ?_) ?_) (own_declarations_sun helpers _ gd lights)) ?_
  · rw [own_declarations_lens_flare]
    simp [own_declarations, own_passes, declared_textures, AddVelocityBufferPass.pass,
      AddVelocityBufferPass.setup, AddCopyHDRPass.pass, AddCopyHDRPass.setup]
  · unfold clouds_events
    split_ifs <;>
      simp [own_declarations, own_passes, own_passes_helper, declared_textures,
        AddVolumetricCloudsPass.pass, AddVolumetricCloudsPass.setup]
  · unfold ssr_events
    split_ifs <;>
      simp [own_declarations, own_passes, declared_textures, AddSSRPass.pass, AddSSRPass.setup]
  · unfold fog_events
    split_ifs <;>
      simp [own_declarations, own_passes, declared_textures, AddFogPass.pass, AddFogPass.setup]
  · unfold dof_events
    split_ifs <;>
      simp [own_declarations, own_passes, own_passes_helper, declared_textures,
        AddDepthOfFieldPass.pass, AddDepthOfFieldPass.setup]
  · unfold motion_blur_events
    split_ifs <;>
      simp [own_declarations, own_passes, declared_textures, AddMotionBlurPass.pass,
        AddMotionBlurPass.setup]
  · unfold bloom_events
    split_ifs <;>
      simp [own_declarations, own_passes, own_passes_helper, declared_textures,
        AddBloomPass.extract_pass, AddBloomPass.extract_setup, AddBloomPass.combine_pass,
        AddBloomPass.combine_setup]
  · unfold taa_events
    split_ifs <;>
      simp [own_declarations, own_passes, declared_textures, AddTAAPass.pass, AddTAAPass.setup,
        AddHistoryCopyPass.pass, AddHistoryCopyPass.setup]

end Postprocessor

/-- C2. For every settings value and every list of lights, one call of
`Postprocessor::AddPasses` (on a graph whose blackboard holds the global data) succeeds, and the
names its own setup callbacks hand to `DeclareTexture` are pairwise distinct; in particular
`SunOutput` and `GodRaysOutput` are declared at most once, however many active directional
lights exist. -/
theorem Postprocessor.AddPasses_declares_each_name_once (helpers : HelperPasses)
    (pp : Postprocessor) (lights : List (Nat × Light)) (rg : RenderGraph)
    (s : PostprocessSettings) (gd : GlobalBlackboardData)
    (hbb : rg.blackboard.global_data = some gd) :
    ∃ (pp' : Postprocessor) (rg' : RenderGraph),
      Postprocessor.AddPasses helpers pp lights rg s = Except.ok (pp', rg') ∧
      (own_declarations (added_events rg rg')).Nodup ∧
      (own_declarations (added_events rg rg')).count RGResourceName.SunOutput ≤ 1 ∧
      (own_declarations (added_events rg rg')).count RGResourceName.GodRaysOutput ≤ 1 := by
  refine ⟨_, _, Postprocessor.AddPasses_eq helpers pp gd lights rg s hbb, ?_⟩
  rw [Postprocessor.added_events_extend]
  have hsub := Postprocessor.own_declarations_registered helpers pp gd lights s
  have hnodup : (own_declarations (Postprocessor.registered helpers pp gd lights s)).Nodup :=
    List.Nodup.sublist hsub (by decide)
  exact ⟨hnodup, List.nodup_iff_count_le_one.1 hnodup _, List.nodup_iff_count_le_one.1 hnodup _⟩

/-- Witness of C2 on the concrete frame. -/
theorem Postprocessor.AddPasses_declares_each_name_once_witness :
    sample_graph.blackboard.global_data = some sample_global_data ∧
    ∃ (pp' : Postprocessor) (rg' : RenderGraph),
      Postprocessor.AddPasses sample_helpers sample_postprocessor sample_lights sample_graph
        sample_settings = Except.ok (pp', rg') ∧
      (own_declarations (added_events sample_graph rg')).Nodup ∧
      (own_declarations (added_events sample_graph rg')).count RGResourceName.SunOutput ≤ 1 ∧
      (own_declarations (added_events sample_graph rg')).count RGResourceName.GodRaysOutput ≤ 1 :=
  ⟨rfl, Postprocessor.AddPasses_declares_each_name_once sample_helpers sample_postprocessor
    sample_lights sample_graph sample_settings sample_global_data rfl⟩

theorem Get_of_some {rg : RenderGraph} {fd : FrameBlackboardData}
    (h : rg.blackboard.frame_data = some fd) : Get rg = Except.ok fd := by
  simp [Get, h]

theorem VolumetricFogPass.fog_AddPasses_eq (DivideAndRoundUp : Nat → Nat → Nat)
    (fp : VolumetricFogPass) (rg : RenderGraph) (fog_volume_buffer_srv_gpu : Nat)
    (fd : FrameBlackboardData) (h : rg.blackboard.frame_data = some fd) :
    VolumetricFogPass.AddPasses DivideAndRoundUp fp rg fog_volume_buffer_srv_gpu
      = Except.ok ({ fp with fog_volume_buffer_idx := fog_volume_buffer_srv_gpu },
          rg.extend (VolumetricFogPass.registered DivideAndRoundUp fp fd
            fog_volume_buffer_srv_gpu)) := by
  have h2 : ∀ es, Get (rg.extend es) = Except.ok fd := fun es => by
    simp [Get, RenderGraph.extend, h]
  simp only [VolumetricFogPass.AddPasses, VolumetricFogPass.AddLightInjectionPass,
    VolumetricFogPass.AddScatteringIntegrationPass, VolumetricFogPass.AddCombineFogPass,
    Get_of_some h, h2, RenderGraph.AddPass_eq, RenderGraph.ImportTexture_eq,
    RenderGraph.ExportTexture_eq, RenderGraph.extend_extend, bind, Except.bind, pure,
    Except.pure, VolumetricFogPass.registered, List.cons_append, List.nil_append]

namespace Postprocessor

theorem declares_lens_flare (pp : Postprocessor) (gd : GlobalBlackboardData)
    (lights : List (Nat × Light)) :
    ∀ p ∈ own_passes (lens_flare_events pp gd lights), DeclaresUnlessListed p := by
  intro p hp
  obtain ⟨light, rfl⟩ := own_passes_lens_flare pp gd lights p hp
  simp [DeclaresUnlessListed, introduces_resource, AddLensFlarePass.pass,
    AddLensFlarePass.setup, BuilderCall.introduced, non_declaring_passes]

theorem declares_sun (helpers : HelperPasses) (pp : Postprocessor)
    (gd : GlobalBlackboardData) (lights : List (Nat × Light)) :
    ∀ p ∈ own_passes (sun_events helpers pp gd lights), DeclaresUnlessListed p := by
  induction lights with
  | nil => simp [sun_events, own_passes]
  | cons l rest ih =>
    obtain ⟨e, light⟩ := l
    simp only [sun_events]
    split_ifs
    · exact ih
    · simp [own_passes, own_passes_helper, DeclaresUnlessListed, introduces_resource,
        AddSunPass.pass, AddSunPass.setup, AddGodRaysPass.pass, AddGodRaysPass.setup,
        BuilderCall.introduced, non_declaring_passes]
    · simp [own_passes, own_passes_helper, DeclaresUnlessListed, introduces_resource,
        AddSunPass.pass, AddSunPass.setup, BuilderCall.introduced, non_declaring_passes]
    · exact ih

theorem declares_registered (helpers : HelperPasses) (pp : Postprocessor)
    (gd : GlobalBlackboardData) (lights : List (Nat × Light)) (s : PostprocessSettings) :
    ∀ p ∈ own_passes (registered helpers pp gd lights s), DeclaresUnlessListed p := by
  unfold registered registered_sun registered_bloom registered_motion_blur registered_dof
    registered_fog registered_ssr registered_clouds registered_main
  simp only [own_passes_append, List.mem_append]
  rintro p (((((((((hp | hp) | hp) | hp) | hp) | hp) | hp) | hp) | hp) | hp)
  · revert p
    simp [own_passes, DeclaresUnlessListed, introduces_resource, AddVelocityBufferPass.pass,
      AddVelocityBufferPass.setup, AddCopyHDRPass.pass, AddCopyHDRPass.setup,
      BuilderCall.introduced, non_declaring_passes]
  · exact declares_lens_flare _ gd lights p hp
  · revert p
    unfold clouds_events
    split_ifs <;>
      simp [own_passes, own_passes_helper, DeclaresUnlessListed, introduces_resource,
        AddVolumetricCloudsPass.pass, AddVolumetricCloudsPass.setup, BuilderCall.introduced,
        non_declaring_passes]
  · revert p
    unfold ssr_events
    split_ifs <;>
      simp [own_passes, DeclaresUnlessListed, introduces_resource, AddSSRPass.pass,
        AddSSRPass.setup, BuilderCall.introduced, non_declaring_passes]
  · revert p
    unfold fog_events
    split_ifs <;>
      simp [own_passes, DeclaresUnlessListed, introduces_resource, AddFogPass.pass,
        AddFogPass.setup, BuilderCall.introduced, non_declaring_passes]
  · revert p
    unfold dof_events
    split_ifs <;>
      simp [own_passes, own_passes_helper, DeclaresUnlessListed, introduces_resource,
        AddDepthOfFieldPass.pass, AddDepthOfFieldPass.setup, BuilderCall.introduced,
        non_declaring_passes]
  · revert p
    unfold motion_blur_events
    split_ifs <;>
      simp [own_passes, DeclaresUnlessListed, introduces_resource, AddMotionBlurPass.pass,
        AddMotionBlurPass.setup, BuilderCall.introduced, non_declaring_passes]
  · revert p
    unfold bloom_events
    split_ifs <;>
      simp [own_passes, own_passes_helper, DeclaresUnlessListed, introduces_resource,
        AddBloomPass.extract_pass, AddBloomPass.extract_setup, AddBloomPass.combine_pass,
        AddBloomPass.combine_setup, BuilderCall.introduced, non_declaring_passes]
  · exact declares_sun helpers _ gd lights p hp
  · revert p
    unfold taa_events
    split_ifs <;>
      simp [own_passes, DeclaresUnlessListed, introduces_resource, AddTAAPass.pass,
        AddTAAPass.setup, AddHistoryCopyPass.pass, AddHistoryCopyPass.setup,
        BuilderCall.introduced, non_declaring_passes]

end Postprocessor

theorem VolumetricFogPass.fog_declares_registered (DivideAndRoundUp : Nat → Nat → Nat)
    (fp : VolumetricFogPass) (fd : FrameBlackboardData) (index : Nat) :
    ∀ p ∈ own_passes (VolumetricFogPass.registered DivideAndRoundUp fp fd index),
      DeclaresUnlessListed p := by
  simp [VolumetricFogPass.registered, own_passes, DeclaresUnlessListed, introduces_resource,
    VolumetricFogPass.AddLightInjectionPass.pass, VolumetricFogPass.AddLightInjectionPass.setup,
    VolumetricFogPass.AddScatteringIntegrationPass.pass,
    VolumetricFogPass.AddScatteringIntegrationPass.setup,
    VolumetricFogPass.AddCombineFogPass.pass, VolumetricFogPass.AddCombineFogPass.setup,
    BuilderCall.introduced, non_declaring_passes]

/-- C4, as the code has it.  Every pass registered by `Postprocessor::AddPasses` and by
`VolumetricFogPass::AddPasses` has a setup callback that declares a resource, except the
LensFlare Pass, the History Copy Pass and the Volumetric Fog Combine Pass, whose setup callbacks
make no resource-introducing call. -/
theorem setup_declares_unless_listed (helpers : HelperPasses) (pp : Postprocessor)
    (lights : List (Nat × Light)) (rg : RenderGraph) (s : PostprocessSettings)
    (gd : GlobalBlackboardData) (hbb : rg.blackboard.global_data = some gd)
    (DivideAndRoundUp : Nat → Nat → Nat) (fp : VolumetricFogPass) (fog_rg : RenderGraph)
    (fog_volume_buffer_srv_gpu : Nat) (fd : FrameBlackboardData)
    (hfd : fog_rg.blackboard.frame_data = some fd) :
    (∃ (pp' : Postprocessor) (rg' : RenderGraph),
      Postprocessor.AddPasses helpers pp lights rg s = Except.ok (pp', rg') ∧
      ∀ p ∈ own_passes (added_events rg rg'), DeclaresUnlessListed p) ∧
    (∃ (fp' : VolumetricFogPass) (rg' : RenderGraph),
      VolumetricFogPass.AddPasses DivideAndRoundUp fp fog_rg fog_volume_buffer_srv_gpu
        = Except.ok (fp', rg') ∧
      ∀ p ∈ own_passes (added_events fog_rg rg'), DeclaresUnlessListed p) := by
  refine ⟨⟨_, _, Postprocessor.AddPasses_eq helpers pp gd lights rg s hbb, ?_⟩,
    ⟨_, _, VolumetricFogPass.fog_AddPasses_eq DivideAndRoundUp fp fog_rg fog_volume_buffer_srv_gpu
      fd hfd, ?_⟩⟩
  · rw [Postprocessor.added_events_extend]
    exact Postprocessor.declares_registered helpers pp gd lights s
  · rw [Postprocessor.added_events_extend]
    exact VolumetricFogPass.fog_declares_registered DivideAndRoundUp fp fd fog_volume_buffer_srv_gpu

/-- Witness of the amended C4 on the concrete frame. -/
theorem setup_declares_unless_listed_witness :
    sample_graph.blackboard.global_data = some sample_global_data ∧
    sample_graph.blackboard.frame_data = some sample_frame_data ∧
    (∃ (pp' : Postprocessor) (rg' : RenderGraph),
      Postprocessor.AddPasses sample_helpers sample_postprocessor sample_lights sample_graph
        sample_settings = Except.ok (pp', rg') ∧
      ∀ p ∈ own_passes (added_events sample_graph rg'), DeclaresUnlessListed p) ∧
    (∃ (fp' : VolumetricFogPass) (rg' : RenderGraph),
      VolumetricFogPass.AddPasses (fun a b => (a + b - 1) / b) sample_fog_pass sample_graph 7
        = Except.ok (fp', rg') ∧
      ∀ p ∈ own_passes (added_events sample_graph rg'), DeclaresUnlessListed p) :=
  ⟨rfl, rfl, setup_declares_unless_listed sample_helpers sample_postprocessor sample_lights
    sample_graph sample_settings sample_global_data rfl (fun a b => (a + b - 1) / b)
    sample_fog_pass sample_graph 7 sample_frame_data rfl⟩

/-- C4 as stated fails: in the concrete frame (a light with a lens flare, TAA on) `AddPasses`
registers passes whose setup callback makes no resource-introducing call, and so does the fog
pass. -/
theorem setup_without_declaration :
    (∃ (pp' : Postprocessor) (rg' : RenderGraph),
      Postprocessor.AddPasses sample_helpers sample_postprocessor sample_lights sample_graph
        sample_settings_taa = Except.ok (pp', rg') ∧
      ¬ ∀ p ∈ own_passes (added_events sample_graph rg'), introduces_resource p = true) ∧
    (∃ (fp' : VolumetricFogPass) (rg' : RenderGraph),
      VolumetricFogPass.AddPasses (fun a b => (a + b - 1) / b) sample_fog_pass sample_graph 7
        = Except.ok (fp', rg') ∧
      ¬ ∀ p ∈ own_passes (added_events sample_graph rg'), introduces_resource p = true) := by
  refine ⟨⟨_, _, Postprocessor.AddPasses_eq sample_helpers sample_postprocessor
    sample_global_data sample_lights sample_graph sample_settings_taa rfl, ?_⟩,
    ⟨_, _, VolumetricFogPass.fog_AddPasses_eq (fun a b => (a + b - 1) / b) sample_fog_pass
      sample_graph 7 sample_frame_data rfl, ?_⟩⟩
  · rw [Postprocessor.added_events_extend]
    intro h
    have := h (Postprocessor.AddHistoryCopyPass.pass
      (Postprocessor.during sample_postprocessor sample_settings_taa RGResourceName.TAAOutput)
      RGResourceName.TAAOutput) (by decide)
    revert this
    decide
  · rw [Postprocessor.added_events_extend]
    intro h
    have := h (VolumetricFogPass.AddCombineFogPass.pass
      { sample_fog_pass with fog_volume_buffer_idx := 7 }) (by decide)
    revert this
    decide

/-- C3. For every light whose type is not `Directional`, the execute callbacks of the LensFlare
pass and of the GodRays pass log the warning and return: they make no call on the command
list. -/
theorem execute_of_non_directional_light_records_nothing (pp : Postprocessor) (light : Light)
    (descriptor_index : Nat) (h : light.type ≠ ELightType.Directional) :
    Postprocessor.AddLensFlarePass.execute pp light descriptor_index
        = [ExecOp.Log "WARNING" "Using Lens Flare on a Non-Directional Light Source"] ∧
    recorded_commands (Postprocessor.AddLensFlarePass.execute pp light descriptor_index) = [] ∧
    Postprocessor.AddGodRaysPass.execute light descriptor_index
        = [ExecOp.Log "WARNING" "Using God Rays on a Non-Directional Light Source"] ∧
    recorded_commands (Postprocessor.AddGodRaysPass.execute light descriptor_index) = [] := by
  simp [Postprocessor.AddLensFlarePass.execute, Postprocessor.AddGodRaysPass.execute, h,
    recorded_commands]

/-- Witness of C3 for a point light. -/
theorem execute_of_non_directional_light_records_nothing_witness :
    ({ type := ELightType.NonDirectional 1 } : Light).type ≠ ELightType.Directional ∧
    Postprocessor.AddLensFlarePass.execute sample_postprocessor
        { type := ELightType.NonDirectional 1 } 0
        = [ExecOp.Log "WARNING" "Using Lens Flare on a Non-Directional Light Source"] ∧
    recorded_commands (Postprocessor.AddLensFlarePass.execute sample_postprocessor
        { type := ELightType.NonDirectional 1 } 0) = [] ∧
    Postprocessor.AddGodRaysPass.execute { type := ELightType.NonDirectional 1 } 0
        = [ExecOp.Log "WARNING" "Using God Rays on a Non-Directional Light Source"] ∧
    recorded_commands (Postprocessor.AddGodRaysPass.execute
        { type := ELightType.NonDirectional 1 } 0) = [] :=
  ⟨by decide, execute_of_non_directional_light_records_nothing sample_postprocessor
    { type := ELightType.NonDirectional 1 } 0 (by decide)⟩

/-- The execute callbacks with a constant descriptor count, the Fog Pass apart, copy a view into
every slot they allocate and into no other slot. -/
theorem execute_writes_allocated_slots (pp : Postprocessor) (gd : GlobalBlackboardData)
    (DivideAndRoundUp : Nat → Nat → Nat) (fp : VolumetricFogPass) (fd : FrameBlackboardData)
    (sun blue_noise_idx i : Nat) :
    written_slots (Postprocessor.AddVelocityBufferPass.execute gd i)
      = allocated_slots (Postprocessor.AddVelocityBufferPass.execute gd i) ∧
    written_slots (Postprocessor.AddVolumetricCloudsPass.execute pp gd i)
      = allocated_slots (Postprocessor.AddVolumetricCloudsPass.execute pp gd i) ∧
    written_slots (Postprocessor.AddSSRPass.execute gd i)
      = allocated_slots (Postprocessor.AddSSRPass.execute gd i) ∧
    written_slots (Postprocessor.AddBloomPass.extract_execute pp gd i)
      = allocated_slots (Postprocessor.AddBloomPass.extract_execute pp gd i) ∧
    written_slots (Postprocessor.AddBloomPass.combine_execute pp i)
      = allocated_slots (Postprocessor.AddBloomPass.combine_execute pp i) ∧
    written_slots (Postprocessor.AddSunPass.execute gd sun i)
      = allocated_slots (Postprocessor.AddSunPass.execute gd sun i) ∧
    written_slots (Postprocessor.AddGodRaysPass.execute { type := ELightType.Directional } i)
      = allocated_slots
          (Postprocessor.AddGodRaysPass.execute { type := ELightType.Directional } i) ∧
    written_slots (Postprocessor.AddDepthOfFieldPass.execute gd i)
      = allocated_slots (Postprocessor.AddDepthOfFieldPass.execute gd i) ∧
    written_slots (Postprocessor.AddMotionBlurPass.execute gd i)
      = allocated_slots (Postprocessor.AddMotionBlurPass.execute gd i) ∧
    written_slots (Postprocessor.AddTAAPass.execute i)
      = allocated_slots (Postprocessor.AddTAAPass.execute i) ∧
    written_slots (VolumetricFogPass.AddLightInjectionPass.execute DivideAndRoundUp fp fd
        blue_noise_idx i)
      = allocated_slots (VolumetricFogPass.AddLightInjectionPass.execute DivideAndRoundUp fp fd
          blue_noise_idx i) ∧
    written_slots (VolumetricFogPass.AddScatteringIntegrationPass.execute DivideAndRoundUp fp fd
        i)
      = allocated_slots (VolumetricFogPass.AddScatteringIntegrationPass.execute DivideAndRoundUp
          fp fd i) ∧
    written_slots (VolumetricFogPass.AddCombineFogPass.execute i)
      = allocated_slots (VolumetricFogPass.AddCombineFogPass.execute i) := by
  simp [written_slots, allocated_slots, range_slots, List.range',
    Postprocessor.AddVelocityBufferPass.execute, Postprocessor.AddVolumetricCloudsPass.execute,
    Postprocessor.AddSSRPass.execute, Postprocessor.AddBloomPass.extract_execute,
    Postprocessor.AddBloomPass.combine_execute, Postprocessor.AddSunPass.execute,
    Postprocessor.AddGodRaysPass.execute, Postprocessor.AddDepthOfFieldPass.execute,
    Postprocessor.AddMotionBlurPass.execute, Postprocessor.AddTAAPass.execute,
    VolumetricFogPass.AddLightInjectionPass.execute,
    VolumetricFogPass.AddScatteringIntegrationPass.execute,
    VolumetricFogPass.AddCombineFogPass.execute]

/-- C5 fails for the Fog Pass: its execute callback allocates the three slots
`descriptor_index .. descriptor_index + 2` and copies views into the first two only; the slot
`descriptor_index + 2` is allocated and never written. -/
theorem Fog_execute_leaves_an_allocated_slot_unwritten (gd : GlobalBlackboardData) (i : Nat) :
    allocated_slots (Postprocessor.AddFogPass.execute gd i) = [i, i + 1, i + 2] ∧
    written_slots (Postprocessor.AddFogPass.execute gd i) = [i, i + 1] ∧
    i + 2 ∈ allocated_slots (Postprocessor.AddFogPass.execute gd i) ∧
    i + 2 ∉ written_slots (Postprocessor.AddFogPass.execute gd i) := by
  simp [written_slots, allocated_slots, range_slots, List.range',
    Postprocessor.AddFogPass.execute]

theorem lens_flare_textures_after (LoadTexture : String → Nat) (texture_address : Nat)
    (count : Nat) (pp : Postprocessor) :
    (Postprocessor.OnSceneInitialized_times LoadTexture texture_address count
      pp).lens_flare_textures.length = pp.lens_flare_textures.length + 7 * count := by
  induction count generalizing pp with
  | zero => simp [Postprocessor.OnSceneInitialized_times]
  | succ k ih =>
    rw [Postprocessor.OnSceneInitialized_times, ih]
    simp [Postprocessor.OnSceneInitialized]
    omega

/-- The LensFlare callback gathers seven descriptors for every call of `OnSceneInitialized`
and the depth view. -/
theorem lens_flare_descriptors_length (LoadTexture : String → Nat) (texture_address : Nat)
    (count width height : Nat) :
    (Postprocessor.AddLensFlarePass.lens_flare_descriptors
      (Postprocessor.OnSceneInitialized_times LoadTexture texture_address count
        (Postprocessor.construct width height))).length = 7 * count + 1 := by
  simp [Postprocessor.AddLensFlarePass.lens_flare_descriptors, lens_flare_textures_after,
    Postprocessor.construct]

/-- C6 fails after two calls of `OnSceneInitialized`: the LensFlare execute callback (for a
directional light) gathers 15 source descriptors, not 8; it allocates 8 slots and passes 8
source ranges, and the first 8 entries of the gathered array are texture handles, so the
depth view is not among the descriptors copied. -/
theorem LensFlare_execute_after_two_initializations (LoadTexture : String → Nat)
    (texture_address width height i : Nat) :
    (Postprocessor.AddLensFlarePass.lens_flare_descriptors
      (Postprocessor.OnSceneInitialized_times LoadTexture texture_address 2
        (Postprocessor.construct width height))).length = 15 ∧
    DescriptorSource.ReadOnlyTexture "depth" ∉
      (Postprocessor.AddLensFlarePass.lens_flare_descriptors
        (Postprocessor.OnSceneInitialized_times LoadTexture texture_address 2
          (Postprocessor.construct width height))).take 8 ∧
    allocated_slots (Postprocessor.AddLensFlarePass.execute
      (Postprocessor.OnSceneInitialized_times LoadTexture texture_address 2
        (Postprocessor.construct width height)) { type := ELightType.Directional } i)
      = List.range' i 8 ∧
    Postprocessor.AddLensFlarePass.execute
      (Postprocessor.OnSceneInitialized_times LoadTexture texture_address 2
        (Postprocessor.construct width height)) { type := ELightType.Directional } i
      = [ ExecOp.Command (CommandListCall.SetGraphicsRootSignature "LensFlare"),
          ExecOp.Command (CommandListCall.SetPipelineState "LensFlare"),
          ExecOp.DynamicAllocate "light_allocation",
          ExecOp.Command (CommandListCall.SetGraphicsRootConstantBufferView 0
            (GpuAddress.DynamicAllocation "light_allocation")),
          ExecOp.AllocateRange 8 i,
          ExecOp.CopyDescriptors [i] [8] 8
            (Postprocessor.AddLensFlarePass.lens_flare_descriptors
              (Postprocessor.OnSceneInitialized_times LoadTexture texture_address 2
                (Postprocessor.construct width height)))
            [1, 1, 1, 1, 1, 1, 1, 1],
          ExecOp.Command (CommandListCall.SetGraphicsRootDescriptorTable 1 i),
          ExecOp.Command (CommandListCall.IASetPrimitiveTopology "POINTLIST"),
          ExecOp.Command (CommandListCall.DrawInstanced 7 1 0 0) ] := by
  refine ⟨by rw [lens_flare_descriptors_length], ?_, ?_, ?_⟩
  · simp [Postprocessor.AddLensFlarePass.lens_flare_descriptors,
      Postprocessor.OnSceneInitialized_times, Postprocessor.OnSceneInitialized,
      Postprocessor.construct]
  · simp [Postprocessor.AddLensFlarePass.execute, allocated_slots]
  · simp [Postprocessor.AddLensFlarePass.execute]

theorem VolumetricFogPass.graph_ops_registered (DivideAndRoundUp : Nat → Nat → Nat)
    (fp : VolumetricFogPass) (fd : FrameBlackboardData) (index : Nat) :
    graph_ops (VolumetricFogPass.registered DivideAndRoundUp fp fd index)
      = [ RGOp.ImportTexture RGResourceName.FogLightInjectionTargetHistory
            fp.light_injection_target_history,
          RGOp.AddPass (VolumetricFogPass.AddLightInjectionPass.pass DivideAndRoundUp
            { fp with fog_volume_buffer_idx := index } fd),
          RGOp.ExportTexture RGResourceName.FogLightInjectionTarget
            fp.light_injection_target_history,
          RGOp.AddPass (VolumetricFogPass.AddScatteringIntegrationPass.pass DivideAndRoundUp
            { fp with fog_volume_buffer_idx := index } fd),
          RGOp.AddPass (VolumetricFogPass.AddCombineFogPass.pass
            { fp with fog_volume_buffer_idx := index }) ] := by
  simp [graph_ops, VolumetricFogPass.registered, RGEvent.ops]

/-- C8, as the code has it.  In one call of `VolumetricFogPass::AddPasses` the `ImportTexture`
call for the history texture is the first graph call and precedes every pass registration; the
`ExportTexture` call into that texture follows the registration of the Light Injection pass
and precedes the registrations of the Scattering Integration and Combine passes. -/
theorem VolumetricFogPass.import_first_export_after_light_injection
    (DivideAndRoundUp : Nat → Nat → Nat) (fp : VolumetricFogPass) (rg : RenderGraph)
    (fog_volume_buffer_srv_gpu : Nat) (fd : FrameBlackboardData)
    (hfd : rg.blackboard.frame_data = some fd) :
    ∃ (fp' : VolumetricFogPass) (rg' : RenderGraph),
      VolumetricFogPass.AddPasses DivideAndRoundUp fp rg fog_volume_buffer_srv_gpu
        = Except.ok (fp', rg') ∧
      (graph_ops (added_events rg rg'))[0]?
        = some (RGOp.ImportTexture RGResourceName.FogLightInjectionTargetHistory
            fp.light_injection_target_history) ∧
      (graph_ops (added_events rg rg'))[2]?
        = some (RGOp.ExportTexture RGResourceName.FogLightInjectionTarget
            fp.light_injection_target_history) ∧
      (∀ (j : Nat) (pass : RGPass),
        (graph_ops (added_events rg rg'))[j]? = some (RGOp.AddPass pass) →
        0 < j ∧ (j < 2 ↔ pass.name = "Volumetric Fog Light Injection Pass") ∧
        (2 < j ↔ pass.name = "Volumetric Fog Scattering Integration Pass"
          ∨ pass.name = "Volumetric Fog Combine Pass")) ∧
      (∃ (j : Nat) (pass : RGPass), 2 < j ∧
        (graph_ops (added_events rg rg'))[j]? = some (RGOp.AddPass pass)) := by
  refine ⟨_, _, VolumetricFogPass.fog_AddPasses_eq DivideAndRoundUp fp rg
    fog_volume_buffer_srv_gpu fd hfd, ?_⟩
  rw [Postprocessor.added_events_extend, VolumetricFogPass.graph_ops_registered]
  refine ⟨rfl, rfl, ?_, ⟨3, _, by decide, rfl⟩⟩
  intro j pass hj
  rcases j with _ | _ | _ | _ | _ | j
  · simp at hj
  · simp only [List.getElem?_cons_succ, List.getElem?_cons_zero, Option.some.injEq,
      RGOp.AddPass.injEq] at hj
    subst hj
    simp [VolumetricFogPass.AddLightInjectionPass.pass]
  · simp at hj
  · simp only [List.getElem?_cons_succ, List.getElem?_cons_zero, Option.some.injEq,
      RGOp.AddPass.injEq] at hj
    subst hj
    simp [VolumetricFogPass.AddScatteringIntegrationPass.pass]
  · simp only [List.getElem?_cons_succ, List.getElem?_cons_zero, Option.some.injEq,
      RGOp.AddPass.injEq] at hj
    subst hj
    simp [VolumetricFogPass.AddCombineFogPass.pass]
  · simp at hj

/-- Witness of the amended C8 on the concrete frame. -/
theorem VolumetricFogPass.import_first_export_after_light_injection_witness :
    sample_graph.blackboard.frame_data = some sample_frame_data ∧
    ∃ (fp' : VolumetricFogPass) (rg' : RenderGraph),
      VolumetricFogPass.AddPasses (fun a b => (a + b - 1) / b) sample_fog_pass sample_graph 7
        = Except.ok (fp', rg') ∧
      (graph_ops (added_events sample_graph rg'))[0]?
        = some (RGOp.ImportTexture RGResourceName.FogLightInjectionTargetHistory
            sample_fog_pass.light_injection_target_history) ∧
      (graph_ops (added_events sample_graph rg'))[2]?
        = some (RGOp.ExportTexture RGResourceName.FogLightInjectionTarget
            sample_fog_pass.light_injection_target_history) ∧
      (∀ (j : Nat) (pass : RGPass),
        (graph_ops (added_events sample_graph rg'))[j]? = some (RGOp.AddPass pass) →
        0 < j ∧ (j < 2 ↔ pass.name = "Volumetric Fog Light Injection Pass") ∧
        (2 < j ↔ pass.name = "Volumetric Fog Scattering Integration Pass"
          ∨ pass.name = "Volumetric Fog Combine Pass")) ∧
      (∃ (j : Nat) (pass : RGPass), 2 < j ∧
        (graph_ops (added_events sample_graph rg'))[j]? = some (RGOp.AddPass pass)) :=
  ⟨rfl, VolumetricFogPass.import_first_export_after_light_injection
    (fun a b => (a + b - 1) / b) sample_fog_pass sample_graph 7 sample_frame_data rfl⟩

/-- C8 as stated fails: in the concrete frame the `ExportTexture` call of
`VolumetricFogPass::AddPasses` does not follow every pass registration of that call; the
Scattering Integration pass is registered after it. -/
theorem VolumetricFogPass.export_precedes_a_registration :
    ∃ (fp' : VolumetricFogPass) (rg' : RenderGraph),
      VolumetricFogPass.AddPasses (fun a b => (a + b - 1) / b) sample_fog_pass sample_graph 7
        = Except.ok (fp', rg') ∧
      ¬ ∀ (i j : Nat) (pass : RGPass),
        (graph_ops (added_events sample_graph rg'))[i]?
          = some (RGOp.ExportTexture RGResourceName.FogLightInjectionTarget
              sample_fog_pass.light_injection_target_history) →
        (graph_ops (added_events sample_graph rg'))[j]? = some (RGOp.AddPass pass) →
        j < i := by
  refine ⟨_, _, VolumetricFogPass.fog_AddPasses_eq (fun a b => (a + b - 1) / b) sample_fog_pass
    sample_graph 7 sample_frame_data rfl, ?_⟩
  rw [Postprocessor.added_events_extend, VolumetricFogPass.graph_ops_registered]
  intro h
  have := h 2 3 _ rfl rfl
  omega

theorem VolumetricFogPass.compile_registered (DivideAndRoundUp : Nat → Nat → Nat)
    (fp : VolumetricFogPass) (fd : FrameBlackboardData) (index : Nat) :
    compile (frame_passes (graph_ops (VolumetricFogPass.registered DivideAndRoundUp fp fd
      index))) = some [0, 1] := by
  have h : (frame_passes (graph_ops (VolumetricFogPass.registered DivideAndRoundUp fp fd
      index))).map RGPass.node
      = [ ⟨[RGResourceName.FogLightInjectionTargetHistory],
            [RGResourceName.FogLightInjectionTarget], ERGPassFlags.None⟩,
          ⟨[RGResourceName.FogLightInjectionTarget], [RGResourceName.FogFinal],
            ERGPassFlags.ForceNoCull⟩,
          ⟨[RGResourceName.DepthStencil, RGResourceName.FogFinal],
            [RGResourceName.HDR_RenderTarget], ERGPassFlags.None⟩ ] := by
    simp [graph_ops, VolumetricFogPass.registered, RGEvent.ops, frame_passes, RGPass.node,
      RGPass.reads, RGPass.writes, VolumetricFogPass.AddLightInjectionPass.pass,
      VolumetricFogPass.AddLightInjectionPass.setup,
      VolumetricFogPass.AddScatteringIntegrationPass.pass,
      VolumetricFogPass.AddScatteringIntegrationPass.setup,
      VolumetricFogPass.AddCombineFogPass.pass, VolumetricFogPass.AddCombineFogPass.setup]
  rw [compile, h]
  decide

/-- One frame of the fog pass alone: the history texture ends up holding what the Light
Injection pass wrote into `FogLightInjectionTarget`, and that pass read what the history
texture held when the frame began. -/
theorem VolumetricFogPass.execute_frame_registered (DivideAndRoundUp : Nat → Nat → Nat)
    (fp : VolumetricFogPass) (fd : FrameBlackboardData) (index : Nat) (texture : Texture)
    (ht : fp.light_injection_target_history = some texture) (frame : Nat)
    (slots : Nat → Content) :
    (execute_frame frame (graph_ops (VolumetricFogPass.registered DivideAndRoundUp fp fd index))
        slots).slots texture.address
      = Content.Written frame "Volumetric Fog Light Injection Pass"
          RGResourceName.FogLightInjectionTarget ∧
    ("Volumetric Fog Light Injection Pass", RGResourceName.FogLightInjectionTargetHistory,
        some (slots texture.address))
      ∈ (execute_frame frame
          (graph_ops (VolumetricFogPass.registered DivideAndRoundUp fp fd index)) slots).reads := by
  unfold execute_frame
  rw [VolumetricFogPass.compile_registered]
  simp [graph_ops, VolumetricFogPass.registered, RGEvent.ops, frame_passes, run_passes, run_pass,
    imported_address, FrameState.content, apply_exports, ht, RGPass.reads, RGPass.writes,
    VolumetricFogPass.AddLightInjectionPass.pass, VolumetricFogPass.AddLightInjectionPass.setup,
    VolumetricFogPass.AddScatteringIntegrationPass.pass,
    VolumetricFogPass.AddScatteringIntegrationPass.setup,
    VolumetricFogPass.AddCombineFogPass.pass, VolumetricFogPass.AddCombineFogPass.setup]

/-- C9. `VolumetricFogPass::AddLightInjectionPass` closes the history round trip: the object
imported as `FogLightInjectionTargetHistory` is the object named as export destination; the
exported name `FogLightInjectionTarget` is the name the Light Injection pass declares and
writes; that pass reads the imported history name.  Hence, with the import, execution and
export of the spec, the history the pass reads in frame `n + 1` is what it wrote into
`FogLightInjectionTarget` in frame `n`. -/
theorem VolumetricFogPass.history_round_trip (DivideAndRoundUp : Nat → Nat → Nat)
    (fp : VolumetricFogPass) (rg rg_next : RenderGraph) (index index_next : Nat)
    (fd fd_next : FrameBlackboardData) (texture : Texture) (n : Nat) (slots : Nat → Content)
    (hfd : rg.blackboard.frame_data = some fd)
    (hfd_next : rg_next.blackboard.frame_data = some fd_next)
    (ht : fp.light_injection_target_history = some texture) :
    ∃ (fp' fp'' : VolumetricFogPass) (rg' rg_next' : RenderGraph) (pass : RGPass),
      VolumetricFogPass.AddPasses DivideAndRoundUp fp rg index = Except.ok (fp', rg') ∧
      VolumetricFogPass.AddPasses DivideAndRoundUp fp' rg_next index_next
        = Except.ok (fp'', rg_next') ∧
      RGOp.ImportTexture RGResourceName.FogLightInjectionTargetHistory (some texture)
        ∈ graph_ops (added_events rg rg') ∧
      RGOp.ExportTexture RGResourceName.FogLightInjectionTarget (some texture)
        ∈ graph_ops (added_events rg rg') ∧
      RGOp.AddPass pass ∈ graph_ops (added_events rg rg') ∧
      pass.name = "Volumetric Fog Light Injection Pass" ∧
      declared_textures pass = [RGResourceName.FogLightInjectionTarget] ∧
      pass.writes = [RGResourceName.FogLightInjectionTarget] ∧
      pass.reads = [RGResourceName.FogLightInjectionTargetHistory] ∧
      (execute_frame n (graph_ops (added_events rg rg')) slots).slots texture.address
        = Content.Written n pass.name RGResourceName.FogLightInjectionTarget ∧
      (pass.name, RGResourceName.FogLightInjectionTargetHistory,
          some (Content.Written n pass.name RGResourceName.FogLightInjectionTarget))
        ∈ (execute_frame (n + 1) (graph_ops (added_events rg_next rg_next'))
            (execute_frame n (graph_ops (added_events rg rg')) slots).slots).reads := by
  refine ⟨_, _, _, _,
    VolumetricFogPass.AddLightInjectionPass.pass DivideAndRoundUp
      { fp with fog_volume_buffer_idx := index } fd,
    VolumetricFogPass.fog_AddPasses_eq DivideAndRoundUp fp rg index fd hfd,
    VolumetricFogPass.fog_AddPasses_eq DivideAndRoundUp _ rg_next index_next fd_next hfd_next, ?_⟩
  rw [Postprocessor.added_events_extend, Postprocessor.added_events_extend]
  have h1 := VolumetricFogPass.execute_frame_registered DivideAndRoundUp fp fd index texture ht
    n slots
  have h2 := VolumetricFogPass.execute_frame_registered DivideAndRoundUp
    { fp with fog_volume_buffer_idx := index } fd_next index_next texture ht (n + 1)
    (execute_frame n (graph_ops (VolumetricFogPass.registered DivideAndRoundUp fp fd index))
      slots).slots
  rw [h1.1] at h2
  refine ⟨?_, ?_, ?_, rfl, ?_, ?_, ?_, h1.1, h2.2⟩
  · simp [VolumetricFogPass.graph_ops_registered, ht]
  · simp [VolumetricFogPass.graph_ops_registered, ht]
  · simp [VolumetricFogPass.graph_ops_registered]
  · simp [declared_textures, VolumetricFogPass.AddLightInjectionPass.pass,
      VolumetricFogPass.AddLightInjectionPass.setup]
  · simp [RGPass.writes, VolumetricFogPass.AddLightInjectionPass.pass,
      VolumetricFogPass.AddLightInjectionPass.setup]
  · simp [RGPass.reads, VolumetricFogPass.AddLightInjectionPass.pass,
      VolumetricFogPass.AddLightInjectionPass.setup]

/-- Witness of C9 on the concrete frame, with frames 1 and 2. -/
theorem VolumetricFogPass.history_round_trip_witness :
    sample_graph.blackboard.frame_data = some sample_frame_data ∧
    sample_fog_pass.light_injection_target_history
      = some sample_history_texture ∧
    ∃ (fp' fp'' : VolumetricFogPass) (rg' rg_next' : RenderGraph) (pass : RGPass),
      VolumetricFogPass.AddPasses (fun a b => (a + b - 1) / b) sample_fog_pass sample_graph 7
        = Except.ok (fp', rg') ∧
      VolumetricFogPass.AddPasses (fun a b => (a + b - 1) / b) fp' sample_graph 9
        = Except.ok (fp'', rg_next') ∧
      RGOp.ImportTexture RGResourceName.FogLightInjectionTargetHistory
          (some sample_history_texture)
        ∈ graph_ops (added_events sample_graph rg') ∧
      RGOp.ExportTexture RGResourceName.FogLightInjectionTarget
          (some sample_history_texture)
        ∈ graph_ops (added_events sample_graph rg') ∧
      RGOp.AddPass pass ∈ graph_ops (added_events sample_graph rg') ∧
      pass.name = "Volumetric Fog Light Injection Pass" ∧
      declared_textures pass = [RGResourceName.FogLightInjectionTarget] ∧
      pass.writes = [RGResourceName.FogLightInjectionTarget] ∧
      pass.reads = [RGResourceName.FogLightInjectionTargetHistory] ∧
      (execute_frame 1 (graph_ops (added_events sample_graph rg'))
          (fun address => Content.Initial address)).slots 2
        = Content.Written 1 pass.name RGResourceName.FogLightInjectionTarget ∧
      (pass.name, RGResourceName.FogLightInjectionTargetHistory,
          some (Content.Written 1 pass.name RGResourceName.FogLightInjectionTarget))
        ∈ (execute_frame (1 + 1) (graph_ops (added_events sample_graph rg_next'))
            (execute_frame 1 (graph_ops (added_events sample_graph rg'))
              (fun address => Content.Initial address)).slots).reads :=
  ⟨rfl, rfl, VolumetricFogPass.history_round_trip (fun a b => (a + b - 1) / b) sample_fog_pass
    sample_graph sample_graph 7 9 sample_frame_data sample_frame_data
    sample_history_texture
    1 (fun address => Content.Initial address) rfl rfl rfl⟩

/-! ## Writes to imported names -/

/-- A pass that writes an imported name writes the persistent texture the name stands for. -/
theorem run_pass_writes_through (frame : Nat) (imported : RGResourceName → Option Nat)
    (pass : RGPass) (state : FrameState) (name : RGResourceName) (address : Nat)
    (hname : name ∈ pass.writes) (himported : imported name = some address) :
    ∃ written ∈ pass.writes, imported written = some address ∧
      (run_pass frame imported pass state).slots address
        = Content.Written frame pass.name written := by
  cases hfind : pass.writes.find? (fun written => imported written == some address) with
  | none =>
    rw [List.find?_eq_none] at hfind
    exact absurd (by simpa using himported) (hfind name hname)
  | some written =>
    refine ⟨written, List.mem_of_find?_eq_some hfind, ?_, ?_⟩
    · simpa using List.find?_some hfind
    · simp [run_pass, hfind]

/-- A pass leaves alone every persistent texture that none of the names it writes stands for. -/
theorem run_pass_slots_unwritten (frame : Nat) (imported : RGResourceName → Option Nat)
    (pass : RGPass) (state : FrameState) (address : Nat)
    (h : ∀ name ∈ pass.writes, imported name ≠ some address) :
    (run_pass frame imported pass state).slots address = state.slots address := by
  have hfind : pass.writes.find? (fun written => imported written == some address) = none := by
    rw [List.find?_eq_none]
    intro name hname
    simpa using h name hname
  simp [run_pass, hfind]

/-- When the History Copy Pass runs in a frame that imports `HistoryBuffer`, the persistent
history texture holds what the pass wrote. -/
theorem Postprocessor.History_Copy_Pass_writes_the_history_texture (frame : Nat)
    (imported : RGResourceName → Option Nat) (pp : Postprocessor) (last : RGResourceName)
    (state : FrameState) (address : Nat)
    (himported : imported RGResourceName.HistoryBuffer = some address) :
    (run_pass frame imported (Postprocessor.AddHistoryCopyPass.pass pp last) state).slots address
      = Content.Written frame "History Copy Pass" RGResourceName.HistoryBuffer := by
  simp [run_pass, RGPass.writes, Postprocessor.AddHistoryCopyPass.pass,
    Postprocessor.AddHistoryCopyPass.setup, himported]

/-! ## Culling, in general -/

theorem last_writer_spec {nodes : List PassNode} {reader writer : Nat} {name : RGResourceName}
    (h : last_writer nodes reader name = some writer) :
    writer < reader ∧ ∃ node, nodes[writer]? = some node ∧ name ∈ node.writes := by
  unfold last_writer at h
  have hmem := List.mem_of_getLast?_eq_some h
  rw [List.mem_filter] at hmem
  refine ⟨List.mem_range.1 hmem.1, ?_⟩
  have h2 := hmem.2
  cases hn : nodes[writer]? with
  | none => simp [hn] at h2
  | some node =>
    refine ⟨node, rfl, ?_⟩
    simpa [hn] using h2

theorem depends_on_spec {nodes : List PassNode} {reader writer : Nat}
    (h : depends_on nodes reader writer = true) :
    ∃ node_r node_w name, nodes[reader]? = some node_r ∧ nodes[writer]? = some node_w ∧
      writer < reader ∧ name ∈ node_r.reads ∧ name ∈ node_w.writes := by
  unfold depends_on at h
  cases hn : nodes[reader]? with
  | none => simp [hn] at h
  | some node_r =>
    simp only [hn, List.any_eq_true, beq_iff_eq] at h
    obtain ⟨name, hname, hlast⟩ := h
    obtain ⟨hlt, node_w, hw, hmem⟩ := last_writer_spec hlast
    exact ⟨node_r, node_w, name, rfl, hw, hlt, hname, hmem⟩

theorem not_mem_keep_step {nodes : List PassNode} {kept : List Nat} {i : Nat}
    (hkept : i ∉ kept) (hdep : ∀ reader, depends_on nodes reader i = false) :
    i ∉ keep_step nodes kept := by
  unfold keep_step
  simp [List.mem_filter, hkept, hdep]

theorem not_mem_iterate_keep_step {nodes : List PassNode} {i : Nat}
    (hdep : ∀ reader, depends_on nodes reader i = false) (count : Nat) (kept : List Nat)
    (hkept : i ∉ kept) : i ∉ Nat.iterate (keep_step nodes) count kept := by
  induction count generalizing kept with
  | zero => simpa using hkept
  | succ k ih =>
    rw [Function.iterate_succ_apply]
    exact ih _ (not_mem_keep_step hkept hdep)

theorem not_mem_surviving_passes {nodes : List PassNode} {i : Nat} {node : PassNode}
    (hnode : nodes[i]? = some node) (hflags : node.flags = ERGPassFlags.None)
    (hdep : ∀ reader, depends_on nodes reader i = false) : i ∉ surviving_passes nodes := by
  unfold surviving_passes
  refine not_mem_iterate_keep_step hdep _ _ ?_
  simp [List.mem_filter, hnode, hflags]

theorem mem_topological_order {nodes : List PassNode} (fuel : Nat) (remaining ordered : List Nat)
    (result : List Nat) (h : topological_order nodes fuel remaining ordered = some result)
    (x : Nat) (hx : x ∈ result) : x ∈ ordered ∨ x ∈ remaining := by
  induction fuel generalizing remaining ordered with
  | zero =>
    cases remaining with
    | nil =>
      simp only [topological_order, Option.some.injEq] at h
      exact Or.inl (h ▸ hx)
    | cons i rest => simp [topological_order] at h
  | succ k ih =>
    cases remaining with
    | nil =>
      simp only [topological_order, Option.some.injEq] at h
      exact Or.inl (h ▸ hx)
    | cons i rest =>
      simp only [topological_order] at h
      split at h
      · rename_i next hfind
        rcases ih _ _ h with hm | hm
        · rcases List.mem_append.1 hm with hm | hm
          · exact Or.inl hm
          · right
            simp only [List.mem_singleton] at hm
            subst hm
            exact List.mem_of_find?_eq_some hfind
        · exact Or.inr (List.mem_of_mem_erase hm)
      · exact absurd h (by simp)

/-- A pass without the force-no-cull flag, none of whose written names is read by a pass
registered after it, is in no compiled list. -/
theorem culled_of_no_later_reader (passes : List RGPass) (i : Nat) (pass : RGPass)
    (hpass : passes[i]? = some pass) (hflags : pass.flags = ERGPassFlags.None)
    (hlater : ∀ (j : Nat) (later : RGPass), i < j → passes[j]? = some later →
      ∀ name ∈ pass.writes, name ∉ later.reads)
    (order : List Nat) (horder : compile passes = some order) : i ∉ order := by
  intro hi
  have hsurv := mem_topological_order _ _ _ _ horder i hi
  simp only [List.not_mem_nil, false_or] at hsurv
  refine @not_mem_surviving_passes _ i pass.node ?_ hflags ?_ hsurv
  · simp [hpass]
  · intro reader
    by_contra hdep
    simp only [Bool.not_eq_false] at hdep
    obtain ⟨node_r, node_w, name, hr, hw, hlt, hread, hwrite⟩ := depends_on_spec hdep
    simp only [List.getElem?_map, hpass, Option.map_some', Option.some.injEq] at hw
    subst hw
    cases hp : passes[reader]? with
    | none => simp [hp] at hr
    | some later =>
      simp only [List.getElem?_map, hp, Option.map_some', Option.some.injEq] at hr
      subst hr
      exact hlater reader later hlt hp name hwrite hread


theorem frame_passes_append (a b : List RGOp) :
    frame_passes (a ++ b) = frame_passes a ++ frame_passes b := by
  induction a with
  | nil => rfl
  | cons op rest ih => cases op <;> simp [frame_passes, ih]

theorem mem_frame_passes {ops : List RGOp} {pass : RGPass} (h : pass ∈ frame_passes ops) :
    RGOp.AddPass pass ∈ ops := by
  induction ops with
  | nil => simp [frame_passes] at h
  | cons op rest ih =>
    cases op with
    | AddPass p =>
      simp only [frame_passes, List.mem_cons] at h
      rcases h with rfl | h
      · exact List.mem_cons_self _ _
      · exact List.mem_cons_of_mem _ (ih h)
    | ImportTexture name texture => exact List.mem_cons_of_mem _ (ih (by simpa [frame_passes] using h))
    | ExportTexture name texture => exact List.mem_cons_of_mem _ (ih (by simpa [frame_passes] using h))

theorem graph_ops_append (a b : List RGEvent) : graph_ops (a ++ b) = graph_ops a ++ graph_ops b := by
  simp [graph_ops]

theorem Postprocessor.frame_passes_taa_events (pp : Postprocessor) (gd : GlobalBlackboardData)
    (s : PostprocessSettings)
    (htaa : HasAnyFlag s.anti_aliasing AntiAliasing.AntiAliasing_TAA = true) :
    frame_passes (graph_ops (Postprocessor.taa_events pp gd s))
      = [ Postprocessor.AddTAAPass.pass
            (Postprocessor.during pp s (Postprocessor.resource_after_bloom s)) gd
            (Postprocessor.resource_after_bloom s),
          Postprocessor.AddHistoryCopyPass.pass
            (Postprocessor.during pp s RGResourceName.TAAOutput) RGResourceName.TAAOutput ] := by
  simp [Postprocessor.taa_events, htaa, graph_ops, RGEvent.ops, frame_passes]

/-- In the modelled compiler, which culls along the dependency edges of section 4.2 (1), the
History Copy Pass is compiled in no frame: whatever the settings (with TAA on), the lights, the
passes registered before `AddPasses` and the graph calls made after it, as long as no later
pass reads `HistoryBuffer`.  The TAA Pass, registered before it, reads `HistoryBuffer` as
imported, not as the History Copy Pass writes it, and so is no reader along an edge; a compiler
that keeps every pass one of whose written names a surviving pass reads keeps the History Copy
Pass.  Both follow the words of section 4.2 (3), and the compiler is outside the sources. -/
theorem Postprocessor.History_Copy_Pass_culled_in_every_frame (helpers : HelperPasses)
    (pp : Postprocessor) (lights : List (Nat × Light)) (rg : RenderGraph)
    (s : PostprocessSettings) (gd : GlobalBlackboardData)
    (hbb : rg.blackboard.global_data = some gd)
    (htaa : HasAnyFlag s.anti_aliasing AntiAliasing.AntiAliasing_TAA = true)
    (later : List RGOp)
    (hlater : ∀ pass, RGOp.AddPass pass ∈ later → RGResourceName.HistoryBuffer ∉ pass.reads) :
    ∃ (pp' : Postprocessor) (rg' : RenderGraph) (i : Nat),
      Postprocessor.AddPasses helpers pp lights rg s = Except.ok (pp', rg') ∧
      i + 1 = (frame_passes (graph_ops rg'.events)).length ∧
      (frame_passes (graph_ops rg'.events ++ later))[i]?
        = some (Postprocessor.AddHistoryCopyPass.pass
            (Postprocessor.during pp s RGResourceName.TAAOutput) RGResourceName.TAAOutput) ∧
      ∀ order, compile (frame_passes (graph_ops rg'.events ++ later)) = some order →
        i ∉ order := by
  refine ⟨_, _, (frame_passes (graph_ops (rg.events
      ++ Postprocessor.registered_sun helpers pp gd lights s))).length + 1,
    Postprocessor.AddPasses_eq helpers pp gd lights rg s hbb, ?_⟩
  have hev : (rg.extend (Postprocessor.registered helpers pp gd lights s)).events
      = (rg.events ++ Postprocessor.registered_sun helpers pp gd lights s)
        ++ Postprocessor.taa_events pp gd s := by
    simp [RenderGraph.extend, Postprocessor.registered]
  rw [hev]
  have hP : frame_passes (graph_ops ((rg.events
      ++ Postprocessor.registered_sun helpers pp gd lights s)
        ++ Postprocessor.taa_events pp gd s))
      = frame_passes (graph_ops (rg.events
          ++ Postprocessor.registered_sun helpers pp gd lights s))
        ++ [ Postprocessor.AddTAAPass.pass
              (Postprocessor.during pp s (Postprocessor.resource_after_bloom s)) gd
              (Postprocessor.resource_after_bloom s),
            Postprocessor.AddHistoryCopyPass.pass
              (Postprocessor.during pp s RGResourceName.TAAOutput)
              RGResourceName.TAAOutput ] := by
    rw [graph_ops_append, frame_passes_append, Postprocessor.frame_passes_taa_events pp gd s htaa]
  have hget : (frame_passes (graph_ops ((rg.events
      ++ Postprocessor.registered_sun helpers pp gd lights s)
        ++ Postprocessor.taa_events pp gd s) ++ later))[(frame_passes (graph_ops (rg.events
      ++ Postprocessor.registered_sun helpers pp gd lights s))).length + 1]?
      = some (Postprocessor.AddHistoryCopyPass.pass
          (Postprocessor.during pp s RGResourceName.TAAOutput) RGResourceName.TAAOutput) := by
    rw [frame_passes_append, hP, List.append_assoc,
      List.getElem?_append_right (Nat.le_add_right _ _)]
    simp
  refine ⟨?_, hget, ?_⟩
  · rw [hP]
    simp
  · intro order horder
    refine culled_of_no_later_reader _ _ _ hget rfl ?_ order horder
    intro j later_pass hj hjp name hname
    have hname' : name = RGResourceName.HistoryBuffer := by
      simpa [RGPass.writes, Postprocessor.AddHistoryCopyPass.pass,
        Postprocessor.AddHistoryCopyPass.setup] using hname
    subst hname'
    refine hlater later_pass (mem_frame_passes ?_)
    rw [frame_passes_append, hP, List.append_assoc,
      List.getElem?_append_right (by omega)] at hjp
    have hj2 : 2 ≤ j - (frame_passes (graph_ops (rg.events
        ++ Postprocessor.registered_sun helpers pp gd lights s))).length := by omega
    rw [List.getElem?_append_right (by simpa using hj2)] at hjp
    exact List.getElem?_mem hjp

/-! ## The compiler, in general -/

namespace Postprocessor

theorem own_passes_lens_flare_mem (pp : Postprocessor) (gd : GlobalBlackboardData)
    (lights : List (Nat × Light)) :
    ∀ p ∈ own_passes (lens_flare_events pp gd lights),
      ∃ e light, (e, light) ∈ lights ∧ light.active = true ∧ light.lens_flare = true ∧
        p = AddLensFlarePass.pass pp gd light := by
  induction lights with
  | nil => simp [lens_flare_events, own_passes]
  | cons l rest ih =>
    obtain ⟨e, light_data⟩ := l
    simp only [lens_flare_events]
    split_ifs with hc
    · intro p hp
      obtain ⟨e', light, hmem, h⟩ := ih p hp
      exact ⟨e', light, List.mem_cons_of_mem _ hmem, h⟩
    · intro p hp
      simp only [own_passes, List.mem_cons] at hp
      rcases hp with rfl | hp
      · refine ⟨e, light_data, List.mem_cons_self _ _, ?_, ?_, rfl⟩
        · cases h : light_data.active <;> simp [h] at hc ⊢
        · cases h : light_data.lens_flare <;> simp [h] at hc ⊢
      · obtain ⟨e', light, hmem, h⟩ := ih p hp
        exact ⟨e', light, List.mem_cons_of_mem _ hmem, h⟩

theorem mem_own_passes_lens_flare (pp : Postprocessor) (gd : GlobalBlackboardData)
    (lights : List (Nat × Light)) (e : Nat) (light : Light) (hmem : (e, light) ∈ lights)
    (hactive : light.active = true) (hflare : light.lens_flare = true) :
    AddLensFlarePass.pass pp gd light ∈ own_passes (lens_flare_events pp gd lights) := by
  induction lights with
  | nil => simp at hmem
  | cons l rest ih =>
    obtain ⟨e', light_data⟩ := l
    simp only [lens_flare_events]
    rcases List.mem_cons.1 hmem with heq | hmem
    · cases heq
      simp [hactive, hflare, own_passes]
    · split_ifs
      · exact ih hmem
      · simp only [own_passes, List.mem_cons]
        exact Or.inr (ih hmem)

theorem own_passes_sun_mem (helpers : HelperPasses) (pp : Postprocessor)
    (gd : GlobalBlackboardData) (lights : List (Nat × Light)) :
    ∀ p ∈ own_passes (sun_events helpers pp gd lights),
      ∃ e light, (e, light) ∈ lights ∧ light.active = true ∧
        light.type = ELightType.Directional ∧
        (p = AddSunPass.pass pp gd e ∨
          (light.god_rays = true ∧ p = AddGodRaysPass.pass pp gd light)) := by
  induction lights with
  | nil => simp [sun_events, own_passes]
  | cons l rest ih =>
    obtain ⟨e, light⟩ := l
    simp only [sun_events]
    split_ifs with h1 h2 h3
    · intro p hp
      obtain ⟨e', light', hmem, h⟩ := ih p hp
      exact ⟨e', light', List.mem_cons_of_mem _ hmem, h⟩
    · intro p hp
      have hact : light.active = true := by cases h : light.active <;> simp [h] at h1 ⊢
      simp only [own_passes, own_passes_helper, List.mem_cons, List.mem_singleton,
        List.not_mem_nil, or_false] at hp
      rcases hp with rfl | rfl
      · exact ⟨e, light, List.mem_cons_self _ _, hact, h2, Or.inl rfl⟩
      · exact ⟨e, light, List.mem_cons_self _ _, hact, h2, Or.inr ⟨h3, rfl⟩⟩
    · intro p hp
      have hact : light.active = true := by cases h : light.active <;> simp [h] at h1 ⊢
      simp only [own_passes, own_passes_helper, List.mem_cons, List.mem_singleton,
        List.not_mem_nil, or_false] at hp
      subst hp
      exact ⟨e, light, List.mem_cons_self _ _, hact, h2, Or.inl rfl⟩
    · intro p hp
      obtain ⟨e', light', hmem, h⟩ := ih p hp
      exact ⟨e', light', List.mem_cons_of_mem _ hmem, h⟩

/-- Every pass `AddPasses` registers itself is one of fourteen, each under the condition of its
stage. -/
theorem own_passes_registered_cases (helpers : HelperPasses) (pp : Postprocessor)
    (gd : GlobalBlackboardData) (lights : List (Nat × Light)) (s : PostprocessSettings)
    (P : RGPass → Prop)
    (hvelocity : P (AddVelocityBufferPass.pass { pp with settings := s } gd))
    (hcopy : P (AddCopyHDRPass.pass { pp with settings := s }))
    (hflare : ∀ e light, (e, light) ∈ lights → light.active = true → light.lens_flare = true →
      P (AddLensFlarePass.pass (during pp s RGResourceName.PostprocessMain) gd light))
    (hclouds : s.clouds = true →
      P (AddVolumetricCloudsPass.pass (during pp s RGResourceName.PostprocessMain) gd))
    (hssr : s.reflections = EReflections.SSR →
      P (AddSSRPass.pass (during pp s RGResourceName.PostprocessMain) gd
        RGResourceName.PostprocessMain))
    (hfog : s.fog = true →
      P (AddFogPass.pass (during pp s (resource_after_ssr s)) gd (resource_after_ssr s)))
    (hdof : s.dof = true →
      P (AddDepthOfFieldPass.pass (during pp s (resource_after_fog s)) gd
        (resource_after_fog s)))
    (hmotion : s.motion_blur = true →
      P (AddMotionBlurPass.pass (during pp s (resource_after_dof s)) gd (resource_after_dof s)))
    (hextract : s.bloom = true →
      P (AddBloomPass.extract_pass (during pp s (resource_after_motion_blur s)) gd
        (resource_after_motion_blur s)))
    (hcombine : s.bloom = true →
      P (AddBloomPass.combine_pass (during pp s (resource_after_motion_blur s)) gd))
    (hsun : ∀ e light, (e, light) ∈ lights → light.active = true →
      light.type = ELightType.Directional →
      P (AddSunPass.pass (during pp s (resource_after_bloom s)) gd e))
    (hgod : ∀ e light, (e, light) ∈ lights → light.active = true →
      light.type = ELightType.Directional → light.god_rays = true →
      P (AddGodRaysPass.pass (during pp s (resource_after_bloom s)) gd light))
    (htaa : HasAnyFlag s.anti_aliasing AntiAliasing.AntiAliasing_TAA = true →
      P (AddTAAPass.pass (during pp s (resource_after_bloom s)) gd (resource_after_bloom s)))
    (hhistory : HasAnyFlag s.anti_aliasing AntiAliasing.AntiAliasing_TAA = true →
      P (AddHistoryCopyPass.pass (during pp s RGResourceName.TAAOutput)
        RGResourceName.TAAOutput)) :
    ∀ p ∈ own_passes (registered helpers pp gd lights s), P p := by
  unfold registered registered_sun registered_bloom registered_motion_blur registered_dof
    registered_fog registered_ssr registered_clouds registered_main
  simp only [own_passes_append, List.mem_append]
  rintro p (((((((((hp | hp) | hp) | hp) | hp) | hp) | hp) | hp) | hp) | hp)
  · simp only [own_passes, List.mem_cons, List.mem_singleton, List.not_mem_nil, or_false] at hp
    rcases hp with rfl | rfl
    · exact hvelocity
    · exact hcopy
  · obtain ⟨e, light, hmem, ha, hl, rfl⟩ := own_passes_lens_flare_mem _ gd lights p hp
    exact hflare e light hmem ha hl
  · unfold clouds_events at hp
    split_ifs at hp with h
    · simp only [own_passes, own_passes_helper, List.mem_cons, List.mem_singleton,
        List.not_mem_nil, or_false] at hp
      subst hp
      exact hclouds h
    · simp [own_passes] at hp
  · unfold ssr_events at hp
    split_ifs at hp with h
    · simp only [own_passes, List.mem_cons, List.mem_singleton, List.not_mem_nil,
        or_false] at hp
      subst hp
      exact hssr h
    · simp [own_passes] at hp
  · unfold fog_events at hp
    split_ifs at hp with h
    · simp only [own_passes, List.mem_cons, List.mem_singleton, List.not_mem_nil,
        or_false] at hp
      subst hp
      exact hfog h
    · simp [own_passes] at hp
  · unfold dof_events at hp
    split_ifs at hp with h
    · simp only [own_passes, own_passes_helper, List.mem_cons, List.mem_singleton,
        List.not_mem_nil, or_false] at hp
      subst hp
      exact hdof h
    · simp [own_passes] at hp
  · unfold motion_blur_events at hp
    split_ifs at hp with h
    · simp only [own_passes, List.mem_cons, List.mem_singleton, List.not_mem_nil,
        or_false] at hp
      subst hp
      exact hmotion h
    · simp [own_passes] at hp
  · unfold bloom_events at hp
    split_ifs at hp with h
    · simp only [own_passes, own_passes_helper, List.mem_cons, List.mem_singleton,
        List.not_mem_nil, or_false] at hp
      rcases hp with rfl | rfl
      · exact hextract h
      · exact hcombine h
    · simp [own_passes] at hp
  · obtain ⟨e, light, hmem, ha, hd, hp | ⟨hg, hp⟩⟩ := own_passes_sun_mem helpers _ gd lights p hp
    · subst hp
      exact hsun e light hmem ha hd
    · subst hp
      exact hgod e light hmem ha hd hg
  · unfold taa_events at hp
    split_ifs at hp with h
    · simp only [own_passes, List.mem_cons, List.mem_singleton, List.not_mem_nil,
        or_false] at hp
      rcases hp with rfl | rfl
      · exact htaa h
      · exact hhistory h
    · simp [own_passes] at hp

end Postprocessor

/-- The passes `VolumetricFogPass::AddPasses` registers are three. -/
theorem VolumetricFogPass.fog_own_passes_registered (DivideAndRoundUp : Nat → Nat → Nat)
    (fp : VolumetricFogPass) (fd : FrameBlackboardData) (index : Nat) :
    own_passes (VolumetricFogPass.registered DivideAndRoundUp fp fd index)
      = [ VolumetricFogPass.AddLightInjectionPass.pass DivideAndRoundUp
            { fp with fog_volume_buffer_idx := index } fd,
          VolumetricFogPass.AddScatteringIntegrationPass.pass DivideAndRoundUp
            { fp with fog_volume_buffer_idx := index } fd,
          VolumetricFogPass.AddCombineFogPass.pass { fp with fog_volume_buffer_idx := index } ] := by
  simp [VolumetricFogPass.registered, own_passes]

/-! ## Viewport and render targets -/

theorem Postprocessor.graphics_state_registered (helpers : HelperPasses) (pp : Postprocessor)
    (gd : GlobalBlackboardData) (lights : List (Nat × Light)) (s : PostprocessSettings) :
    ∀ p ∈ own_passes (Postprocessor.registered helpers pp gd lights s),
      (p.type = ERGPassType.Graphics →
        viewports p = [(pp.width, pp.height)] ∧ render_targets p ≠ []) ∧
      (p.type = ERGPassType.Compute ∨ p.type = ERGPassType.Copy →
        viewports p = [] ∧ render_targets p = []) := by
  apply Postprocessor.own_passes_registered_cases <;> intros <;>
    simp [viewports, render_targets, Postprocessor.during,
      Postprocessor.AddVelocityBufferPass.pass, Postprocessor.AddVelocityBufferPass.setup,
      Postprocessor.AddCopyHDRPass.pass, Postprocessor.AddCopyHDRPass.setup,
      Postprocessor.AddLensFlarePass.pass, Postprocessor.AddLensFlarePass.setup,
      Postprocessor.AddVolumetricCloudsPass.pass, Postprocessor.AddVolumetricCloudsPass.setup,
      Postprocessor.AddSSRPass.pass, Postprocessor.AddSSRPass.setup,
      Postprocessor.AddFogPass.pass, Postprocessor.AddFogPass.setup,
      Postprocessor.AddDepthOfFieldPass.pass, Postprocessor.AddDepthOfFieldPass.setup,
      Postprocessor.AddMotionBlurPass.pass, Postprocessor.AddMotionBlurPass.setup,
      Postprocessor.AddBloomPass.extract_pass, Postprocessor.AddBloomPass.extract_setup,
      Postprocessor.AddBloomPass.combine_pass, Postprocessor.AddBloomPass.combine_setup,
      Postprocessor.AddSunPass.pass, Postprocessor.AddSunPass.setup,
      Postprocessor.AddGodRaysPass.pass, Postprocessor.AddGodRaysPass.setup,
      Postprocessor.AddTAAPass.pass, Postprocessor.AddTAAPass.setup,
      Postprocessor.AddHistoryCopyPass.pass, Postprocessor.AddHistoryCopyPass.setup]

theorem VolumetricFogPass.fog_graphics_state_registered (DivideAndRoundUp : Nat → Nat → Nat)
    (fp : VolumetricFogPass) (fd : FrameBlackboardData) (index : Nat) :
    ∀ p ∈ own_passes (VolumetricFogPass.registered DivideAndRoundUp fp fd index),
      (p.type = ERGPassType.Graphics →
        viewports p = [(fp.width, fp.height)] ∧ render_targets p ≠ []) ∧
      (p.type = ERGPassType.Compute ∨ p.type = ERGPassType.Copy →
        viewports p = [] ∧ render_targets p = []) := by
  rw [VolumetricFogPass.fog_own_passes_registered]
  simp [viewports, render_targets,
    VolumetricFogPass.AddLightInjectionPass.pass, VolumetricFogPass.AddLightInjectionPass.setup,
    VolumetricFogPass.AddScatteringIntegrationPass.pass,
    VolumetricFogPass.AddScatteringIntegrationPass.setup,
    VolumetricFogPass.AddCombineFogPass.pass, VolumetricFogPass.AddCombineFogPass.setup]

/-- C11. Every pass that `Postprocessor::AddPasses` and `VolumetricFogPass::AddPasses` register
with type Graphics records in its setup callback exactly one viewport, `SetViewport(width,
height)` with the dimensions of the object, and at least one render target
(`WriteRenderTarget`); every pass they register with type Compute or Copy records no viewport
and no render target. -/
theorem Graphics_passes_record_viewport_and_render_target (helpers : HelperPasses)
    (pp : Postprocessor) (lights : List (Nat × Light)) (rg : RenderGraph)
    (s : PostprocessSettings) (gd : GlobalBlackboardData)
    (hbb : rg.blackboard.global_data = some gd)
    (DivideAndRoundUp : Nat → Nat → Nat) (fp : VolumetricFogPass) (fog_rg : RenderGraph)
    (fog_volume_buffer_srv_gpu : Nat) (fd : FrameBlackboardData)
    (hfd : fog_rg.blackboard.frame_data = some fd) :
    (∃ (pp' : Postprocessor) (rg' : RenderGraph),
      Postprocessor.AddPasses helpers pp lights rg s = Except.ok (pp', rg') ∧
      ∀ p ∈ own_passes (added_events rg rg'),
        (p.type = ERGPassType.Graphics →
          viewports p = [(pp.width, pp.height)] ∧ render_targets p ≠ []) ∧
        (p.type = ERGPassType.Compute ∨ p.type = ERGPassType.Copy →
          viewports p = [] ∧ render_targets p = [])) ∧
    (∃ (fp' : VolumetricFogPass) (rg' : RenderGraph),
      VolumetricFogPass.AddPasses DivideAndRoundUp fp fog_rg fog_volume_buffer_srv_gpu
        = Except.ok (fp', rg') ∧
      ∀ p ∈ own_passes (added_events fog_rg rg'),
        (p.type = ERGPassType.Graphics →
          viewports p = [(fp.width, fp.height)] ∧ render_targets p ≠ []) ∧
        (p.type = ERGPassType.Compute ∨ p.type = ERGPassType.Copy →
          viewports p = [] ∧ render_targets p = [])) := by
  refine ⟨⟨_, _, Postprocessor.AddPasses_eq helpers pp gd lights rg s hbb, ?_⟩,
    ⟨_, _, VolumetricFogPass.fog_AddPasses_eq DivideAndRoundUp fp fog_rg fog_volume_buffer_srv_gpu
      fd hfd, ?_⟩⟩
  · rw [Postprocessor.added_events_extend]
    exact Postprocessor.graphics_state_registered helpers pp gd lights s
  · rw [Postprocessor.added_events_extend]
    exact VolumetricFogPass.fog_graphics_state_registered DivideAndRoundUp fp fd
      fog_volume_buffer_srv_gpu

/-- Witness of C11 on the concrete frame; the frame holds Graphics, Compute and Copy passes. -/
theorem Graphics_passes_record_viewport_and_render_target_witness :
    sample_graph.blackboard.global_data = some sample_global_data ∧
    sample_graph.blackboard.frame_data = some sample_frame_data ∧
    ((∃ (pp' : Postprocessor) (rg' : RenderGraph),
      Postprocessor.AddPasses sample_helpers sample_postprocessor sample_lights sample_graph
        sample_settings = Except.ok (pp', rg') ∧
      ∀ p ∈ own_passes (added_events sample_graph rg'),
        (p.type = ERGPassType.Graphics →
          viewports p = [(sample_postprocessor.width, sample_postprocessor.height)] ∧
            render_targets p ≠ []) ∧
        (p.type = ERGPassType.Compute ∨ p.type = ERGPassType.Copy →
          viewports p = [] ∧ render_targets p = [])) ∧
    (∃ (fp' : VolumetricFogPass) (rg' : RenderGraph),
      VolumetricFogPass.AddPasses (fun a b => (a + b - 1) / b) sample_fog_pass sample_graph 7
        = Except.ok (fp', rg') ∧
      ∀ p ∈ own_passes (added_events sample_graph rg'),
        (p.type = ERGPassType.Graphics →
          viewports p = [(sample_fog_pass.width, sample_fog_pass.height)] ∧
            render_targets p ≠ []) ∧
        (p.type = ERGPassType.Compute ∨ p.type = ERGPassType.Copy →
          viewports p = [] ∧ render_targets p = []))) ∧
    (Postprocessor.AddTAAPass.pass sample_postprocessor sample_global_data
        RGResourceName.PostprocessMain).type = ERGPassType.Graphics ∧
    (Postprocessor.AddCopyHDRPass.pass sample_postprocessor).type = ERGPassType.Copy ∧
    (VolumetricFogPass.AddLightInjectionPass.pass (fun a b => (a + b - 1) / b) sample_fog_pass
        sample_frame_data).type = ERGPassType.Compute :=
  ⟨rfl, rfl, Graphics_passes_record_viewport_and_render_target sample_helpers
    sample_postprocessor sample_lights sample_graph sample_settings sample_global_data rfl
    (fun a b => (a + b - 1) / b) sample_fog_pass sample_graph 7 sample_frame_data rfl,
    rfl, rfl, rfl⟩

/-! ## Access tokens -/

theorem redeemed_tokens_lens_flare (pp : Postprocessor) :
    (Postprocessor.AddLensFlarePass.lens_flare_descriptors pp).filterMap DescriptorSource.token
      = [(TokenKind.ReadOnly, "depth")] := by
  unfold Postprocessor.AddLensFlarePass.lens_flare_descriptors
  rw [List.filterMap_append, List.filterMap_map]
  have h : List.filterMap (DescriptorSource.token ∘ fun handle =>
      DescriptorSource.TextureManagerHandle (some handle)) pp.lens_flare_textures = [] := by
    rw [List.filterMap_eq_nil_iff]
    intro a _
    rfl
  rw [h]
  rfl

theorem Postprocessor.tokens_registered (helpers : HelperPasses) (pp : Postprocessor)
    (gd : GlobalBlackboardData) (lights : List (Nat × Light)) (s : PostprocessSettings)
    (pp_run : Postprocessor) (DivideAndRoundUp : Nat → Nat → Nat) (fp_run : VolumetricFogPass)
    (blue_noise_idx descriptor_index : Nat) :
    ∀ p ∈ own_passes (Postprocessor.registered helpers pp gd lights s),
      ∀ token ∈ redeemed_tokens
          (p.execute.run pp_run DivideAndRoundUp fp_run blue_noise_idx descriptor_index),
        token ∈ assigned_tokens p := by
  apply Postprocessor.own_passes_registered_cases
  case hflare =>
    intro e light _ _ _
    simp only [Postprocessor.AddLensFlarePass.pass, ExecuteCallback.run,
      Postprocessor.AddLensFlarePass.execute]
    split_ifs <;>
      simp [redeemed_tokens, ExecOp.redeemed, redeemed_tokens_lens_flare, assigned_tokens,
        Postprocessor.AddLensFlarePass.setup, BuilderCall.token]
  case hgod =>
    intro e light _ _ _ _
    simp only [Postprocessor.AddGodRaysPass.pass, ExecuteCallback.run,
      Postprocessor.AddGodRaysPass.execute]
    split_ifs <;>
      simp [redeemed_tokens, ExecOp.redeemed, DescriptorSource.token, assigned_tokens,
        Postprocessor.AddGodRaysPass.setup, BuilderCall.token]
  all_goals
    intros
    rename_i token htoken
    revert token
    simp [redeemed_tokens, ExecOp.redeemed, DescriptorSource.token, assigned_tokens,
      BuilderCall.token, ExecuteCallback.run, Postprocessor.during,
      Postprocessor.AddVelocityBufferPass.pass, Postprocessor.AddVelocityBufferPass.setup,
      Postprocessor.AddVelocityBufferPass.execute,
      Postprocessor.AddCopyHDRPass.pass, Postprocessor.AddCopyHDRPass.setup,
      Postprocessor.AddCopyHDRPass.execute,
      Postprocessor.AddVolumetricCloudsPass.pass, Postprocessor.AddVolumetricCloudsPass.setup,
      Postprocessor.AddVolumetricCloudsPass.execute,
      Postprocessor.AddSSRPass.pass, Postprocessor.AddSSRPass.setup,
      Postprocessor.AddSSRPass.execute,
      Postprocessor.AddFogPass.pass, Postprocessor.AddFogPass.setup,
      Postprocessor.AddFogPass.execute,
      Postprocessor.AddDepthOfFieldPass.pass, Postprocessor.AddDepthOfFieldPass.setup,
      Postprocessor.AddDepthOfFieldPass.execute,
      Postprocessor.AddMotionBlurPass.pass, Postprocessor.AddMotionBlurPass.setup,
      Postprocessor.AddMotionBlurPass.execute,
      Postprocessor.AddBloomPass.extract_pass, Postprocessor.AddBloomPass.extract_setup,
      Postprocessor.AddBloomPass.extract_execute,
      Postprocessor.AddBloomPass.combine_pass, Postprocessor.AddBloomPass.combine_setup,
      Postprocessor.AddBloomPass.combine_execute,
      Postprocessor.AddSunPass.pass, Postprocessor.AddSunPass.setup,
      Postprocessor.AddSunPass.execute,
      Postprocessor.AddTAAPass.pass, Postprocessor.AddTAAPass.setup,
      Postprocessor.AddTAAPass.execute,
      Postprocessor.AddHistoryCopyPass.pass, Postprocessor.AddHistoryCopyPass.setup,
      Postprocessor.AddHistoryCopyPass.execute]

theorem VolumetricFogPass.fog_tokens_registered (DivideAndRoundUp : Nat → Nat → Nat)
    (fp : VolumetricFogPass) (fd : FrameBlackboardData) (index : Nat)
    (pp_run : Postprocessor) (D_run : Nat → Nat → Nat) (fp_run : VolumetricFogPass)
    (blue_noise_idx descriptor_index : Nat) :
    ∀ p ∈ own_passes (VolumetricFogPass.registered DivideAndRoundUp fp fd index),
      ∀ token ∈ redeemed_tokens
          (p.execute.run pp_run D_run fp_run blue_noise_idx descriptor_index),
        token ∈ assigned_tokens p := by
  rw [VolumetricFogPass.fog_own_passes_registered]
  intro p hp
  simp only [List.mem_cons, List.mem_singleton, List.not_mem_nil, or_false] at hp
  rcases hp with rfl | rfl | rfl <;> intro token <;>
    simp [redeemed_tokens, ExecOp.redeemed, DescriptorSource.token, assigned_tokens,
      BuilderCall.token, ExecuteCallback.run,
      VolumetricFogPass.AddLightInjectionPass.pass, VolumetricFogPass.AddLightInjectionPass.setup,
      VolumetricFogPass.AddLightInjectionPass.execute,
      VolumetricFogPass.AddScatteringIntegrationPass.pass,
      VolumetricFogPass.AddScatteringIntegrationPass.setup,
      VolumetricFogPass.AddScatteringIntegrationPass.execute,
      VolumetricFogPass.AddCombineFogPass.pass, VolumetricFogPass.AddCombineFogPass.setup,
      VolumetricFogPass.AddCombineFogPass.execute] <;>
    tauto

/-- C12. For every pass that `Postprocessor::AddPasses` and `VolumetricFogPass::AddPasses`
register, whatever the state of the objects and the descriptor index when the execute callback
runs, every token the callback redeems on the context (`GetReadOnlyTexture`,
`GetReadWriteTexture`, `GetCopySrcTexture`, `GetCopyDstTexture`) is a field of the pass data of
that pass to which its setup callback assigned the token of a builder call of the matching
kind. -/
theorem execute_redeems_only_assigned_tokens (helpers : HelperPasses)
    (pp : Postprocessor) (lights : List (Nat × Light)) (rg : RenderGraph)
    (s : PostprocessSettings) (gd : GlobalBlackboardData)
    (hbb : rg.blackboard.global_data = some gd)
    (DivideAndRoundUp : Nat → Nat → Nat) (fp : VolumetricFogPass) (fog_rg : RenderGraph)
    (fog_volume_buffer_srv_gpu : Nat) (fd : FrameBlackboardData)
    (hfd : fog_rg.blackboard.frame_data = some fd)
    (pp_run : Postprocessor) (fp_run : VolumetricFogPass)
    (blue_noise_idx descriptor_index : Nat) :
    (∃ (pp' : Postprocessor) (rg' : RenderGraph),
      Postprocessor.AddPasses helpers pp lights rg s = Except.ok (pp', rg') ∧
      ∀ p ∈ own_passes (added_events rg rg'),
        ∀ token ∈ redeemed_tokens
            (p.execute.run pp_run DivideAndRoundUp fp_run blue_noise_idx descriptor_index),
          token ∈ assigned_tokens p) ∧
    (∃ (fp' : VolumetricFogPass) (rg' : RenderGraph),
      VolumetricFogPass.AddPasses DivideAndRoundUp fp fog_rg fog_volume_buffer_srv_gpu
        = Except.ok (fp', rg') ∧
      ∀ p ∈ own_passes (added_events fog_rg rg'),
        ∀ token ∈ redeemed_tokens
            (p.execute.run pp_run DivideAndRoundUp fp_run blue_noise_idx descriptor_index),
          token ∈ assigned_tokens p) := by
  refine ⟨⟨_, _, Postprocessor.AddPasses_eq helpers pp gd lights rg s hbb, ?_⟩,
    ⟨_, _, VolumetricFogPass.fog_AddPasses_eq DivideAndRoundUp fp fog_rg fog_volume_buffer_srv_gpu
      fd hfd, ?_⟩⟩
  · rw [Postprocessor.added_events_extend]
    exact Postprocessor.tokens_registered helpers pp gd lights s pp_run DivideAndRoundUp fp_run
      blue_noise_idx descriptor_index
  · rw [Postprocessor.added_events_extend]
    exact VolumetricFogPass.fog_tokens_registered DivideAndRoundUp fp fd fog_volume_buffer_srv_gpu
      pp_run DivideAndRoundUp fp_run blue_noise_idx descriptor_index

/-- Witness of C12 on the concrete frame; the TAA callback of that frame redeems the token of
its field `history_srv`. -/
theorem execute_redeems_only_assigned_tokens_witness :
    sample_graph.blackboard.global_data = some sample_global_data ∧
    sample_graph.blackboard.frame_data = some sample_frame_data ∧
    ((∃ (pp' : Postprocessor) (rg' : RenderGraph),
      Postprocessor.AddPasses sample_helpers sample_postprocessor sample_lights sample_graph
        sample_settings = Except.ok (pp', rg') ∧
      ∀ p ∈ own_passes (added_events sample_graph rg'),
        ∀ token ∈ redeemed_tokens
            (p.execute.run sample_postprocessor (fun a b => (a + b - 1) / b) sample_fog_pass 0 16),
          token ∈ assigned_tokens p) ∧
    (∃ (fp' : VolumetricFogPass) (rg' : RenderGraph),
      VolumetricFogPass.AddPasses (fun a b => (a + b - 1) / b) sample_fog_pass sample_graph 7
        = Except.ok (fp', rg') ∧
      ∀ p ∈ own_passes (added_events sample_graph rg'),
        ∀ token ∈ redeemed_tokens
            (p.execute.run sample_postprocessor (fun a b => (a + b - 1) / b) sample_fog_pass 0 16),
          token ∈ assigned_tokens p)) ∧
    (TokenKind.ReadOnly, "history_srv") ∈ redeemed_tokens
      ((Postprocessor.AddTAAPass.pass sample_postprocessor sample_global_data
        RGResourceName.PostprocessMain).execute.run sample_postprocessor
          (fun a b => (a + b - 1) / b) sample_fog_pass 0 16) :=
  ⟨rfl, rfl, execute_redeems_only_assigned_tokens sample_helpers sample_postprocessor
    sample_lights sample_graph sample_settings sample_global_data rfl
    (fun a b => (a + b - 1) / b) sample_fog_pass sample_graph 7 sample_frame_data rfl
    sample_postprocessor sample_fog_pass 0 16, by decide⟩

/-! ## Pointers held across the setup/execute boundary -/

namespace Postprocessor

theorem entry_helper_event (helpers : HelperPasses) (call : HelperCall) :
    (helper_event helpers call).entry = RegistrationEntry.Helper call := by
  cases call <;> rfl

theorem entries_lens_flare (pp1 pp2 : Postprocessor) (gd1 gd2 : GlobalBlackboardData)
    (hw : pp1.width = pp2.width) (hh : pp1.height = pp2.height) (lights : List (Nat × Light)) :
    (lens_flare_events pp1 gd1 lights).map RGEvent.entry
      = (lens_flare_events pp2 gd2 lights).map RGEvent.entry := by
  induction lights with
  | nil => rfl
  | cons l rest ih =>
    obtain ⟨e, light_data⟩ := l
    simp only [lens_flare_events]
    split_ifs
    · exact ih
    · simp only [List.map_cons, ih]
      simp [RGEvent.entry, RGPass.signature, AddLensFlarePass.pass, AddLensFlarePass.setup,
        hw, hh]

theorem entries_sun (helpers : HelperPasses) (pp1 pp2 : Postprocessor)
    (gd1 gd2 : GlobalBlackboardData)
    (hw : pp1.width = pp2.width) (hh : pp1.height = pp2.height)
    (hf : pp1.final_resource = pp2.final_resource) (lights : List (Nat × Light)) :
    (sun_events helpers pp1 gd1 lights).map RGEvent.entry
      = (sun_events helpers pp2 gd2 lights).map RGEvent.entry := by
  induction lights with
  | nil => rfl
  | cons l rest ih =>
    obtain ⟨e, light⟩ := l
    simp only [sun_events]
    split_ifs
    · exact ih
    · simp [RGEvent.entry, entry_helper_event, RGPass.signature, AddSunPass.pass,
        AddSunPass.setup, AddGodRaysPass.pass, AddGodRaysPass.setup, hw, hh, hf]
    · simp [RGEvent.entry, entry_helper_event, RGPass.signature, AddSunPass.pass,
        AddSunPass.setup, hw, hh, hf]
    · exact ih

/-- The registration sequence of `AddPasses`, execute callbacks left out, is a function of the
helpers, the dimensions, the lights and the settings. -/
theorem entries_registered (helpers : HelperPasses) (pp1 pp2 : Postprocessor)
    (gd1 gd2 : GlobalBlackboardData) (lights : List (Nat × Light)) (s : PostprocessSettings)
    (hw : pp1.width = pp2.width) (hh : pp1.height = pp2.height) :
    (registered helpers pp1 gd1 lights s).map RGEvent.entry
      = (registered helpers pp2 gd2 lights s).map RGEvent.entry := by
  unfold registered registered_sun registered_bloom registered_motion_blur registered_dof
    registered_fog registered_ssr registered_clouds registered_main
  simp only [List.map_append]
  congr 1
  congr 1
  congr 1
  congr 1
  congr 1
  congr 1
  congr 1
  congr 1
  congr 1
  congr 1
  · simp [RGEvent.entry, RGPass.signature, AddVelocityBufferPass.pass,
      AddVelocityBufferPass.setup, hw, hh]
  · simp [RGEvent.entry, RGPass.signature, AddCopyHDRPass.pass, AddCopyHDRPass.setup, hw, hh]
  · exact entries_lens_flare (during pp1 s RGResourceName.PostprocessMain)
      (during pp2 s RGResourceName.PostprocessMain) gd1 gd2 hw hh lights
  · unfold clouds_events
    split_ifs <;>
      simp [RGEvent.entry, entry_helper_event, RGPass.signature, during,
        AddVolumetricCloudsPass.pass, AddVolumetricCloudsPass.setup, hw, hh]
  · unfold ssr_events
    split_ifs <;>
      simp [RGEvent.entry, RGPass.signature, during, AddSSRPass.pass, AddSSRPass.setup, hw, hh]
  · unfold fog_events
    split_ifs <;>
      simp [RGEvent.entry, RGPass.signature, during, AddFogPass.pass, AddFogPass.setup, hw, hh]
  · unfold dof_events
    split_ifs <;>
      simp [RGEvent.entry, entry_helper_event, RGPass.signature, during,
        AddDepthOfFieldPass.pass, AddDepthOfFieldPass.setup, hw, hh]
  · unfold motion_blur_events
    split_ifs <;>
      simp [RGEvent.entry, RGPass.signature, during, AddMotionBlurPass.pass,
        AddMotionBlurPass.setup, hw, hh]
  · unfold bloom_events
    split_ifs <;>
      simp [RGEvent.entry, entry_helper_event, RGPass.signature, during,
        AddBloomPass.extract_pass, AddBloomPass.extract_setup, AddBloomPass.combine_pass,
        AddBloomPass.combine_setup, hw, hh]
  · exact entries_sun helpers (during pp1 s (resource_after_bloom s))
      (during pp2 s (resource_after_bloom s)) gd1 gd2 hw hh rfl lights
  · unfold taa_events
    split_ifs <;>
      simp [RGEvent.entry, RGPass.signature, during, AddTAAPass.pass, AddTAAPass.setup,
        AddHistoryCopyPass.pass, AddHistoryCopyPass.setup, hw, hh]

end Postprocessor

/-- C14. Two calls of `Postprocessor::AddPasses` with equal settings, equal light list and
equal width and height, on objects that may differ in `final_resource`, `settings` and every
other member and on graphs that may differ, both succeed and register the same sequence: the
same passes (name, type, flags and builder calls of the setup callback), imports and helper
calls in the same order; and `GetFinalResource()` is the same afterwards. -/
theorem Postprocessor.AddPasses_rebuilds_from_scratch (helpers : HelperPasses)
    (pp1 pp2 : Postprocessor) (lights : List (Nat × Light)) (rg1 rg2 : RenderGraph)
    (s : PostprocessSettings) (gd1 gd2 : GlobalBlackboardData)
    (hbb1 : rg1.blackboard.global_data = some gd1)
    (hbb2 : rg2.blackboard.global_data = some gd2)
    (hw : pp1.width = pp2.width) (hh : pp1.height = pp2.height) :
    ∃ (pp1' pp2' : Postprocessor) (rg1' rg2' : RenderGraph),
      Postprocessor.AddPasses helpers pp1 lights rg1 s = Except.ok (pp1', rg1') ∧
      Postprocessor.AddPasses helpers pp2 lights rg2 s = Except.ok (pp2', rg2') ∧
      (added_events rg1 rg1').map RGEvent.entry = (added_events rg2 rg2').map RGEvent.entry ∧
      pp1'.GetFinalResource = pp2'.GetFinalResource := by
  refine ⟨_, _, _, _, Postprocessor.AddPasses_eq helpers pp1 gd1 lights rg1 s hbb1,
    Postprocessor.AddPasses_eq helpers pp2 gd2 lights rg2 s hbb2, ?_, rfl⟩
  rw [Postprocessor.added_events_extend, Postprocessor.added_events_extend]
  exact Postprocessor.entries_registered helpers pp1 pp2 gd1 gd2 lights s hw hh

/-- Witness of C14: the object a previous call with every stage on has left, against the
object before that call. -/
theorem Postprocessor.AddPasses_rebuilds_from_scratch_witness :
    sample_graph.blackboard.global_data = some sample_global_data ∧
    sample_postprocessor.width = sample_postprocessor_used.width ∧
    sample_postprocessor.height = sample_postprocessor_used.height ∧
    sample_postprocessor.final_resource ≠ sample_postprocessor_used.final_resource ∧
    sample_postprocessor.settings ≠ sample_postprocessor_used.settings ∧
    (∃ rg', Postprocessor.AddPasses sample_helpers sample_postprocessor sample_lights
      sample_graph sample_settings = Except.ok (sample_postprocessor_used, rg')) ∧
    ∃ (pp1' pp2' : Postprocessor) (rg1' rg2' : RenderGraph),
      Postprocessor.AddPasses sample_helpers sample_postprocessor sample_lights sample_graph
        sample_settings_taa = Except.ok (pp1', rg1') ∧
      Postprocessor.AddPasses sample_helpers sample_postprocessor_used sample_lights sample_graph
        sample_settings_taa = Except.ok (pp2', rg2') ∧
      (added_events sample_graph rg1').map RGEvent.entry
        = (added_events sample_graph rg2').map RGEvent.entry ∧
      pp1'.GetFinalResource = pp2'.GetFinalResource :=
  ⟨rfl, rfl, rfl, by decide, by decide,
    ⟨_, Postprocessor.AddPasses_eq sample_helpers sample_postprocessor sample_global_data
      sample_lights sample_graph sample_settings rfl⟩,
    Postprocessor.AddPasses_rebuilds_from_scratch sample_helpers sample_postprocessor
      sample_postprocessor_used sample_lights sample_graph sample_graph sample_settings_taa
      sample_global_data sample_global_data rfl rfl rfl rfl⟩

/-! ## The compiler on the frames the clients build -/

namespace Postprocessor

theorem spec_chain_input_ssr (s : PostprocessSettings) :
    spec_chain_input s Stage.SSR = RGResourceName.PostprocessMain := by
  simp [spec_chain_input, spec_last_enabled_output, stage_order, List.takeWhile]

theorem spec_chain_input_fog (s : PostprocessSettings) :
    spec_chain_input s Stage.Fog = resource_after_ssr s := by
  by_cases h1 : s.reflections = EReflections.SSR <;>
    simp [spec_chain_input, spec_last_enabled_output, stage_order, List.takeWhile, List.filter,
      Stage.enabled, Stage.output, resource_after_ssr, h1]

theorem spec_chain_input_dof (s : PostprocessSettings) :
    spec_chain_input s Stage.DoF = resource_after_fog s := by
  by_cases h1 : s.reflections = EReflections.SSR <;> cases h2 : s.fog <;>
    simp [spec_chain_input, spec_last_enabled_output, stage_order, List.takeWhile, List.filter,
      Stage.enabled, Stage.output, resource_after_ssr, resource_after_fog, h1, h2]

theorem spec_chain_input_motion_blur (s : PostprocessSettings) :
    spec_chain_input s Stage.MotionBlur = resource_after_dof s := by
  by_cases h1 : s.reflections = EReflections.SSR <;> cases h2 : s.fog <;> cases h3 : s.dof <;>
    simp [spec_chain_input, spec_last_enabled_output, stage_order, List.takeWhile, List.filter,
      Stage.enabled, Stage.output, resource_after_ssr, resource_after_fog, resource_after_dof,
      h1, h2, h3]

theorem spec_chain_input_bloom (s : PostprocessSettings) :
    spec_chain_input s Stage.Bloom = resource_after_motion_blur s := by
  by_cases h1 : s.reflections = EReflections.SSR <;> cases h2 : s.fog <;> cases h3 : s.dof <;>
    cases h4 : s.motion_blur <;>
    simp [spec_chain_input, spec_last_enabled_output, stage_order, List.takeWhile, List.filter,
      Stage.enabled, Stage.output, resource_after_ssr, resource_after_fog, resource_after_dof,
      resource_after_motion_blur, h1, h2, h3, h4]

theorem spec_chain_input_taa (s : PostprocessSettings) :
    spec_chain_input s Stage.TAA = resource_after_bloom s := by
  by_cases h1 : s.reflections = EReflections.SSR <;> cases h2 : s.fog <;> cases h3 : s.dof <;>
    cases h4 : s.motion_blur <;> cases h5 : s.bloom <;>
    simp [spec_chain_input, spec_last_enabled_output, stage_order, List.takeWhile, List.filter,
      Stage.enabled, Stage.output, resource_after_ssr, resource_after_fog, resource_after_dof,
      resource_after_motion_blur, resource_after_bloom, h1, h2, h3, h4, h5]

theorem spec_last_enabled_output_all (s : PostprocessSettings) :
    spec_last_enabled_output s stage_order = resource_after_taa s := by
  by_cases h1 : s.reflections = EReflections.SSR <;> cases h2 : s.fog <;> cases h3 : s.dof <;>
    cases h4 : s.motion_blur <;> cases h5 : s.bloom <;>
    cases h6 : HasAnyFlag s.anti_aliasing AntiAliasing.AntiAliasing_TAA <;>
    simp [spec_last_enabled_output, stage_order, List.filter,
      Stage.enabled, Stage.output, resource_after_ssr, resource_after_fog, resource_after_dof,
      resource_after_motion_blur, resource_after_bloom, resource_after_taa, h1, h2, h3, h4, h5, h6]

theorem resource_after_taa_eq (s : PostprocessSettings) :
    resource_after_taa s
      = (if HasAnyFlag s.anti_aliasing AntiAliasing.AntiAliasing_TAA = true then
          RGResourceName.TAAOutput
        else if s.bloom = true then RGResourceName.BloomOutput
        else if s.motion_blur = true then RGResourceName.MotionBlurOutput
        else if s.dof = true then RGResourceName.DepthOfFieldOutput
        else if s.fog = true then RGResourceName.FogOutput
        else if s.reflections = EReflections.SSR then RGResourceName.SSR_Output
        else RGResourceName.PostprocessMain) := rfl

theorem resource_after_taa_congr (s1 s2 : PostprocessSettings)
    (hr : s1.reflections = s2.reflections) (hf : s1.fog = s2.fog) (hd : s1.dof = s2.dof)
    (hm : s1.motion_blur = s2.motion_blur) (hb : s1.bloom = s2.bloom)
    (ha : s1.anti_aliasing = s2.anti_aliasing) :
    resource_after_taa s1 = resource_after_taa s2 := by
  simp [resource_after_taa, resource_after_bloom, resource_after_motion_blur,
    resource_after_dof, resource_after_fog, resource_after_ssr, hr, hf, hd, hm, hb, ha]

end Postprocessor

/-- C17. After `Postprocessor::AddPasses(rg, s)` has returned, `GetFinalResource()` is the
output of the last enabled stage in the order SSR, fog, DoF, motion blur, bloom, TAA:
`TAAOutput` if `s.anti_aliasing` contains TAA, else `BloomOutput` if `s.bloom`, else
`MotionBlurOutput` if `s.motion_blur`, else `DepthOfFieldOutput` if `s.dof`, else `FogOutput` if
`s.fog`, else `SSR_Output` if `s.reflections == SSR`, else `PostprocessMain`.  A second call on
any object and graph, with any lights and with settings that agree with `s` except perhaps in
`clouds`, leaves the same final resource. -/
theorem Postprocessor.GetFinalResource_is_last_enabled_stage (helpers : HelperPasses)
    (pp : Postprocessor) (lights : List (Nat × Light)) (rg : RenderGraph)
    (s : PostprocessSettings) (gd : GlobalBlackboardData)
    (hbb : rg.blackboard.global_data = some gd) :
    ∃ (pp' : Postprocessor) (rg' : RenderGraph),
      Postprocessor.AddPasses helpers pp lights rg s = Except.ok (pp', rg') ∧
      pp'.GetFinalResource
        = (if HasAnyFlag s.anti_aliasing AntiAliasing.AntiAliasing_TAA = true then
            RGResourceName.TAAOutput
          else if s.bloom = true then RGResourceName.BloomOutput
          else if s.motion_blur = true then RGResourceName.MotionBlurOutput
          else if s.dof = true then RGResourceName.DepthOfFieldOutput
          else if s.fog = true then RGResourceName.FogOutput
          else if s.reflections = EReflections.SSR then RGResourceName.SSR_Output
          else RGResourceName.PostprocessMain) ∧
      pp'.GetFinalResource = spec_last_enabled_output s stage_order ∧
      ∀ (pp2 : Postprocessor) (lights2 : List (Nat × Light)) (rg2 : RenderGraph)
        (s2 : PostprocessSettings) (gd2 : GlobalBlackboardData),
        rg2.blackboard.global_data = some gd2 →
        s2.reflections = s.reflections → s2.fog = s.fog → s2.dof = s.dof →
        s2.motion_blur = s.motion_blur → s2.bloom = s.bloom →
        s2.anti_aliasing = s.anti_aliasing →
        ∃ (pp2' : Postprocessor) (rg2' : RenderGraph),
          Postprocessor.AddPasses helpers pp2 lights2 rg2 s2 = Except.ok (pp2', rg2') ∧
          pp2'.GetFinalResource = pp'.GetFinalResource := by
  refine ⟨_, _, Postprocessor.AddPasses_eq helpers pp gd lights rg s hbb,
    Postprocessor.resource_after_taa_eq s, (Postprocessor.spec_last_enabled_output_all s).symm, ?_⟩
  intro pp2 lights2 rg2 s2 gd2 hbb2 hr hf hd hm hb ha
  exact ⟨_, _, Postprocessor.AddPasses_eq helpers pp2 gd2 lights2 rg2 s2 hbb2,
    Postprocessor.resource_after_taa_congr s2 s hr hf hd hm hb ha⟩

/-- Witness of C17: TAA on; the second call has other lights, clouds on and starts from the
object a previous call has left. -/
theorem Postprocessor.GetFinalResource_is_last_enabled_stage_witness :
    sample_graph.blackboard.global_data = some sample_global_data ∧
    ∃ (pp' : Postprocessor) (rg' : RenderGraph),
      Postprocessor.AddPasses sample_helpers sample_postprocessor sample_lights sample_graph
        sample_settings_taa = Except.ok (pp', rg') ∧
      pp'.GetFinalResource = RGResourceName.TAAOutput ∧
      pp'.GetFinalResource = spec_last_enabled_output sample_settings_taa stage_order ∧
      ∃ (pp2' : Postprocessor) (rg2' : RenderGraph),
        Postprocessor.AddPasses sample_helpers sample_postprocessor_used [] sample_graph
          sample_settings_taa_clouds = Except.ok (pp2', rg2') ∧
        pp2'.GetFinalResource = pp'.GetFinalResource := by
  obtain ⟨pp', rg', h1, h2, h3, h4⟩ :=
    Postprocessor.GetFinalResource_is_last_enabled_stage sample_helpers sample_postprocessor
      sample_lights sample_graph sample_settings_taa sample_global_data rfl
  exact ⟨rfl, pp', rg', h1, h2.trans (by decide), h3,
    h4 sample_postprocessor_used [] sample_graph sample_settings_taa_clouds sample_global_data
      rfl rfl rfl rfl rfl rfl rfl⟩

/-! ## Helper calls of the registration sequence -/

theorem helper_calls_append (a b : List RGEvent) :
    helper_calls (a ++ b) = helper_calls a ++ helper_calls b := by
  induction a with
  | nil => rfl
  | cons e rest ih =>
    cases e with
    | direct op => simpa [helper_calls] using ih
    | helper call ops => simp [helper_calls, ih]

namespace Postprocessor

theorem helper_calls_helper_event (helpers : HelperPasses) (call : HelperCall)
    (rest : List RGEvent) :
    helper_calls (helper_event helpers call :: rest) = call :: helper_calls rest := by
  cases call <;> rfl

theorem helper_calls_lens_flare (pp : Postprocessor) (gd : GlobalBlackboardData)
    (lights : List (Nat × Light)) : helper_calls (lens_flare_events pp gd lights) = [] := by
  induction lights with
  | nil => rfl
  | cons l rest ih =>
    obtain ⟨e, light_data⟩ := l
    simp only [lens_flare_events]
    split_ifs
    · exact ih
    · simpa [helper_calls] using ih

/-- The second loop registers the Sun Pass, the GodRays Pass and the copy of the first active
directional light only. -/
theorem sun_events_eq (helpers : HelperPasses) (pp : Postprocessor) (gd : GlobalBlackboardData)
    (lights : List (Nat × Light)) :
    sun_events helpers pp gd lights
      = spec_sun_registration helpers pp gd (first_active_directional lights) := by
  induction lights with
  | nil => rfl
  | cons l rest ih =>
    obtain ⟨e, light⟩ := l
    simp only [sun_events, first_active_directional, List.find?_cons]
    cases ha : light.active
    · simpa [first_active_directional] using ih
    · by_cases hd : light.type = ELightType.Directional
      · cases hg : light.god_rays <;> simp [hd, hg, spec_sun_registration]
      · simpa [hd, first_active_directional] using ih

/-- The helper calls of `AddPasses`, case by case. -/
theorem helper_calls_registered_cases (helpers : HelperPasses) (pp : Postprocessor)
    (gd : GlobalBlackboardData) (lights : List (Nat × Light)) (s : PostprocessSettings)
    (P : HelperCall → Prop)
    (hclouds_blur : s.clouds = true → P (HelperCall.blur_pass RGResourceName.CloudsOutput
      RGResourceName.BlurredCloudsOutput "Volumetric Clouds"))
    (hclouds_copy : s.clouds = true → P (HelperCall.copy_to_texture_pass
      RGResourceName.PostprocessMain RGResourceName.BlurredCloudsOutput EBlendMode.AlphaBlend))
    (hdof : s.dof = true → P (HelperCall.blur_pass (resource_after_fog s)
      RGResourceName.BlurredDofInput "DoF"))
    (hmips : s.bloom = true → P (HelperCall.generate_mips_pass RGResourceName.BloomExtract))
    (hsun : ∀ e light, first_active_directional lights = some (e, light) →
      P (HelperCall.copy_to_texture_pass (resource_after_bloom s)
        (if light.god_rays = true then RGResourceName.GodRaysOutput
          else RGResourceName.SunOutput) EBlendMode.AdditiveBlend)) :
    ∀ call ∈ helper_calls (registered helpers pp gd lights s), P call := by
  unfold registered registered_sun registered_bloom registered_motion_blur registered_dof
    registered_fog registered_ssr registered_clouds registered_main
  simp only [helper_calls_append, List.mem_append]
  rintro call (((((((((hc | hc) | hc) | hc) | hc) | hc) | hc) | hc) | hc) | hc)
  · simp [helper_calls] at hc
  · rw [helper_calls_lens_flare] at hc
    simp at hc
  · unfold clouds_events at hc
    split_ifs at hc with h
    · simp only [helper_calls, helper_calls_helper_event, List.mem_cons, List.not_mem_nil,
        or_false] at hc
      rcases hc with rfl | rfl
      · exact hclouds_blur h
      · exact hclouds_copy h
    · simp [helper_calls] at hc
  · unfold ssr_events at hc
    split_ifs at hc <;> simp [helper_calls] at hc
  · unfold fog_events at hc
    split_ifs at hc <;> simp [helper_calls] at hc
  · unfold dof_events at hc
    split_ifs at hc with h
    · simp only [helper_calls, helper_calls_helper_event, List.mem_cons, List.not_mem_nil,
        or_false] at hc
      subst hc
      exact hdof h
    · simp [helper_calls] at hc
  · unfold motion_blur_events at hc
    split_ifs at hc <;> simp [helper_calls] at hc
  · unfold bloom_events at hc
    split_ifs at hc with h
    · simp only [helper_calls, helper_calls_helper_event, List.mem_cons, List.not_mem_nil,
        or_false] at hc
      subst hc
      exact hmips h
    · simp [helper_calls] at hc
  · rw [sun_events_eq] at hc
    cases hfirst : first_active_directional lights with
    | none => simp [hfirst, spec_sun_registration, helper_calls] at hc
    | some entry =>
      obtain ⟨e, light⟩ := entry
      rw [hfirst] at hc
      have := hsun e light hfirst
      cases hg : light.god_rays <;>
        simp only [spec_sun_registration, hg, during, helper_calls, helper_calls_helper_event,
          List.mem_cons, List.not_mem_nil, or_false, List.cons_append, List.nil_append,
          List.append_nil, if_true, if_false, Bool.false_eq_true] at hc this <;>
        (subst hc; exact this)
  · unfold taa_events at hc
    split_ifs at hc <;> simp [helper_calls] at hc

end Postprocessor

namespace Postprocessor

theorem mem_own_passes_registered_of_stage (helpers : HelperPasses) (pp : Postprocessor)
    (gd : GlobalBlackboardData) (lights : List (Nat × Light)) (s : PostprocessSettings)
    (stage : Stage) (h : stage.enabled s = true) :
    ∀ reader ∈ stage.readers,
      ∃ p ∈ own_passes (registered helpers pp gd lights s), p.name = reader.1 := by
  unfold registered registered_sun registered_bloom registered_motion_blur registered_dof
    registered_fog registered_ssr registered_clouds registered_main
  simp only [own_passes_append, List.mem_append]
  cases stage
  · have h' : s.reflections = EReflections.SSR := by simpa [Stage.enabled] using h
    intro reader hr
    simp only [Stage.readers, List.mem_singleton] at hr
    subst hr
    exact ⟨AddSSRPass.pass (during pp s RGResourceName.PostprocessMain) gd
      RGResourceName.PostprocessMain, by simp [ssr_events, h', own_passes], rfl⟩
  · have h' : s.fog = true := by simpa [Stage.enabled] using h
    intro reader hr
    simp only [Stage.readers, List.mem_singleton] at hr
    subst hr
    exact ⟨AddFogPass.pass (during pp s (resource_after_ssr s)) gd (resource_after_ssr s),
      by simp [fog_events, h', own_passes], rfl⟩
  · have h' : s.dof = true := by simpa [Stage.enabled] using h
    intro reader hr
    simp only [Stage.readers, List.mem_singleton] at hr
    subst hr
    exact ⟨AddDepthOfFieldPass.pass (during pp s (resource_after_fog s)) gd
      (resource_after_fog s), by simp [dof_events, h', own_passes, own_passes_helper], rfl⟩
  · have h' : s.motion_blur = true := by simpa [Stage.enabled] using h
    intro reader hr
    simp only [Stage.readers, List.mem_singleton] at hr
    subst hr
    exact ⟨AddMotionBlurPass.pass (during pp s (resource_after_dof s)) gd
      (resource_after_dof s), by simp [motion_blur_events, h', own_passes], rfl⟩
  · have h' : s.bloom = true := by simpa [Stage.enabled] using h
    intro reader hr
    simp only [Stage.readers, List.mem_cons, List.mem_singleton, List.not_mem_nil,
      or_false] at hr
    rcases hr with rfl | rfl
    · exact ⟨AddBloomPass.extract_pass (during pp s (resource_after_motion_blur s)) gd
        (resource_after_motion_blur s),
        by simp [bloom_events, h', own_passes, own_passes_helper], rfl⟩
    · exact ⟨AddBloomPass.combine_pass (during pp s (resource_after_motion_blur s)) gd,
        by simp [bloom_events, h', own_passes, own_passes_helper], rfl⟩
  · have h' : HasAnyFlag s.anti_aliasing AntiAliasing.AntiAliasing_TAA = true := by
      simpa [Stage.enabled] using h
    intro reader hr
    simp only [Stage.readers, List.mem_singleton] at hr
    subst hr
    exact ⟨AddTAAPass.pass (during pp s (resource_after_bloom s)) gd (resource_after_bloom s),
      by simp [taa_events, h', own_passes], rfl⟩

theorem stage_inputs_registered (helpers : HelperPasses) (pp : Postprocessor)
    (gd : GlobalBlackboardData) (lights : List (Nat × Light)) (s : PostprocessSettings) :
    ∀ p ∈ own_passes (registered helpers pp gd lights s),
      (∀ (stage : Stage), ∀ reader ∈ stage.readers, p.name = reader.1 →
        token_resource p reader.2 = some (spec_chain_input s stage)) ∧
      (p.name = "History Copy Pass" →
        token_resource p "copy_src" = some RGResourceName.TAAOutput ∧
        token_resource p "copy_dst" = some RGResourceName.HistoryBuffer) := by
  apply own_passes_registered_cases <;> intros <;> refine ⟨fun stage => ?_, ?_⟩ <;>
    first
    | (cases stage <;>
        simp [Stage.readers, token_resource, BuilderCall.accessed, during,
          spec_chain_input_ssr, spec_chain_input_fog, spec_chain_input_dof, spec_chain_input_motion_blur,
          spec_chain_input_bloom, spec_chain_input_taa,
          AddVelocityBufferPass.pass, AddVelocityBufferPass.setup,
          AddCopyHDRPass.pass, AddCopyHDRPass.setup,
          AddLensFlarePass.pass, AddLensFlarePass.setup,
          AddVolumetricCloudsPass.pass, AddVolumetricCloudsPass.setup,
          AddSSRPass.pass, AddSSRPass.setup, AddFogPass.pass, AddFogPass.setup,
          AddDepthOfFieldPass.pass, AddDepthOfFieldPass.setup,
          AddMotionBlurPass.pass, AddMotionBlurPass.setup,
          AddBloomPass.extract_pass, AddBloomPass.extract_setup,
          AddBloomPass.combine_pass, AddBloomPass.combine_setup,
          AddSunPass.pass, AddSunPass.setup, AddGodRaysPass.pass, AddGodRaysPass.setup,
          AddTAAPass.pass, AddTAAPass.setup,
          AddHistoryCopyPass.pass, AddHistoryCopyPass.setup])
    | simp [token_resource, BuilderCall.accessed, during,
        AddVelocityBufferPass.pass, AddVelocityBufferPass.setup,
        AddCopyHDRPass.pass, AddCopyHDRPass.setup,
        AddLensFlarePass.pass, AddLensFlarePass.setup,
        AddVolumetricCloudsPass.pass, AddVolumetricCloudsPass.setup,
        AddSSRPass.pass, AddSSRPass.setup, AddFogPass.pass, AddFogPass.setup,
        AddDepthOfFieldPass.pass, AddDepthOfFieldPass.setup,
        AddMotionBlurPass.pass, AddMotionBlurPass.setup,
        AddBloomPass.extract_pass, AddBloomPass.extract_setup,
        AddBloomPass.combine_pass, AddBloomPass.combine_setup,
        AddSunPass.pass, AddSunPass.setup, AddGodRaysPass.pass, AddGodRaysPass.setup,
        AddTAAPass.pass, AddTAAPass.setup,
        AddHistoryCopyPass.pass, AddHistoryCopyPass.setup]

end Postprocessor

/-- C18. For every settings value the stages of one call of `Postprocessor::AddPasses` form a
chain: the passes of every enabled stage among SSR, fog, DoF, motion blur, bloom and TAA are
registered, and each reads through its input field the output of the nearest preceding enabled
stage in that order, or `PostprocessMain` when none precedes it; the blur that precedes the
DoF pass is handed the same input; the BloomExtract and BloomCombine passes read the same
input; the History Copy Pass, registered when TAA is on, copies from `TAAOutput` to
`HistoryBuffer`. -/
theorem Postprocessor.stages_form_a_chain (helpers : HelperPasses)
    (pp : Postprocessor) (lights : List (Nat × Light)) (rg : RenderGraph)
    (s : PostprocessSettings) (gd : GlobalBlackboardData)
    (hbb : rg.blackboard.global_data = some gd) :
    ∃ (pp' : Postprocessor) (rg' : RenderGraph),
      Postprocessor.AddPasses helpers pp lights rg s = Except.ok (pp', rg') ∧
      (∀ (stage : Stage), stage.enabled s = true → ∀ reader ∈ stage.readers,
        ∃ p ∈ own_passes (added_events rg rg'), p.name = reader.1) ∧
      (∀ (stage : Stage), ∀ reader ∈ stage.readers, ∀ p ∈ own_passes (added_events rg rg'),
        p.name = reader.1 → token_resource p reader.2 = some (spec_chain_input s stage)) ∧
      (s.dof = true → HelperCall.blur_pass (spec_chain_input s Stage.DoF)
        RGResourceName.BlurredDofInput "DoF" ∈ helper_calls (added_events rg rg')) ∧
      (∀ src dst, HelperCall.blur_pass src dst "DoF" ∈ helper_calls (added_events rg rg') →
        src = spec_chain_input s Stage.DoF ∧ dst = RGResourceName.BlurredDofInput) ∧
      (Stage.TAA.enabled s = true →
        ∃ p ∈ own_passes (added_events rg rg'), p.name = "History Copy Pass") ∧
      (∀ p ∈ own_passes (added_events rg rg'), p.name = "History Copy Pass" →
        token_resource p "copy_src" = some RGResourceName.TAAOutput ∧
        token_resource p "copy_dst" = some RGResourceName.HistoryBuffer) := by
  refine ⟨_, _, Postprocessor.AddPasses_eq helpers pp gd lights rg s hbb, ?_⟩
  rw [Postprocessor.added_events_extend]
  refine ⟨?_, ?_, ?_, ?_, ?_, ?_⟩
  · intro stage h
    exact Postprocessor.mem_own_passes_registered_of_stage helpers pp gd lights s stage h
  · intro stage reader hr p hp hname
    exact (Postprocessor.stage_inputs_registered helpers pp gd lights s p hp).1 stage reader hr
      hname
  · intro h
    rw [Postprocessor.spec_chain_input_dof]
    unfold Postprocessor.registered Postprocessor.registered_sun Postprocessor.registered_bloom
      Postprocessor.registered_motion_blur Postprocessor.registered_dof
    simp [helper_calls_append, Postprocessor.dof_events, h,
      Postprocessor.helper_calls_helper_event]
  · intro src dst hmem
    rw [Postprocessor.spec_chain_input_dof]
    refine Postprocessor.helper_calls_registered_cases helpers pp gd lights s
      (fun call => call = HelperCall.blur_pass src dst "DoF" →
        src = Postprocessor.resource_after_fog s ∧ dst = RGResourceName.BlurredDofInput)
      ?_ ?_ ?_ ?_ ?_ (HelperCall.blur_pass src dst "DoF") hmem rfl
    · intro _ h
      simp at h
    · intro _ h
      simp at h
    · intro _ h
      simp only [HelperCall.blur_pass.injEq, and_true] at h
      exact ⟨h.1.symm, h.2.symm⟩
    · intro _ h
      simp at h
    · intro _ _ _ h
      simp at h
  · intro h
    have h' : HasAnyFlag s.anti_aliasing AntiAliasing.AntiAliasing_TAA = true := by
      simpa [Stage.enabled] using h
    refine ⟨Postprocessor.AddHistoryCopyPass.pass
      (Postprocessor.during pp s RGResourceName.TAAOutput) RGResourceName.TAAOutput, ?_, rfl⟩
    unfold Postprocessor.registered
    simp [own_passes_append, Postprocessor.taa_events, h', own_passes]
  · intro p hp
    exact (Postprocessor.stage_inputs_registered helpers pp gd lights s p hp).2

/-- Witness of C18 on the concrete frame, every stage on: the Fog Pass reads `SSR_Output`, the
two bloom passes read `MotionBlurOutput`, the DoF blur is handed `FogOutput` and the History
Copy Pass copies from `TAAOutput`. -/
theorem Postprocessor.stages_form_a_chain_witness :
    sample_graph.blackboard.global_data = some sample_global_data ∧
    ∃ (pp' : Postprocessor) (rg' : RenderGraph),
      Postprocessor.AddPasses sample_helpers sample_postprocessor sample_lights sample_graph
        sample_settings = Except.ok (pp', rg') ∧
      (∃ p ∈ own_passes (added_events sample_graph rg'), p.name = "Fog Pass" ∧
        token_resource p "input" = some RGResourceName.SSR_Output) ∧
      (∃ p ∈ own_passes (added_events sample_graph rg'), p.name = "BloomExtract Pass" ∧
        token_resource p "input" = some RGResourceName.MotionBlurOutput) ∧
      (∃ p ∈ own_passes (added_events sample_graph rg'), p.name = "BloomCombine Pass" ∧
        token_resource p "input" = some RGResourceName.MotionBlurOutput) ∧
      HelperCall.blur_pass RGResourceName.FogOutput RGResourceName.BlurredDofInput "DoF"
        ∈ helper_calls (added_events sample_graph rg') ∧
      (∃ p ∈ own_passes (added_events sample_graph rg'), p.name = "History Copy Pass" ∧
        token_resource p "copy_src" = some RGResourceName.TAAOutput) := by
  obtain ⟨pp', rg', h1, hex, hin, hblur, _, hhist, hcopy⟩ :=
    Postprocessor.stages_form_a_chain sample_helpers sample_postprocessor sample_lights
      sample_graph sample_settings sample_global_data rfl
  refine ⟨rfl, pp', rg', h1, ?_, ?_, ?_, hblur rfl, ?_⟩
  · obtain ⟨p, hp, hname⟩ := hex Stage.Fog rfl ("Fog Pass", "input") (by decide)
    exact ⟨p, hp, hname, hin Stage.Fog ("Fog Pass", "input") (by decide) p hp hname⟩
  · obtain ⟨p, hp, hname⟩ := hex Stage.Bloom rfl ("BloomExtract Pass", "input") (by decide)
    exact ⟨p, hp, hname, hin Stage.Bloom ("BloomExtract Pass", "input") (by decide) p hp hname⟩
  · obtain ⟨p, hp, hname⟩ := hex Stage.Bloom rfl ("BloomCombine Pass", "input") (by decide)
    exact ⟨p, hp, hname, hin Stage.Bloom ("BloomCombine Pass", "input") (by decide) p hp hname⟩
  · obtain ⟨p, hp, hname⟩ := hhist rfl
    exact ⟨p, hp, hname, (hcopy p hp hname).1⟩

/-! ## The second loop -/

namespace Postprocessor

theorem own_passes_registered_bloom_names (helpers : HelperPasses) (pp : Postprocessor)
    (gd : GlobalBlackboardData) (lights : List (Nat × Light)) (s : PostprocessSettings) :
    ∀ p ∈ own_passes (registered_bloom helpers pp gd lights s),
      p.name ≠ "Sun Pass" ∧ p.name ≠ "GodRays Pass" := by
  unfold registered_bloom registered_motion_blur registered_dof
    registered_fog registered_ssr registered_clouds registered_main
  simp only [own_passes_append, List.mem_append]
  rintro p (((((((hp | hp) | hp) | hp) | hp) | hp) | hp) | hp)
  · revert p
    simp [own_passes, AddVelocityBufferPass.pass, AddCopyHDRPass.pass]
  · obtain ⟨light, rfl⟩ := own_passes_lens_flare _ gd lights p hp
    simp [AddLensFlarePass.pass]
  · revert p
    unfold clouds_events
    split_ifs <;> simp [own_passes, own_passes_helper, AddVolumetricCloudsPass.pass]
  · revert p
    unfold ssr_events
    split_ifs <;> simp [own_passes, AddSSRPass.pass]
  · revert p
    unfold fog_events
    split_ifs <;> simp [own_passes, AddFogPass.pass]
  · revert p
    unfold dof_events
    split_ifs <;> simp [own_passes, own_passes_helper, AddDepthOfFieldPass.pass]
  · revert p
    unfold motion_blur_events
    split_ifs <;> simp [own_passes, AddMotionBlurPass.pass]
  · revert p
    unfold bloom_events
    split_ifs <;>
      simp [own_passes, own_passes_helper, AddBloomPass.extract_pass, AddBloomPass.combine_pass]

theorem own_passes_taa_names (pp : Postprocessor) (gd : GlobalBlackboardData)
    (s : PostprocessSettings) :
    ∀ p ∈ own_passes (taa_events pp gd s),
      p.name ≠ "Sun Pass" ∧ p.name ≠ "GodRays Pass" := by
  unfold taa_events
  split_ifs <;> simp [own_passes, AddTAAPass.pass, AddHistoryCopyPass.pass]

theorem helper_calls_registered_bloom_additive (helpers : HelperPasses) (pp : Postprocessor)
    (gd : GlobalBlackboardData) (lights : List (Nat × Light)) (s : PostprocessSettings) :
    ∀ call ∈ helper_calls (registered_bloom helpers pp gd lights s),
      is_additive_copy call = false := by
  unfold registered_bloom registered_motion_blur registered_dof
    registered_fog registered_ssr registered_clouds registered_main
  simp only [helper_calls_append, List.mem_append]
  rintro call (((((((hc | hc) | hc) | hc) | hc) | hc) | hc) | hc)
  · simp [helper_calls] at hc
  · rw [helper_calls_lens_flare] at hc
    simp at hc
  · revert call
    unfold clouds_events
    split_ifs <;> simp [helper_calls, helper_calls_helper_event, is_additive_copy]
  · revert call
    unfold ssr_events
    split_ifs <;> simp [helper_calls]
  · revert call
    unfold fog_events
    split_ifs <;> simp [helper_calls]
  · revert call
    unfold dof_events
    split_ifs <;> simp [helper_calls, helper_calls_helper_event, is_additive_copy]
  · revert call
    unfold motion_blur_events
    split_ifs <;> simp [helper_calls]
  · revert call
    unfold bloom_events
    split_ifs <;> simp [helper_calls, helper_calls_helper_event, is_additive_copy]

theorem helper_calls_taa (pp : Postprocessor) (gd : GlobalBlackboardData)
    (s : PostprocessSettings) : helper_calls (taa_events pp gd s) = [] := by
  unfold taa_events
  split_ifs <;> simp [helper_calls]

end Postprocessor

/-- C19. For every list of lights, what one call of `Postprocessor::AddPasses` registers is
the registrations of the stages up to bloom, then the registrations of the second loop, then
those of the TAA stage.  The second loop registers, if some active light is `Directional`, for
the first such light in iteration order: one Sun Pass for that light, a GodRays Pass if the
light has `god_rays`, and one additive copy into the final resource as it stands after the
bloom stage, from `GodRaysOutput` if the light has `god_rays` and from `SunOutput` otherwise;
and nothing if no active light is `Directional`.  No other Sun Pass, GodRays Pass or additive
copy is registered by the call, whatever lights come later. -/
theorem Postprocessor.one_Sun_Pass_for_the_first_directional_light (helpers : HelperPasses)
    (pp : Postprocessor) (lights : List (Nat × Light)) (rg : RenderGraph)
    (s : PostprocessSettings) (gd : GlobalBlackboardData)
    (hbb : rg.blackboard.global_data = some gd) :
    ∃ (pp' : Postprocessor) (rg' : RenderGraph) (before after : List RGEvent),
      Postprocessor.AddPasses helpers pp lights rg s = Except.ok (pp', rg') ∧
      added_events rg rg'
        = before
          ++ Postprocessor.spec_sun_registration helpers
              (Postprocessor.during pp s (Postprocessor.resource_after_bloom s)) gd
              (first_active_directional lights)
          ++ after ∧
      (∀ p ∈ own_passes before ++ own_passes after,
        p.name ≠ "Sun Pass" ∧ p.name ≠ "GodRays Pass") ∧
      (∀ call ∈ helper_calls before ++ helper_calls after, is_additive_copy call = false) := by
  refine ⟨_, _, Postprocessor.registered_bloom helpers pp gd lights s,
    Postprocessor.taa_events pp gd s,
    Postprocessor.AddPasses_eq helpers pp gd lights rg s hbb, ?_, ?_, ?_⟩
  · rw [Postprocessor.added_events_extend, ← Postprocessor.sun_events_eq]
    rfl
  · intro p hp
    rcases List.mem_append.1 hp with hp | hp
    · exact Postprocessor.own_passes_registered_bloom_names helpers pp gd lights s p hp
    · exact Postprocessor.own_passes_taa_names pp gd s p hp
  · intro call hc
    rcases List.mem_append.1 hc with hc | hc
    · exact Postprocessor.helper_calls_registered_bloom_additive helpers pp gd lights s call hc
    · rw [Postprocessor.helper_calls_taa] at hc
      simp at hc

/-- C20. Every GodRays Pass that `Postprocessor::AddPasses` registers captures an active light
of the list whose type is `Directional`, so its execute callback never takes the branch that
logs the warning; a LensFlare Pass is registered for every active light with `lens_flare` set,
whatever its type, and for a light that is not `Directional` its execute callback logs the
warning and returns. -/
theorem Postprocessor.GodRays_only_for_directional_lights (helpers : HelperPasses)
    (pp : Postprocessor) (lights : List (Nat × Light)) (rg : RenderGraph)
    (s : PostprocessSettings) (gd : GlobalBlackboardData)
    (hbb : rg.blackboard.global_data = some gd) :
    ∃ (pp' : Postprocessor) (rg' : RenderGraph),
      Postprocessor.AddPasses helpers pp lights rg s = Except.ok (pp', rg') ∧
      (∀ p ∈ own_passes (added_events rg rg'), p.name = "GodRays Pass" →
        ∃ e light, (e, light) ∈ lights ∧ light.active = true ∧
          light.type = ELightType.Directional ∧
          p.execute = ExecuteCallback.GodRays gd light ∧
          ∀ (pp_run : Postprocessor) (DivideAndRoundUp : Nat → Nat → Nat)
            (fp_run : VolumetricFogPass) (blue_noise_idx descriptor_index : Nat)
            (level message : String),
            ExecOp.Log level message
              ∉ p.execute.run pp_run DivideAndRoundUp fp_run blue_noise_idx descriptor_index) ∧
      (∀ e light, (e, light) ∈ lights → light.active = true → light.lens_flare = true →
        ∃ p ∈ own_passes (added_events rg rg'), p.name = "LensFlare Pass" ∧
          p.execute = ExecuteCallback.LensFlare gd light ∧
          (light.type ≠ ELightType.Directional →
            ∀ (pp_run : Postprocessor) (DivideAndRoundUp : Nat → Nat → Nat)
              (fp_run : VolumetricFogPass) (blue_noise_idx descriptor_index : Nat),
              p.execute.run pp_run DivideAndRoundUp fp_run blue_noise_idx descriptor_index
                = [ExecOp.Log "WARNING"
                    "Using Lens Flare on a Non-Directional Light Source"])) := by
  refine ⟨_, _, Postprocessor.AddPasses_eq helpers pp gd lights rg s hbb, ?_, ?_⟩
  · rw [Postprocessor.added_events_extend]
    apply Postprocessor.own_passes_registered_cases
    case hgod =>
      intro e light hmem hactive hdir _ _
      refine ⟨e, light, hmem, hactive, hdir, rfl, ?_⟩
      intro pp_run D fp_run b i level message
      simp [Postprocessor.AddGodRaysPass.pass, ExecuteCallback.run,
        Postprocessor.AddGodRaysPass.execute, hdir]
    all_goals
      intros
      rename_i hname
      revert hname
      simp [Postprocessor.AddVelocityBufferPass.pass, Postprocessor.AddCopyHDRPass.pass,
        Postprocessor.AddLensFlarePass.pass, Postprocessor.AddVolumetricCloudsPass.pass,
        Postprocessor.AddSSRPass.pass, Postprocessor.AddFogPass.pass,
        Postprocessor.AddDepthOfFieldPass.pass, Postprocessor.AddMotionBlurPass.pass,
        Postprocessor.AddBloomPass.extract_pass, Postprocessor.AddBloomPass.combine_pass,
        Postprocessor.AddSunPass.pass, Postprocessor.AddTAAPass.pass,
        Postprocessor.AddHistoryCopyPass.pass]
  · rw [Postprocessor.added_events_extend]
    intro e light hmem hactive hflare
    refine ⟨Postprocessor.AddLensFlarePass.pass
      (Postprocessor.during pp s RGResourceName.PostprocessMain) gd light, ?_, rfl, rfl, ?_⟩
    · unfold Postprocessor.registered Postprocessor.registered_sun
        Postprocessor.registered_bloom Postprocessor.registered_motion_blur
        Postprocessor.registered_dof Postprocessor.registered_fog Postprocessor.registered_ssr
        Postprocessor.registered_clouds Postprocessor.registered_main
      simp only [own_passes_append, List.mem_append]
      have := Postprocessor.mem_own_passes_lens_flare
        (Postprocessor.during pp s RGResourceName.PostprocessMain) gd lights e light hmem
        hactive hflare
      tauto
    · intro hnd pp_run D fp_run b i
      simp [Postprocessor.AddLensFlarePass.pass, ExecuteCallback.run,
        Postprocessor.AddLensFlarePass.execute, hnd]

/-- Witness of C19 on the concrete frame: the first active directional light is entity 2,
which has god rays; entity 1 is directional but inactive, entity 3 is a later active
directional light.  Exactly one Sun Pass and one additive copy are registered. -/
theorem Postprocessor.one_Sun_Pass_for_the_first_directional_light_witness :
    sample_graph.blackboard.global_data = some sample_global_data ∧
    first_active_directional sample_lights
      = some (2, { type := ELightType.Directional, lens_flare := true, god_rays := true }) ∧
    ∃ (pp' : Postprocessor) (rg' : RenderGraph) (before after : List RGEvent),
      Postprocessor.AddPasses sample_helpers sample_postprocessor sample_lights sample_graph
        sample_settings = Except.ok (pp', rg') ∧
      added_events sample_graph rg'
        = before
          ++ Postprocessor.spec_sun_registration sample_helpers
              (Postprocessor.during sample_postprocessor sample_settings
                (Postprocessor.resource_after_bloom sample_settings)) sample_global_data
              (first_active_directional sample_lights)
          ++ after ∧
      (∀ p ∈ own_passes before ++ own_passes after,
        p.name ≠ "Sun Pass" ∧ p.name ≠ "GodRays Pass") ∧
      (∀ call ∈ helper_calls before ++ helper_calls after, is_additive_copy call = false) ∧
      ((own_passes (added_events sample_graph rg')).map RGPass.name).count "Sun Pass" = 1 ∧
      (helper_calls (added_events sample_graph rg')).filter is_additive_copy
        = [HelperCall.copy_to_texture_pass RGResourceName.BloomOutput
            RGResourceName.GodRaysOutput EBlendMode.AdditiveBlend] := by
  obtain ⟨pp', rg', before, after, h1, h2, h3, h4⟩ :=
    Postprocessor.one_Sun_Pass_for_the_first_directional_light sample_helpers
      sample_postprocessor sample_lights sample_graph sample_settings sample_global_data rfl
  have e := Postprocessor.AddPasses_eq sample_helpers sample_postprocessor sample_global_data
    sample_lights sample_graph sample_settings rfl
  rw [e] at h1
  cases h1
  refine ⟨rfl, by decide, _, _, before, after, e, h2, h3, h4, ?_, ?_⟩
  · rw [Postprocessor.added_events_extend]
    decide
  · rw [Postprocessor.added_events_extend]
    decide

/-- Witness of C20 on the concrete frame: the GodRays Pass captures the directional light of
entity 2; a LensFlare Pass is registered for the point light of entity 0, and its execute
callback logs the warning. -/
theorem Postprocessor.GodRays_only_for_directional_lights_witness :
    sample_graph.blackboard.global_data = some sample_global_data ∧
    ∃ (pp' : Postprocessor) (rg' : RenderGraph),
      Postprocessor.AddPasses sample_helpers sample_postprocessor sample_lights sample_graph
        sample_settings = Except.ok (pp', rg') ∧
      (∃ p ∈ own_passes (added_events sample_graph rg'), p.name = "GodRays Pass" ∧
        ∃ e light, (e, light) ∈ sample_lights ∧ light.active = true ∧
          light.type = ELightType.Directional ∧
          p.execute = ExecuteCallback.GodRays sample_global_data light) ∧
      (∃ p ∈ own_passes (added_events sample_graph rg'), p.name = "LensFlare Pass" ∧
        p.execute = ExecuteCallback.LensFlare sample_global_data
          { type := ELightType.NonDirectional 1, lens_flare := true } ∧
        p.execute.run sample_postprocessor (fun a b => (a + b - 1) / b) sample_fog_pass 0 16
          = [ExecOp.Log "WARNING" "Using Lens Flare on a Non-Directional Light Source"]) := by
  obtain ⟨pp', rg', h1, hgod, hflare⟩ :=
    Postprocessor.GodRays_only_for_directional_lights sample_helpers sample_postprocessor
      sample_lights sample_graph sample_settings sample_global_data rfl
  have e := Postprocessor.AddPasses_eq sample_helpers sample_postprocessor sample_global_data
    sample_lights sample_graph sample_settings rfl
  rw [e] at h1
  cases h1
  refine ⟨rfl, _, _, e, ?_, ?_⟩
  · have hp : Postprocessor.AddGodRaysPass.pass
        (Postprocessor.during sample_postprocessor sample_settings
          (Postprocessor.resource_after_bloom sample_settings)) sample_global_data
        { type := ELightType.Directional, lens_flare := true, god_rays := true }
        ∈ own_passes (added_events sample_graph (sample_graph.extend
          (Postprocessor.registered sample_helpers sample_postprocessor sample_global_data
            sample_lights sample_settings))) := by
      rw [Postprocessor.added_events_extend]
      decide
    obtain ⟨e', light, hmem, hactive, hdir, hexec, _⟩ := hgod _ hp rfl
    exact ⟨_, hp, rfl, e', light, hmem, hactive, hdir, hexec⟩
  · obtain ⟨p, hp, hname, hexec, hwarn⟩ :=
      hflare 0 { type := ELightType.NonDirectional 1, lens_flare := true } (by decide) rfl rfl
    exact ⟨p, hp, hname, hexec,
      hwarn (by decide) sample_postprocessor (fun a b => (a + b - 1) / b) sample_fog_pass 0 16⟩

/-! ## Camera -/

/-- C21, as the code has it.  A camera constructed from `desc` stores the two planes
exchanged: `Near()` is `desc.far_plane` and `Far()` is `desc.near_plane`; `Fov()` is `desc.fov`
and `AspectRatio()` is 1.  `SetFov` and `SetAspectRatio` leave the planes as they are, and after
`SetNearAndFar(n, f)` the camera reports `Near() = n` and `Far() = f`.  The projection of a
constructed camera is built from the stored members, so with the planes exchanged. -/
theorem Camera.construct_stores_the_planes_exchanged (desc : CameraParameters) :
    (Camera.construct desc).Near = desc.far_plane ∧
    (Camera.construct desc).Far = desc.near_plane ∧
    (Camera.construct desc).Fov = desc.fov ∧
    (Camera.construct desc).AspectRatio = 1 ∧
    (∀ v, ((Camera.construct desc).SetFov v).Near = desc.far_plane ∧
      ((Camera.construct desc).SetFov v).Far = desc.near_plane) ∧
    (∀ ar, ((Camera.construct desc).SetAspectRatio ar).Near = desc.far_plane ∧
      ((Camera.construct desc).SetAspectRatio ar).Far = desc.near_plane) ∧
    (∀ n f, ((Camera.construct desc).SetNearAndFar n f).Near = n ∧
      ((Camera.construct desc).SetNearAndFar n f).Far = f) ∧
    (∀ ar, ((Camera.construct desc).SetAspectRatio ar).projection_matrix
      = some (desc.fov, ar, desc.far_plane, desc.near_plane)) :=
  ⟨rfl, rfl, rfl, rfl, fun _ => ⟨rfl, rfl⟩, fun _ => ⟨rfl, rfl⟩, fun _ _ => ⟨rfl, rfl⟩,
    fun _ => rfl⟩

/-- C21 as stated fails: for the description with the near plane at 1/10 and the far plane at
1000 the constructed camera reports `Near() = 1000` and `Far() = 1/10`. -/
theorem Camera.Near_of_a_constructed_camera_is_the_far_plane :
    sample_camera_parameters.near_plane = 1 / 10 ∧
    sample_camera_parameters.far_plane = 1000 ∧
    (Camera.construct sample_camera_parameters).Near = 1000 ∧
    (Camera.construct sample_camera_parameters).Far = 1 / 10 ∧
    (Camera.construct sample_camera_parameters).Near ≠ sample_camera_parameters.near_plane ∧
    (Camera.construct sample_camera_parameters).Far ≠ sample_camera_parameters.far_plane := by
  refine ⟨rfl, rfl, rfl, rfl, ?_, ?_⟩ <;>
    simp [Camera.construct, Camera.Near, Camera.Far, sample_camera_parameters] <;> norm_num

theorem Camera.Jitter_index_lt (frame_index : Nat) : Camera.Jitter.index frame_index < 16 :=
  Nat.mod_lt _ (by decide)

theorem Camera.Jitter_index_add (n : Nat) :
    Camera.Jitter.index ((n + 16) % 2 ^ 32) = Camera.Jitter.index n := by
  unfold Camera.Jitter.index
  omega

/-- C22. For tables of sixteen entries and every frame counter `n`, so for every 32-bit one:
the index `n % 16` at which `Camera::Jitter` reads both tables is below 16, so the reads have a value;
the result depends on the tables only through the entries at that index; and `Jitter` returns
the same for `n` and for `(n + 16) mod 2^32`, the counter sixteen frames later, wrapped. -/
theorem Camera.Jitter_has_period_sixteen (x y : List Rat) (hx : x.length = 16)
    (hy : y.length = 16) (n : Nat) :
    Camera.Jitter.index n < 16 ∧
    (∃ jitter, Camera.Jitter x y n = some jitter) ∧
    (∀ (x' y' : List Rat), x'[Camera.Jitter.index n]? = x[Camera.Jitter.index n]? →
      y'[Camera.Jitter.index n]? = y[Camera.Jitter.index n]? →
      Camera.Jitter x' y' n = Camera.Jitter x y n) ∧
    Camera.Jitter x y ((n + 16) % 2 ^ 32) = Camera.Jitter x y n := by
  have hlt := Camera.Jitter_index_lt n
  refine ⟨hlt, ?_, ?_, ?_⟩
  · unfold Camera.Jitter
    rw [List.getElem?_eq_getElem (by omega), List.getElem?_eq_getElem (by omega)]
    exact ⟨_, rfl⟩
  · intro x' y' h1 h2
    unfold Camera.Jitter
    rw [h1, h2]
  · unfold Camera.Jitter
    rw [Camera.Jitter_index_add n]

/-- Witness of C22 at the last value of the counter: sixteen frames after frame `2^32 - 1`
the counter has wrapped to 15, and the jitter is the same. -/
theorem Camera.Jitter_has_period_sixteen_witness :
    sample_halton_table.length = 16 ∧ 4294967295 < 2 ^ 32 ∧
    (4294967295 + 16) % 2 ^ 32 = 15 ∧
    Camera.Jitter.index 4294967295 < 16 ∧
    (∃ jitter, Camera.Jitter sample_halton_table sample_halton_table 4294967295
      = some jitter) ∧
    (∀ (x' y' : List Rat),
      x'[Camera.Jitter.index 4294967295]?
        = sample_halton_table[Camera.Jitter.index 4294967295]? →
      y'[Camera.Jitter.index 4294967295]?
        = sample_halton_table[Camera.Jitter.index 4294967295]? →
      Camera.Jitter x' y' 4294967295
        = Camera.Jitter sample_halton_table sample_halton_table 4294967295) ∧
    Camera.Jitter sample_halton_table sample_halton_table ((4294967295 + 16) % 2 ^ 32)
      = Camera.Jitter sample_halton_table sample_halton_table 4294967295 :=
  ⟨by decide, by norm_num, by norm_num,
    Camera.Jitter_has_period_sixteen sample_halton_table sample_halton_table (by decide)
      (by decide) 4294967295⟩

/-! ## GfxCapabilities -/

/-- C23. `GfxCapabilities::Initialize` returns false exactly if the highest shader model of
the device, kept as a 16-bit value, is below `D3D_SHADER_MODEL_6_6`, and then it logs the
error; whatever it returns, the three support members hold the converted tiers and
`shader_model` the 16-bit value.  The three converters have a value for every tier: each tier
they name goes to the level of the same name, every other value to `TierNotSupported`. -/
theorem GfxCapabilities.Initialize_returns_false_below_shader_model_6_6
    (D3D_SHADER_MODEL_6_6 : Nat) (capabilities : GfxCapabilities)
    (feature_support : FeatureSupport) :
    ((GfxCapabilities.Initialize D3D_SHADER_MODEL_6_6 capabilities feature_support).returned
        = false ↔ feature_support.HighestShaderModel % 2 ^ 16 < D3D_SHADER_MODEL_6_6) ∧
    ((GfxCapabilities.Initialize D3D_SHADER_MODEL_6_6 capabilities feature_support).returned
        = false ↔
      (GfxCapabilities.Initialize D3D_SHADER_MODEL_6_6 capabilities feature_support).log
        = [("ERROR", "Device doesn't support Shader Model 6.6 which is required!")]) ∧
    (GfxCapabilities.Initialize D3D_SHADER_MODEL_6_6 capabilities feature_support).capabilities
      = { ray_tracing_support := ConvertRayTracingTier feature_support.RaytracingTier,
          vsr_support := ConvertVSRTier feature_support.VariableShadingRateTier,
          mesh_shader_support := ConvertMeshShaderTier feature_support.MeshShaderTier,
          shader_model := feature_support.HighestShaderModel % 2 ^ 16 } ∧
    (ConvertRayTracingTier D3D12_RAYTRACING_TIER.D3D12_RAYTRACING_TIER_NOT_SUPPORTED
        = RayTracingSupport.TierNotSupported ∧
      ConvertRayTracingTier D3D12_RAYTRACING_TIER.D3D12_RAYTRACING_TIER_1_0
        = RayTracingSupport.Tier1_0 ∧
      ConvertRayTracingTier D3D12_RAYTRACING_TIER.D3D12_RAYTRACING_TIER_1_1
        = RayTracingSupport.Tier1_1 ∧
      ∀ value, ConvertRayTracingTier (D3D12_RAYTRACING_TIER.Other value)
        = RayTracingSupport.TierNotSupported) ∧
    (ConvertVSRTier
        D3D12_VARIABLE_SHADING_RATE_TIER.D3D12_VARIABLE_SHADING_RATE_TIER_NOT_SUPPORTED
        = VSRSupport.TierNotSupported ∧
      ConvertVSRTier D3D12_VARIABLE_SHADING_RATE_TIER.D3D12_VARIABLE_SHADING_RATE_TIER_1
        = VSRSupport.Tier1 ∧
      ConvertVSRTier D3D12_VARIABLE_SHADING_RATE_TIER.D3D12_VARIABLE_SHADING_RATE_TIER_2
        = VSRSupport.Tier2 ∧
      ∀ value, ConvertVSRTier (D3D12_VARIABLE_SHADING_RATE_TIER.Other value)
        = VSRSupport.TierNotSupported) ∧
    (ConvertMeshShaderTier D3D12_MESH_SHADER_TIER.D3D12_MESH_SHADER_TIER_NOT_SUPPORTED
        = MeshShaderSupport.TierNotSupported ∧
      ConvertMeshShaderTier D3D12_MESH_SHADER_TIER.D3D12_MESH_SHADER_TIER_1
        = MeshShaderSupport.Tier1 ∧
      ∀ value, ConvertMeshShaderTier (D3D12_MESH_SHADER_TIER.Other value)
        = MeshShaderSupport.TierNotSupported) := by
  refine ⟨?_, ?_, ?_, ⟨rfl, rfl, rfl, fun _ => rfl⟩, ⟨rfl, rfl, rfl, fun _ => rfl⟩,
    ⟨rfl, rfl, fun _ => rfl⟩⟩
  · unfold GfxCapabilities.Initialize
    simp only
    split_ifs with h
    · simpa using h
    · simpa using h
  · unfold GfxCapabilities.Initialize
    simp only
    split_ifs <;> simp
  · unfold GfxCapabilities.Initialize
    simp only
    split_ifs <;> rfl

/-- Witness of C23 with shader model 6.6 at `0x66`: a device at `0x65` is refused, with the
support members assigned all the same, and a device at `0x67` is accepted. -/
theorem GfxCapabilities.Initialize_returns_false_below_shader_model_6_6_witness :
    (GfxCapabilities.Initialize 0x66 sample_capabilities (sample_feature_support 0x65)).returned
      = false ∧
    (GfxCapabilities.Initialize 0x66 sample_capabilities
        (sample_feature_support 0x65)).capabilities
      = { ray_tracing_support := RayTracingSupport.Tier1_1,
          vsr_support := VSRSupport.TierNotSupported,
          mesh_shader_support := MeshShaderSupport.Tier1, shader_model := 0x65 } ∧
    (GfxCapabilities.Initialize 0x66 sample_capabilities (sample_feature_support 0x67)).returned
      = true :=
  ⟨(GfxCapabilities.Initialize_returns_false_below_shader_model_6_6 0x66 sample_capabilities
      (sample_feature_support 0x65)).1.2 (by decide),
    (GfxCapabilities.Initialize_returns_false_below_shader_model_6_6 0x66 sample_capabilities
      (sample_feature_support 0x65)).2.2.1,
    by decide⟩

/-! ## Mesh -/

theorem VolumetricFogPass.construct_eq (DivideAndRoundUp : Nat → Nat → Nat)
    (texture_address w h fog_volume_buffer_idx fog_volume_count : Nat)
    (temporal_lighting : Bool) :
    VolumetricFogPass.construct DivideAndRoundUp texture_address w h fog_volume_buffer_idx
        fog_volume_count temporal_lighting
      = { width := w, height := h,
          light_injection_target_history := some ⟨texture_address,
            { type := some GfxTextureType.GfxTextureType_3D,
              width := some (DivideAndRoundUp w 8), height := some (DivideAndRoundUp h 8),
              depth := some 128, format := some Format.R16G16B16A16_FLOAT,
              bind_flags := some "ShaderResource", initial_state := some "CopyDst" }⟩,
          fog_volume_buffer_idx := fog_volume_buffer_idx,
          fog_volume_count := fog_volume_count, temporal_lighting := temporal_lighting } :=
  rfl

/-- C25. For every width and height given to the constructor of `VolumetricFogPass`: the
history texture it builds is 3D, `DivideAndRoundUp(width, 8)` by `DivideAndRoundUp(height, 8)`
by 128, in format `R16G16B16A16_FLOAT`; in every frame `AddPasses` declares
`FogLightInjectionTarget` and `FogFinal`, and nothing else, each with the type, width, height,
depth and format of the history texture; it names that texture as export destination of
`FogLightInjectionTarget`; and each pass that declares one of the two dispatches thread-group
counts, read from the history texture, that reach over the declared width, height and depth.
`DivideAndRoundUp` is outside the sources: it is assumed that eight times
`DivideAndRoundUp(n, 8)` is at least `n`. -/
theorem VolumetricFogPass.declared_targets_match_the_history_texture
    (DivideAndRoundUp : Nat → Nat → Nat) (hD : ∀ n, n ≤ 8 * DivideAndRoundUp n 8)
    (texture_address w h fog_volume_buffer_idx fog_volume_count : Nat)
    (temporal_lighting : Bool) (rg : RenderGraph) (fog_volume_buffer_srv_gpu : Nat)
    (fd : FrameBlackboardData) (hfd : rg.blackboard.frame_data = some fd)
    (pp_run : Postprocessor) (blue_noise_idx descriptor_index : Nat) :
    ∃ (texture : Texture) (fp' : VolumetricFogPass) (rg' : RenderGraph),
      (VolumetricFogPass.construct DivideAndRoundUp texture_address w h fog_volume_buffer_idx
        fog_volume_count temporal_lighting).light_injection_target_history = some texture ∧
      texture.desc.type = some GfxTextureType.GfxTextureType_3D ∧
      texture.desc.width = some (DivideAndRoundUp w 8) ∧
      texture.desc.height = some (DivideAndRoundUp h 8) ∧
      texture.desc.depth = some 128 ∧
      texture.desc.format = some Format.R16G16B16A16_FLOAT ∧
      VolumetricFogPass.AddPasses DivideAndRoundUp
        (VolumetricFogPass.construct DivideAndRoundUp texture_address w h fog_volume_buffer_idx
          fog_volume_count temporal_lighting) rg fog_volume_buffer_srv_gpu
        = Except.ok (fp', rg') ∧
      fp'.light_injection_target_history = some texture ∧
      (∃ p ∈ own_passes (added_events rg rg'), ∃ desc,
        (RGResourceName.FogLightInjectionTarget, desc) ∈ declared_descs p) ∧
      (∃ p ∈ own_passes (added_events rg rg'), ∃ desc,
        (RGResourceName.FogFinal, desc) ∈ declared_descs p) ∧
      (∀ p ∈ own_passes (added_events rg rg'), ∀ entry ∈ declared_descs p,
        (entry.1 = RGResourceName.FogLightInjectionTarget ∨
          entry.1 = RGResourceName.FogFinal) ∧
        same_shape entry.2 texture.desc ∧
        ∀ groups ∈ dispatches (p.execute.run pp_run DivideAndRoundUp fp' blue_noise_idx
            descriptor_index),
          covers groups.1 entry.2.width ∧ covers groups.2.1 entry.2.height ∧
            covers groups.2.2 entry.2.depth) ∧
      (∀ p ∈ own_passes (added_events rg rg'), declared_descs p ≠ [] →
        (dispatches (p.execute.run pp_run DivideAndRoundUp fp' blue_noise_idx
          descriptor_index)).length = 1) ∧
      RGOp.ExportTexture RGResourceName.FogLightInjectionTarget (some texture)
        ∈ graph_ops (added_events rg rg') := by
  refine ⟨_, _, _, rfl, rfl, rfl, rfl, rfl, rfl,
    VolumetricFogPass.fog_AddPasses_eq DivideAndRoundUp _ rg fog_volume_buffer_srv_gpu fd hfd,
    rfl, ?_, ?_, ?_, ?_, ?_⟩
  · rw [Postprocessor.added_events_extend, VolumetricFogPass.fog_own_passes_registered]
    exact ⟨_, List.mem_cons_self _ _, _, List.mem_cons_self _ _⟩
  · rw [Postprocessor.added_events_extend, VolumetricFogPass.fog_own_passes_registered]
    exact ⟨_, List.mem_cons_of_mem _ (List.mem_cons_self _ _), _, List.mem_cons_self _ _⟩
  · rw [Postprocessor.added_events_extend, VolumetricFogPass.fog_own_passes_registered]
    intro p hp
    simp only [List.mem_cons, List.mem_singleton, List.not_mem_nil, or_false] at hp
    rcases hp with rfl | rfl | rfl
    · intro entry he
      simp only [declared_descs, VolumetricFogPass.AddLightInjectionPass.pass,
        VolumetricFogPass.AddLightInjectionPass.setup, List.filterMap_cons,
        List.filterMap_nil, List.mem_singleton] at he
      subst he
      refine ⟨Or.inl rfl, ⟨rfl, rfl, rfl, rfl, rfl⟩, ?_⟩
      intro groups hg
      simp only [ExecuteCallback.run, VolumetricFogPass.AddLightInjectionPass.execute,
        dispatches, List.mem_singleton] at hg
      subst hg
      exact ⟨⟨_, _, rfl, rfl, hD _⟩, ⟨_, _, rfl, rfl, hD _⟩, ⟨_, _, rfl, rfl, hD _⟩⟩
    · intro entry he
      simp only [declared_descs, VolumetricFogPass.AddScatteringIntegrationPass.pass,
        VolumetricFogPass.AddScatteringIntegrationPass.setup, List.filterMap_cons,
        List.filterMap_nil, List.mem_singleton] at he
      subst he
      refine ⟨Or.inr rfl, ⟨rfl, rfl, rfl, rfl, rfl⟩, ?_⟩
      intro groups hg
      simp only [ExecuteCallback.run, VolumetricFogPass.AddScatteringIntegrationPass.execute,
        dispatches, List.mem_singleton] at hg
      subst hg
      exact ⟨⟨_, _, rfl, rfl, hD _⟩, ⟨_, _, rfl, rfl, hD _⟩, ⟨_, _, rfl, rfl, hD _⟩⟩
    · intro entry he
      simp [declared_descs, VolumetricFogPass.AddCombineFogPass.pass,
        VolumetricFogPass.AddCombineFogPass.setup] at he
  · rw [Postprocessor.added_events_extend, VolumetricFogPass.fog_own_passes_registered]
    intro p hp
    simp only [List.mem_cons, List.mem_singleton, List.not_mem_nil, or_false] at hp
    rcases hp with rfl | rfl | rfl
    · intro _
      rfl
    · intro _
      rfl
    · intro h
      exact absurd rfl h
  · rw [Postprocessor.added_events_extend, VolumetricFogPass.graph_ops_registered]
    simp [VolumetricFogPass.construct_eq, VOXEL_TEXEL_SIZE_X, VOXEL_TEXEL_SIZE_Y,
      VOXEL_GRID_SIZE_Z]

/-- Witness of C25 for a constructor call with 1920 by 1080 and the rounding-up division
`(a + b - 1) / b`: the history texture and both declared targets are 240 by 135 by 128, and
the light injection dispatches 30 by 17 by 16 groups. -/
theorem VolumetricFogPass.declared_targets_match_the_history_texture_witness :
    (∀ n, n ≤ 8 * ((n + 8 - 1) / 8)) ∧
    sample_graph.blackboard.frame_data = some sample_frame_data ∧
    VolumetricFogPass.construct (fun a b => (a + b - 1) / b) 2 1920 1080 0 1 true
      = sample_fog_pass ∧
    sample_fog_pass.light_injection_target_history = some sample_history_texture ∧
    dispatches (VolumetricFogPass.AddLightInjectionPass.execute (fun a b => (a + b - 1) / b)
        sample_fog_pass sample_frame_data 0 16)
      = [(GroupCount.Value 30, GroupCount.Value 17, GroupCount.Value 16)] ∧
    ∃ (texture : Texture) (fp' : VolumetricFogPass) (rg' : RenderGraph),
      (VolumetricFogPass.construct (fun a b => (a + b - 1) / b) 2 1920 1080 0 1
        true).light_injection_target_history = some texture ∧
      texture.desc.type = some GfxTextureType.GfxTextureType_3D ∧
      texture.desc.width = some ((1920 + 8 - 1) / 8) ∧
      texture.desc.height = some ((1080 + 8 - 1) / 8) ∧
      texture.desc.depth = some 128 ∧
      texture.desc.format = some Format.R16G16B16A16_FLOAT ∧
      VolumetricFogPass.AddPasses (fun a b => (a + b - 1) / b)
        (VolumetricFogPass.construct (fun a b => (a + b - 1) / b) 2 1920 1080 0 1 true)
        sample_graph 7 = Except.ok (fp', rg') ∧
      fp'.light_injection_target_history = some texture ∧
      (∃ p ∈ own_passes (added_events sample_graph rg'), ∃ desc,
        (RGResourceName.FogLightInjectionTarget, desc) ∈ declared_descs p) ∧
      (∃ p ∈ own_passes (added_events sample_graph rg'), ∃ desc,
        (RGResourceName.FogFinal, desc) ∈ declared_descs p) ∧
      (∀ p ∈ own_passes (added_events sample_graph rg'), ∀ entry ∈ declared_descs p,
        (entry.1 = RGResourceName.FogLightInjectionTarget ∨
          entry.1 = RGResourceName.FogFinal) ∧
        same_shape entry.2 texture.desc ∧
        ∀ groups ∈ dispatches (p.execute.run sample_postprocessor
            (fun a b => (a + b - 1) / b) fp' 0 16),
          covers groups.1 entry.2.width ∧ covers groups.2.1 entry.2.height ∧
            covers groups.2.2 entry.2.depth) ∧
      (∀ p ∈ own_passes (added_events sample_graph rg'), declared_descs p ≠ [] →
        (dispatches (p.execute.run sample_postprocessor (fun a b => (a + b - 1) / b) fp' 0
          16)).length = 1) ∧
      RGOp.ExportTexture RGResourceName.FogLightInjectionTarget (some texture)
        ∈ graph_ops (added_events sample_graph rg') :=
  ⟨fun n => by omega, rfl, rfl, by decide, by decide,
    VolumetricFogPass.declared_targets_match_the_history_texture (fun a b => (a + b - 1) / b)
      (fun n => by show n ≤ 8 * ((n + 8 - 1) / 8); omega) 2 1920 1080 0 1 true sample_graph 7
      sample_frame_data rfl sample_postprocessor 0 16⟩

end Adria
